import Mathlib

/-! OpenMM tabulated functions.

A shallow embedding of `openmmapi/src/TabulatedFunction.cpp`: the six concrete
tabulated-function classes (`Continuous1DFunction`, `Continuous2DFunction`,
`Continuous3DFunction`, `Discrete1DFunction`, `Discrete2DFunction`,
`Discrete3DFunction`), their constructors, `getFunctionParameters`,
`setFunctionParameters`, `Copy` and `operator==`.

Conventions of the embedding.

* A C++ `double` is an IEEE-754 binary64 value, kept as its three bit fields.
  The source only copies doubles and compares them with `<=`, `!=` and `==`,
  and these comparisons are defined on the bit fields below (NaN compares
  unequal to everything and is not `<=` anything; the two zeros are equal).
* A C++ `int` is an `Int` in the range `[-2^31, 2^31)` (`IsInt`). The
  conversion of a `size_t` to `int` is reduced into that range (`wrapInt`) and
  the conversion of an `int` to `size_t` is reduced modulo `2^64` (`toSizeT`).
  A product of two `int`s is reduced into the range as well: where the C++
  product overflows, which is undefined behaviour, the embedding takes the
  two's-complement result, and the theorems that speak of the product of the
  sizes as an integer assume that it is representable.
* A `std::vector<double>` is a `List Double`; `size()` is its length.
* The data members are declared in the header `TabulatedFunction.h`, which is
  not among the sources; their types are those of the constructor arguments
  they are assigned from. `updateCount` is an `int`, as `getUpdateCount` returns
  one; its increment `updateCount++` is reduced into the range of an `int`
  like the products.
* What the base-class constructor and the default member initialisation leave
  in a new object is not in the sources either: a constructor (`construct`) takes
  that object (`raw`) as an argument, and `Copy`, which calls the constructor of a
  continuous class without its `periodic` argument, takes the value of the
  default argument (declared in the header) as an argument.
* A member function that may throw maps the object to a pair: the result of
  the call (`Except.ok ()` or the exception thrown) and the object after the
  call. A constructor that throws produces no object.
-/

namespace OpenMM

/-! ## Machine values -/

/-- An IEEE-754 binary64 value: sign bit, 11-bit biased exponent, 52-bit
mantissa field. -/
structure Double where
  sign : Bool
  exponent : Fin 2048
  mantissa : Fin 4503599627370496
deriving DecidableEq, Repr

namespace Double

/-- A NaN has all exponent bits set and a non-zero mantissa field. -/
def isNaN (d : Double) : Bool :=
  d.exponent.val == 2047 && d.mantissa.val != 0

/-- The sign-magnitude integer of a double. On values that are not NaN the
order of the doubles is the order of these integers (both zeros map to 0,
the infinities to the two extremes). -/
def key (d : Double) : Int :=
  if d.sign then -((d.exponent.val : Int) * 4503599627370496 + d.mantissa.val)
  else (d.exponent.val : Int) * 4503599627370496 + d.mantissa.val

/-- The C++ comparison `a <= b` on doubles. -/
def le (a b : Double) : Bool :=
  !a.isNaN && !b.isNaN && decide (a.key ≤ b.key)

/-- The C++ comparison `a > b` on doubles. -/
def gt (a b : Double) : Bool :=
  !a.isNaN && !b.isNaN && decide (b.key < a.key)

/-- The C++ comparison `a == b` on doubles. -/
def eq (a b : Double) : Bool :=
  !a.isNaN && !b.isNaN && decide (a.key = b.key)

/-- The C++ comparison `a != b` on doubles. -/
def ne (a b : Double) : Bool :=
  !(eq a b)

/-- The double `+0.0`. -/
def zero : Double := ⟨false, 0, 0⟩

/-- The double `-0.0`. -/
def negZero : Double := ⟨true, 0, 0⟩

/-- The double `1.0`. -/
def one : Double := ⟨false, 1023, 0⟩

/-- The double `2.0`. -/
def two : Double := ⟨false, 1024, 0⟩

/-- The double `3.0`. -/
def three : Double := ⟨false, 1024, 2251799813685248⟩

/-- The double `4.0`. -/
def four : Double := ⟨false, 1025, 0⟩

/-- The double `5.0`. -/
def five : Double := ⟨false, 1025, 1125899906842624⟩

/-- The double `6.0`. -/
def six : Double := ⟨false, 1025, 2251799813685248⟩

/-- A quiet NaN. -/
def nan : Double := ⟨false, 2047, 2251799813685248⟩

end Double

/-- Reduction of an integer into the range of a 32-bit `int`. -/
def wrapInt (i : Int) : Int :=
  (i + 2147483648) % 4294967296 - 2147483648

/-- An integer is a value of the C++ type `int`. -/
def IsInt (i : Int) : Prop :=
  -2147483648 ≤ i ∧ i < 2147483648

instance (i : Int) : Decidable (IsInt i) := by
  unfold IsInt; infer_instance

/-- The product `a*b` of two `int`s, as an `int`. -/
def mulInt (a b : Int) : Int :=
  wrapInt (a * b)

/-- The conversion of an `int` to `size_t` (64 bits, unsigned). -/
def toSizeT (i : Int) : Nat :=
  (i % 18446744073709551616).toNat

/-- The conversion of a `size_t` to `int`, as in `int n = values.size();`. -/
def sizeToInt (n : Nat) : Int :=
  wrapInt (n : Int)

/-- The call `v.size()` of a `std::vector<double>`. -/
def size (v : List Double) : Nat :=
  v.length

/-- The comparison `a == b` of two `std::vector<double>`: equal sizes and
element-wise `==` of the doubles. -/
def vectorEq : List Double → List Double → Bool
  | [], [] => true
  | a :: as, b :: bs => Double.eq a b && vectorEq as bs
  | _, _ => false

/-! ## Exceptions -/

/-- The `OpenMMException`s thrown in `TabulatedFunction.cpp`, one per message. -/
inductive OpenMMException where
  | c1dMaxLeMin
  | c1dPeriodicThreePoints
  | c1dTwoPoints
  | c2dThreePoints
  | c2dTwoPoints
  | c2dNumValues
  | c2dXmaxLeXmin
  | c2dYmaxLeYmin
  | c3dThreePoints
  | c3dTwoPoints
  | c3dNumValues
  | c3dXmaxLeXmin
  | c3dYmaxLeYmin
  | c3dZmaxLeZmin
  | d2dNumValues
  | d3dNumValues
deriving DecidableEq, Repr

/-- The message carried by each exception. -/
def OpenMMException.what : OpenMMException → String
  | .c1dMaxLeMin => "Continuous1DFunction: max <= min for a tabulated function."
  | .c1dPeriodicThreePoints =>
      "Continuous1DFunction: a periodic tabulated function must have at least three points"
  | .c1dTwoPoints =>
      "Continuous1DFunction: a non-periodic tabulated function must have at least two points"
  | .c2dThreePoints =>
      "Continuous2DFunction: must have at least three points along each axis if periodic"
  | .c2dTwoPoints => "Continuous2DFunction: must have at least two points along each axis"
  | .c2dNumValues => "Continuous2DFunction: incorrect number of values"
  | .c2dXmaxLeXmin => "Continuous2DFunction: xmax <= xmin for a tabulated function."
  | .c2dYmaxLeYmin => "Continuous2DFunction: ymax <= ymin for a tabulated function."
  | .c3dThreePoints =>
      "Continuous3DFunction: must have at least three points along each axis if periodic"
  | .c3dTwoPoints => "Continuous3DFunction: must have at least two points along each axis"
  | .c3dNumValues => "Continuous3DFunction: incorrect number of values"
  | .c3dXmaxLeXmin => "Continuous3DFunction: xmax <= xmin for a tabulated function."
  | .c3dYmaxLeYmin => "Continuous3DFunction: ymax <= ymin for a tabulated function."
  | .c3dZmaxLeZmin => "Continuous3DFunction: zmax <= zmin for a tabulated function."
  | .d2dNumValues => "Discrete2DFunction: incorrect number of values"
  | .d3dNumValues => "Discrete3DFunction: incorrect number of values"

/-- The three kinds of error of the specification. -/
inductive ErrorKind where
  | InvalidDomain
  | InsufficientSamples
  | SizeMismatch
deriving DecidableEq, Repr

/-- Modelled from the spec: the error taxonomy is not in the source, which
throws `OpenMMException` with a message. `InvalidDomain` is a `max <= min`
message, `InsufficientSamples` an "at least two/three points" message and
`SizeMismatch` an "incorrect number of values" message. -/
def OpenMMException.kind : OpenMMException → ErrorKind
  | .c1dMaxLeMin => .InvalidDomain
  | .c1dPeriodicThreePoints => .InsufficientSamples
  | .c1dTwoPoints => .InsufficientSamples
  | .c2dThreePoints => .InsufficientSamples
  | .c2dTwoPoints => .InsufficientSamples
  | .c2dNumValues => .SizeMismatch
  | .c2dXmaxLeXmin => .InvalidDomain
  | .c2dYmaxLeYmin => .InvalidDomain
  | .c3dThreePoints => .InsufficientSamples
  | .c3dTwoPoints => .InsufficientSamples
  | .c3dNumValues => .SizeMismatch
  | .c3dXmaxLeXmin => .InvalidDomain
  | .c3dYmaxLeYmin => .InvalidDomain
  | .c3dZmaxLeZmin => .InvalidDomain
  | .d2dNumValues => .SizeMismatch
  | .d3dNumValues => .SizeMismatch

/-- The outcome of a member function call on an object of type `σ`: what the
call returned or threw, and the object afterwards. -/
abbrev Call (σ : Type) := Except OpenMMException Unit × σ

/-! ## The classes -/

/-- The members of the base class `TabulatedFunction`. -/
structure TabulatedFunction where
  periodic : Bool
  updateCount : Int
deriving DecidableEq, Repr

/-- The class `Continuous1DFunction`. -/
structure Continuous1DFunction extends TabulatedFunction where
  values : List Double
  min : Double
  max : Double
deriving DecidableEq, Repr

/-- The class `Continuous2DFunction`. -/
structure Continuous2DFunction extends TabulatedFunction where
  values : List Double
  xsize : Int
  ysize : Int
  xmin : Double
  xmax : Double
  ymin : Double
  ymax : Double
deriving DecidableEq, Repr

/-- The class `Continuous3DFunction`. -/
structure Continuous3DFunction extends TabulatedFunction where
  values : List Double
  xsize : Int
  ysize : Int
  zsize : Int
  xmin : Double
  xmax : Double
  ymin : Double
  ymax : Double
  zmin : Double
  zmax : Double
deriving DecidableEq, Repr

/-- The class `Discrete1DFunction`. -/
structure Discrete1DFunction extends TabulatedFunction where
  values : List Double
deriving DecidableEq, Repr

/-- The class `Discrete2DFunction`. -/
structure Discrete2DFunction extends TabulatedFunction where
  xsize : Int
  ysize : Int
  values : List Double
deriving DecidableEq, Repr

/-- The class `Discrete3DFunction`. -/
structure Discrete3DFunction extends TabulatedFunction where
  xsize : Int
  ysize : Int
  zsize : Int
  values : List Double
deriving DecidableEq, Repr

/-- An object seen through a `const TabulatedFunction&`: an instance of one of
the six concrete classes. -/
inductive AnyFunction where
  | continuous1D (f : Continuous1DFunction)
  | continuous2D (f : Continuous2DFunction)
  | continuous3D (f : Continuous3DFunction)
  | discrete1D (f : Discrete1DFunction)
  | discrete2D (f : Discrete2DFunction)
  | discrete3D (f : Discrete3DFunction)
deriving DecidableEq, Repr

/-- The member `TabulatedFunction::getPeriodic`. -/
def TabulatedFunction.getPeriodic (self : TabulatedFunction) : Bool :=
  self.periodic

/-- The member `TabulatedFunction::getUpdateCount`. -/
def TabulatedFunction.getUpdateCount (self : TabulatedFunction) : Int :=
  self.updateCount

/-- The loop `for (i = 0; i < values.size(); i++) new_vec[i] = values[i];`
run on `new_vec`, a vector of `values.size()` zeros. -/
def copyValues (values : List Double) : List Double :=
  (List.range (size values)).foldl
    (fun new_vec i => new_vec.set i (values.getD i Double.zero))
    (List.replicate (size values) Double.zero)

/-! ### Continuous1DFunction -/

/-- The member `Continuous1DFunction::getFunctionParameters`; the three
reference arguments are returned as a tuple. -/
def Continuous1DFunction.getFunctionParameters (self : Continuous1DFunction) :
    List Double × Double × Double :=
  (self.values, self.min, self.max)

/-- The member `Continuous1DFunction::setFunctionParameters`. -/
def Continuous1DFunction.setFunctionParameters (self : Continuous1DFunction)
    (values : List Double) (min max : Double) : Call Continuous1DFunction :=
  let commit : Call Continuous1DFunction :=
    (.ok (), { self with
      values := values, min := min, max := max, updateCount := wrapInt (self.updateCount + 1) })
  if Double.le max min then
    (.error .c1dMaxLeMin, self)
  else
    let n : Int := sizeToInt (size values)
    if self.periodic then
      if n < 3 then (.error .c1dPeriodicThreePoints, self) else commit
    else if n < 2 then (.error .c1dTwoPoints, self)
    else commit

/-- The cast `dynamic_cast<const Continuous1DFunction*>(&other)`. -/
def AnyFunction.asContinuous1D : AnyFunction → Option Continuous1DFunction
  | .continuous1D f => some f
  | _ => none

/-- The member `Continuous1DFunction::operator==`. -/
def Continuous1DFunction.opEq (self : Continuous1DFunction) (other : AnyFunction) : Bool :=
  match other.asContinuous1D with
  | none => false
  | some fn =>
    if Double.ne fn.min self.min || Double.ne fn.max self.max then false
    else vectorEq fn.values self.values

/-- The constructor `Continuous1DFunction::Continuous1DFunction`, run on the
object `raw`. -/
def Continuous1DFunction.construct (raw : Continuous1DFunction)
    (values : List Double) (min max : Double) (periodic : Bool) :
    Except OpenMMException Continuous1DFunction :=
  match ({ raw with periodic := periodic } : Continuous1DFunction).setFunctionParameters
      values min max with
  | (.ok _, self) => .ok self
  | (.error e, _) => .error e

/-- The member `Continuous1DFunction::Copy`. The new object is constructed
from `raw` with the default value `periodic` of the constructor's last
argument. -/
def Continuous1DFunction.Copy (self raw : Continuous1DFunction) (periodic : Bool) :
    Except OpenMMException Continuous1DFunction :=
  let new_vec := copyValues self.values
  Continuous1DFunction.construct raw new_vec self.min self.max periodic

/-! ### Continuous2DFunction -/

/-- The member `Continuous2DFunction::getFunctionParameters`. -/
def Continuous2DFunction.getFunctionParameters (self : Continuous2DFunction) :
    Int × Int × List Double × Double × Double × Double × Double :=
  (self.xsize, self.ysize, self.values, self.xmin, self.xmax, self.ymin, self.ymax)

/-- The member `Continuous2DFunction::setFunctionParameters`. -/
def Continuous2DFunction.setFunctionParameters (self : Continuous2DFunction)
    (xsize ysize : Int) (values : List Double) (xmin xmax ymin ymax : Double) :
    Call Continuous2DFunction :=
  let rest : Call Continuous2DFunction :=
    if size values ≠ toSizeT (mulInt xsize ysize) then
      (.error .c2dNumValues, self)
    else if Double.le xmax xmin then
      (.error .c2dXmaxLeXmin, self)
    else if Double.le ymax ymin then
      (.error .c2dYmaxLeYmin, self)
    else
      (.ok (), { self with
        values := values, xsize := xsize, ysize := ysize,
        xmin := xmin, xmax := xmax, ymin := ymin, ymax := ymax,
        updateCount := wrapInt (self.updateCount + 1) })
  if self.periodic then
    if xsize < 3 || ysize < 3 then (.error .c2dThreePoints, self) else rest
  else if xsize < 2 || ysize < 2 then (.error .c2dTwoPoints, self)
  else rest

/-- The cast `dynamic_cast<const Continuous2DFunction*>(&other)`. -/
def AnyFunction.asContinuous2D : AnyFunction → Option Continuous2DFunction
  | .continuous2D f => some f
  | _ => none

/-- The member `Continuous2DFunction::operator==`. -/
def Continuous2DFunction.opEq (self : Continuous2DFunction) (other : AnyFunction) : Bool :=
  match other.asContinuous2D with
  | none => false
  | some fn =>
    if fn.xsize != self.xsize || fn.ysize != self.ysize then false
    else if Double.ne fn.xmin self.xmin || Double.ne fn.xmax self.xmax then false
    else if Double.ne fn.ymin self.ymin || Double.ne fn.ymax self.ymax then false
    else vectorEq fn.values self.values

/-- The constructor `Continuous2DFunction::Continuous2DFunction`, run on the
object `raw`. -/
def Continuous2DFunction.construct (raw : Continuous2DFunction)
    (xsize ysize : Int) (values : List Double) (xmin xmax ymin ymax : Double)
    (periodic : Bool) : Except OpenMMException Continuous2DFunction :=
  match ({ raw with periodic := periodic } : Continuous2DFunction).setFunctionParameters
      xsize ysize values xmin xmax ymin ymax with
  | (.ok _, self) => .ok self
  | (.error e, _) => .error e

/-- The member `Continuous2DFunction::Copy`. The new object is constructed
from `raw` with the default value `periodic` of the constructor's last
argument. -/
def Continuous2DFunction.Copy (self raw : Continuous2DFunction) (periodic : Bool) :
    Except OpenMMException Continuous2DFunction :=
  let new_vec := copyValues self.values
  Continuous2DFunction.construct raw self.xsize self.ysize new_vec
    self.xmin self.xmax self.ymin self.ymax periodic

/-! ### Continuous3DFunction -/

/-- The member `Continuous3DFunction::getFunctionParameters`. -/
def Continuous3DFunction.getFunctionParameters (self : Continuous3DFunction) :
    Int × Int × Int × List Double × Double × Double × Double × Double × Double × Double :=
  (self.xsize, self.ysize, self.zsize, self.values,
    self.xmin, self.xmax, self.ymin, self.ymax, self.zmin, self.zmax)

/-- The member `Continuous3DFunction::setFunctionParameters`. -/
def Continuous3DFunction.setFunctionParameters (self : Continuous3DFunction)
    (xsize ysize zsize : Int) (values : List Double)
    (xmin xmax ymin ymax zmin zmax : Double) : Call Continuous3DFunction :=
  let rest : Call Continuous3DFunction :=
    if size values ≠ toSizeT (mulInt (mulInt xsize ysize) zsize) then
      (.error .c3dNumValues, self)
    else if Double.le xmax xmin then
      (.error .c3dXmaxLeXmin, self)
    else if Double.le ymax ymin then
      (.error .c3dYmaxLeYmin, self)
    else if Double.le zmax zmin then
      (.error .c3dZmaxLeZmin, self)
    else
      (.ok (), { self with
        values := values, xsize := xsize, ysize := ysize, zsize := zsize,
        xmin := xmin, xmax := xmax, ymin := ymin, ymax := ymax,
        zmin := zmin, zmax := zmax,
        updateCount := wrapInt (self.updateCount + 1) })
  if self.periodic then
    if xsize < 3 || ysize < 3 || zsize < 3 then (.error .c3dThreePoints, self) else rest
  else if xsize < 2 || ysize < 2 || zsize < 2 then (.error .c3dTwoPoints, self)
  else rest

/-- The cast `dynamic_cast<const Continuous3DFunction*>(&other)`. -/
def AnyFunction.asContinuous3D : AnyFunction → Option Continuous3DFunction
  | .continuous3D f => some f
  | _ => none

/-- The member `Continuous3DFunction::operator==`. -/
def Continuous3DFunction.opEq (self : Continuous3DFunction) (other : AnyFunction) : Bool :=
  match other.asContinuous3D with
  | none => false
  | some fn =>
    if fn.xsize != self.xsize || fn.ysize != self.ysize || fn.zsize != self.zsize then false
    else if Double.ne fn.xmin self.xmin || Double.ne fn.xmax self.xmax then false
    else if Double.ne fn.ymin self.ymin || Double.ne fn.ymax self.ymax then false
    else if Double.ne fn.zmin self.zmin || Double.ne fn.zmax self.zmax then false
    else vectorEq fn.values self.values

/-- The constructor `Continuous3DFunction::Continuous3DFunction`, run on the
object `raw`. -/
def Continuous3DFunction.construct (raw : Continuous3DFunction)
    (xsize ysize zsize : Int) (values : List Double)
    (xmin xmax ymin ymax zmin zmax : Double) (periodic : Bool) :
    Except OpenMMException Continuous3DFunction :=
  match ({ raw with periodic := periodic } : Continuous3DFunction).setFunctionParameters
      xsize ysize zsize values xmin xmax ymin ymax zmin zmax with
  | (.ok _, self) => .ok self
  | (.error e, _) => .error e

/-- The member `Continuous3DFunction::Copy`. The new object is constructed
from `raw` with the default value `periodic` of the constructor's last
argument. -/
def Continuous3DFunction.Copy (self raw : Continuous3DFunction) (periodic : Bool) :
    Except OpenMMException Continuous3DFunction :=
  let new_vec := copyValues self.values
  Continuous3DFunction.construct raw self.xsize self.ysize self.zsize new_vec
    self.xmin self.xmax self.ymin self.ymax self.zmin self.zmax periodic

/-! ### Discrete1DFunction -/

/-- The constructor `Discrete1DFunction::Discrete1DFunction`, run on the
object `raw`. It cannot throw. -/
def Discrete1DFunction.construct (raw : Discrete1DFunction) (values : List Double) :
    Except OpenMMException Discrete1DFunction :=
  .ok { raw with values := values }

/-- The member `Discrete1DFunction::getFunctionParameters`. -/
def Discrete1DFunction.getFunctionParameters (self : Discrete1DFunction) : List Double :=
  self.values

/-- The member `Discrete1DFunction::setFunctionParameters`. -/
def Discrete1DFunction.setFunctionParameters (self : Discrete1DFunction)
    (values : List Double) : Call Discrete1DFunction :=
  (.ok (), { self with values := values, updateCount := wrapInt (self.updateCount + 1) })

/-- The member `Discrete1DFunction::Copy`. -/
def Discrete1DFunction.Copy (self raw : Discrete1DFunction) :
    Except OpenMMException Discrete1DFunction :=
  let new_vec := copyValues self.values
  Discrete1DFunction.construct raw new_vec

/-- The cast `dynamic_cast<const Discrete1DFunction*>(&other)`. -/
def AnyFunction.asDiscrete1D : AnyFunction → Option Discrete1DFunction
  | .discrete1D f => some f
  | _ => none

/-- The member `Discrete1DFunction::operator==`. -/
def Discrete1DFunction.opEq (self : Discrete1DFunction) (other : AnyFunction) : Bool :=
  match other.asDiscrete1D with
  | none => false
  | some fn => vectorEq fn.values self.values

/-! ### Discrete2DFunction -/

/-- The constructor `Discrete2DFunction::Discrete2DFunction`, run on the
object `raw`. -/
def Discrete2DFunction.construct (raw : Discrete2DFunction) (xsize ysize : Int)
    (values : List Double) : Except OpenMMException Discrete2DFunction :=
  if size values ≠ toSizeT (mulInt xsize ysize) then
    .error .d2dNumValues
  else
    .ok { raw with xsize := xsize, ysize := ysize, values := values }

/-- The member `Discrete2DFunction::getFunctionParameters`. -/
def Discrete2DFunction.getFunctionParameters (self : Discrete2DFunction) :
    Int × Int × List Double :=
  (self.xsize, self.ysize, self.values)

/-- The member `Discrete2DFunction::setFunctionParameters`. -/
def Discrete2DFunction.setFunctionParameters (self : Discrete2DFunction)
    (xsize ysize : Int) (values : List Double) : Call Discrete2DFunction :=
  if size values ≠ toSizeT (mulInt xsize ysize) then
    (.error .d2dNumValues, self)
  else
    (.ok (), { self with
      xsize := xsize, ysize := ysize, values := values,
      updateCount := wrapInt (self.updateCount + 1) })

/-- The member `Discrete2DFunction::Copy`. -/
def Discrete2DFunction.Copy (self raw : Discrete2DFunction) :
    Except OpenMMException Discrete2DFunction :=
  let new_vec := copyValues self.values
  Discrete2DFunction.construct raw self.xsize self.ysize new_vec

/-- The cast `dynamic_cast<const Discrete2DFunction*>(&other)`. -/
def AnyFunction.asDiscrete2D : AnyFunction → Option Discrete2DFunction
  | .discrete2D f => some f
  | _ => none

/-- The member `Discrete2DFunction::operator==`. -/
def Discrete2DFunction.opEq (self : Discrete2DFunction) (other : AnyFunction) : Bool :=
  match other.asDiscrete2D with
  | none => false
  | some fn =>
    if fn.xsize != self.xsize || fn.ysize != self.ysize then false
    else vectorEq fn.values self.values

/-! ### Discrete3DFunction -/

/-- The constructor `Discrete3DFunction::Discrete3DFunction`, run on the
object `raw`. -/
def Discrete3DFunction.construct (raw : Discrete3DFunction) (xsize ysize zsize : Int)
    (values : List Double) : Except OpenMMException Discrete3DFunction :=
  if size values ≠ toSizeT (mulInt (mulInt xsize ysize) zsize) then
    .error .d3dNumValues
  else
    .ok { raw with xsize := xsize, ysize := ysize, zsize := zsize, values := values }

/-- The member `Discrete3DFunction::getFunctionParameters`. -/
def Discrete3DFunction.getFunctionParameters (self : Discrete3DFunction) :
    Int × Int × Int × List Double :=
  (self.xsize, self.ysize, self.zsize, self.values)

/-- The member `Discrete3DFunction::setFunctionParameters`. -/
def Discrete3DFunction.setFunctionParameters (self : Discrete3DFunction)
    (xsize ysize zsize : Int) (values : List Double) : Call Discrete3DFunction :=
  if size values ≠ toSizeT (mulInt (mulInt xsize ysize) zsize) then
    (.error .d3dNumValues, self)
  else
    (.ok (), { self with
      xsize := xsize, ysize := ysize, zsize := zsize, values := values,
      updateCount := wrapInt (self.updateCount + 1) })

/-- The member `Discrete3DFunction::Copy`. -/
def Discrete3DFunction.Copy (self raw : Discrete3DFunction) :
    Except OpenMMException Discrete3DFunction :=
  let new_vec := copyValues self.values
  Discrete3DFunction.construct raw self.xsize self.ysize self.zsize new_vec

/-- The cast `dynamic_cast<const Discrete3DFunction*>(&other)`. -/
def AnyFunction.asDiscrete3D : AnyFunction → Option Discrete3DFunction
  | .discrete3D f => some f
  | _ => none

/-- The member `Discrete3DFunction::operator==`. -/
def Discrete3DFunction.opEq (self : Discrete3DFunction) (other : AnyFunction) : Bool :=
  match other.asDiscrete3D with
  | none => false
  | some fn =>
    if fn.xsize != self.xsize || fn.ysize != self.ysize || fn.zsize != self.zsize then false
    else vectorEq fn.values self.values

/-! ### The virtual calls -/

/-- The virtual call `x == other` through a `TabulatedFunction` reference:
the `operator==` of the dynamic class of `x`. -/
def AnyFunction.opEq (x other : AnyFunction) : Bool :=
  match x with
  | .continuous1D f => f.opEq other
  | .continuous2D f => f.opEq other
  | .continuous3D f => f.opEq other
  | .discrete1D f => f.opEq other
  | .discrete2D f => f.opEq other
  | .discrete3D f => f.opEq other

/-- The concrete classes. -/
inductive Variant where
  | continuous1D | continuous2D | continuous3D | discrete1D | discrete2D | discrete3D
deriving DecidableEq, Repr

/-- The dynamic class of an object. -/
def AnyFunction.variant : AnyFunction → Variant
  | .continuous1D _ => .continuous1D
  | .continuous2D _ => .continuous2D
  | .continuous3D _ => .continuous3D
  | .discrete1D _ => .discrete1D
  | .discrete2D _ => .discrete2D
  | .discrete3D _ => .discrete3D

/-- The base-class members of an object. -/
def AnyFunction.base : AnyFunction → TabulatedFunction
  | .continuous1D f => f.toTabulatedFunction
  | .continuous2D f => f.toTabulatedFunction
  | .continuous3D f => f.toTabulatedFunction
  | .discrete1D f => f.toTabulatedFunction
  | .discrete2D f => f.toTabulatedFunction
  | .discrete3D f => f.toTabulatedFunction

/-! ## Reachable objects -/

/-- The objects a program can hold: those returned by a successful
constructor call, and those obtained from them by `setFunctionParameters`
calls, whether these return or throw. -/
inductive Continuous1DFunction.Reachable : Continuous1DFunction → Prop where
  | construct (raw : Continuous1DFunction) (values : List Double) (min max : Double)
      (periodic : Bool) (self : Continuous1DFunction)
      (h : Continuous1DFunction.construct raw values min max periodic = .ok self) :
      Reachable self
  | set (self : Continuous1DFunction) (values : List Double) (min max : Double)
      (h : Reachable self) : Reachable (self.setFunctionParameters values min max).2

/-- The reachable `Continuous2DFunction` objects. -/
inductive Continuous2DFunction.Reachable : Continuous2DFunction → Prop where
  | construct (raw : Continuous2DFunction) (xsize ysize : Int) (values : List Double)
      (xmin xmax ymin ymax : Double) (periodic : Bool) (self : Continuous2DFunction)
      (h : Continuous2DFunction.construct raw xsize ysize values xmin xmax ymin ymax periodic
        = .ok self) :
      Reachable self
  | set (self : Continuous2DFunction) (xsize ysize : Int) (values : List Double)
      (xmin xmax ymin ymax : Double) (h : Reachable self) :
      Reachable (self.setFunctionParameters xsize ysize values xmin xmax ymin ymax).2

/-- The reachable `Continuous3DFunction` objects. -/
inductive Continuous3DFunction.Reachable : Continuous3DFunction → Prop where
  | construct (raw : Continuous3DFunction) (xsize ysize zsize : Int) (values : List Double)
      (xmin xmax ymin ymax zmin zmax : Double) (periodic : Bool) (self : Continuous3DFunction)
      (h : Continuous3DFunction.construct raw xsize ysize zsize values
        xmin xmax ymin ymax zmin zmax periodic = .ok self) :
      Reachable self
  | set (self : Continuous3DFunction) (xsize ysize zsize : Int) (values : List Double)
      (xmin xmax ymin ymax zmin zmax : Double) (h : Reachable self) :
      Reachable (self.setFunctionParameters xsize ysize zsize values
        xmin xmax ymin ymax zmin zmax).2

/-- The reachable `Discrete1DFunction` objects. -/
inductive Discrete1DFunction.Reachable : Discrete1DFunction → Prop where
  | construct (raw : Discrete1DFunction) (values : List Double) (self : Discrete1DFunction)
      (h : Discrete1DFunction.construct raw values = .ok self) : Reachable self
  | set (self : Discrete1DFunction) (values : List Double) (h : Reachable self) :
      Reachable (self.setFunctionParameters values).2

/-- The reachable `Discrete2DFunction` objects. -/
inductive Discrete2DFunction.Reachable : Discrete2DFunction → Prop where
  | construct (raw : Discrete2DFunction) (xsize ysize : Int) (values : List Double)
      (self : Discrete2DFunction)
      (h : Discrete2DFunction.construct raw xsize ysize values = .ok self) : Reachable self
  | set (self : Discrete2DFunction) (xsize ysize : Int) (values : List Double)
      (h : Reachable self) : Reachable (self.setFunctionParameters xsize ysize values).2

/-- The reachable `Discrete3DFunction` objects. -/
inductive Discrete3DFunction.Reachable : Discrete3DFunction → Prop where
  | construct (raw : Discrete3DFunction) (xsize ysize zsize : Int) (values : List Double)
      (self : Discrete3DFunction)
      (h : Discrete3DFunction.construct raw xsize ysize zsize values = .ok self) :
      Reachable self
  | set (self : Discrete3DFunction) (xsize ysize zsize : Int) (values : List Double)
      (h : Reachable self) :
      Reachable (self.setFunctionParameters xsize ysize zsize values).2

/-- The reachable objects of any class. -/
def AnyFunction.Reachable : AnyFunction → Prop
  | .continuous1D f => f.Reachable
  | .continuous2D f => f.Reachable
  | .continuous3D f => f.Reachable
  | .discrete1D f => f.Reachable
  | .discrete2D f => f.Reachable
  | .discrete3D f => f.Reachable

/-! ## Objects used in the examples -/

/-- A new `Continuous1DFunction` before its constructor body runs, with the
counter at 0 and no values. -/
def raw1D : Continuous1DFunction :=
  { periodic := false, updateCount := 0, values := [], min := Double.zero, max := Double.zero }

/-- A new `Continuous2DFunction` before its constructor body runs. -/
def raw2D : Continuous2DFunction :=
  { periodic := false, updateCount := 0, values := [], xsize := 0, ysize := 0,
    xmin := Double.zero, xmax := Double.zero, ymin := Double.zero, ymax := Double.zero }

/-- A new `Continuous3DFunction` before its constructor body runs. -/
def raw3D : Continuous3DFunction :=
  { periodic := false, updateCount := 0, values := [], xsize := 0, ysize := 0, zsize := 0,
    xmin := Double.zero, xmax := Double.zero, ymin := Double.zero, ymax := Double.zero,
    zmin := Double.zero, zmax := Double.zero }

/-- A new `Discrete1DFunction` before its constructor body runs. -/
def rawD1 : Discrete1DFunction :=
  { periodic := false, updateCount := 0, values := [] }

/-- A new `Discrete2DFunction` before its constructor body runs. -/
def rawD2 : Discrete2DFunction :=
  { periodic := false, updateCount := 0, xsize := 0, ysize := 0, values := [] }

/-- A new `Discrete3DFunction` before its constructor body runs. -/
def rawD3 : Discrete3DFunction :=
  { periodic := false, updateCount := 0, xsize := 0, ysize := 0, zsize := 0, values := [] }

/-! ## Outcomes in the terms of the specification -/

/-- The kind of error a call failed with, or `none` if it succeeded. -/
def failure {α : Type} : Except OpenMMException α → Option ErrorKind
  | .ok _ => none
  | .error e => some e.kind

/-- The validation of a `Continuous2DFunction` in the words of §4.3 of the
specification, as the kind of the error reported (`none` for success):
(a) every axis size at least 3 if periodic and at least 2 otherwise, else
InsufficientSamples; (b) the number of values equal to the product of the
axis sizes, else SizeMismatch; (c) `max > min` on every axis, else
InvalidDomain. -/
def Spec.validate2D (periodic : Bool) (xsize ysize : Int) (values : List Double)
    (xmin xmax ymin ymax : Double) : Option ErrorKind :=
  if ¬ (if periodic then 3 ≤ xsize ∧ 3 ≤ ysize else 2 ≤ xsize ∧ 2 ≤ ysize) then
    some .InsufficientSamples
  else if ¬ ((values.length : Int) = xsize * ysize) then
    some .SizeMismatch
  else if ¬ (Double.gt xmax xmin = true ∧ Double.gt ymax ymin = true) then
    some .InvalidDomain
  else none

/-- The validation of a `Continuous3DFunction` in the words of §4.3 of the
specification: the rules of `Spec.validate2D` on three axes. -/
def Spec.validate3D (periodic : Bool) (xsize ysize zsize : Int) (values : List Double)
    (xmin xmax ymin ymax zmin zmax : Double) : Option ErrorKind :=
  if ¬ (if periodic then 3 ≤ xsize ∧ 3 ≤ ysize ∧ 3 ≤ zsize
        else 2 ≤ xsize ∧ 2 ≤ ysize ∧ 2 ≤ zsize) then
    some .InsufficientSamples
  else if ¬ ((values.length : Int) = xsize * ysize * zsize) then
    some .SizeMismatch
  else if ¬ (Double.gt xmax xmin = true ∧ Double.gt ymax ymin = true ∧
      Double.gt zmax zmin = true) then
    some .InvalidDomain
  else none

/-! ## The data members of an object -/

/-- The axis sizes stored in an object, in the order x, y, z. -/
def AnyFunction.sizes : AnyFunction → List Int
  | .continuous1D _ => []
  | .continuous2D f => [f.xsize, f.ysize]
  | .continuous3D f => [f.xsize, f.ysize, f.zsize]
  | .discrete1D _ => []
  | .discrete2D f => [f.xsize, f.ysize]
  | .discrete3D f => [f.xsize, f.ysize, f.zsize]

/-- The domain bounds stored in an object, in the order min, max per axis. -/
def AnyFunction.bounds : AnyFunction → List Double
  | .continuous1D f => [f.min, f.max]
  | .continuous2D f => [f.xmin, f.xmax, f.ymin, f.ymax]
  | .continuous3D f => [f.xmin, f.xmax, f.ymin, f.ymax, f.zmin, f.zmax]
  | .discrete1D _ => []
  | .discrete2D _ => []
  | .discrete3D _ => []

/-- The sample values stored in an object. -/
def AnyFunction.values : AnyFunction → List Double
  | .continuous1D f => f.values
  | .continuous2D f => f.values
  | .continuous3D f => f.values
  | .discrete1D f => f.values
  | .discrete2D f => f.values
  | .discrete3D f => f.values

/-- Some bound or sample value stored in the object is a NaN. -/
def AnyFunction.hasNaN (x : AnyFunction) : Bool :=
  (x.bounds ++ x.values).any Double.isNaN

/-! ## More objects used in the examples -/

/-- The object constructed by `Continuous1DFunction([1,2,3], 0, 1, true)` from
`raw1D`. -/
def periodic123 : Continuous1DFunction :=
  { periodic := true, updateCount := 1,
    values := [Double.one, Double.two, Double.three],
    min := Double.zero, max := Double.one }

/-- The object constructed by `Continuous1DFunction([1,2,3], 0, 1, false)` from
`raw1D`. -/
def clone123 : Continuous1DFunction :=
  { periodic := false, updateCount := 1,
    values := [Double.one, Double.two, Double.three],
    min := Double.zero, max := Double.one }

/-! ## Sequences of calls -/

/-- A sequence of `setFunctionParameters` calls on a `Continuous1DFunction`, given
by their arguments, each of which returns or throws: the object after the last
call. -/
def Continuous1DFunction.setAll (self : Continuous1DFunction)
    (calls : List (List Double × Double × Double)) : Continuous1DFunction :=
  calls.foldl (fun s a => (s.setFunctionParameters a.1 a.2.1 a.2.2).2) self

/-- A sequence of `setFunctionParameters` calls on a `Continuous2DFunction`, given
by their arguments, each of which returns or throws: the object after the last
call. -/
def Continuous2DFunction.setAll (self : Continuous2DFunction)
    (calls : List (Int × Int × List Double × Double × Double × Double × Double)) : Continuous2DFunction :=
  calls.foldl (fun s a => (s.setFunctionParameters a.1 a.2.1 a.2.2.1 a.2.2.2.1 a.2.2.2.2.1 a.2.2.2.2.2.1 a.2.2.2.2.2.2).2) self

/-- A sequence of `setFunctionParameters` calls on a `Continuous3DFunction`, given
by their arguments, each of which returns or throws: the object after the last
call. -/
def Continuous3DFunction.setAll (self : Continuous3DFunction)
    (calls : List (Int × Int × Int × List Double × Double × Double × Double × Double × Double × Double)) : Continuous3DFunction :=
  calls.foldl (fun s a => (s.setFunctionParameters a.1 a.2.1 a.2.2.1 a.2.2.2.1 a.2.2.2.2.1 a.2.2.2.2.2.1 a.2.2.2.2.2.2.1 a.2.2.2.2.2.2.2.1 a.2.2.2.2.2.2.2.2.1 a.2.2.2.2.2.2.2.2.2).2) self

/-- A sequence of `setFunctionParameters` calls on a `Discrete1DFunction`, given
by their arguments, each of which returns or throws: the object after the last
call. -/
def Discrete1DFunction.setAll (self : Discrete1DFunction)
    (calls : List (List Double)) : Discrete1DFunction :=
  calls.foldl (fun s a => (s.setFunctionParameters a).2) self

/-- A sequence of `setFunctionParameters` calls on a `Discrete2DFunction`, given
by their arguments, each of which returns or throws: the object after the last
call. -/
def Discrete2DFunction.setAll (self : Discrete2DFunction)
    (calls : List (Int × Int × List Double)) : Discrete2DFunction :=
  calls.foldl (fun s a => (s.setFunctionParameters a.1 a.2.1 a.2.2).2) self

/-- A sequence of `setFunctionParameters` calls on a `Discrete3DFunction`, given
by their arguments, each of which returns or throws: the object after the last
call. -/
def Discrete3DFunction.setAll (self : Discrete3DFunction)
    (calls : List (Int × Int × Int × List Double)) : Discrete3DFunction :=
  calls.foldl (fun s a => (s.setFunctionParameters a.1 a.2.1 a.2.2.1 a.2.2.2).2) self

/-! ## Lemmas on the machine values -/

theorem double_eq_self (a : Double) : Double.eq a a = !a.isNaN := by
  unfold Double.eq; cases a.isNaN <;> simp

theorem double_eq_comm (a b : Double) : Double.eq a b = Double.eq b a := by
  unfold Double.eq
  cases a.isNaN <;> cases b.isNaN <;> simp
  exact ⟨Eq.symm, Eq.symm⟩

theorem double_ne_comm (a b : Double) : Double.ne a b = Double.ne b a := by
  unfold Double.ne; rw [double_eq_comm]

theorem double_ne_self (a : Double) : Double.ne a a = a.isNaN := by
  unfold Double.ne; rw [double_eq_self]; simp

theorem double_gt_iff_not_le (a b : Double) (ha : a.isNaN = false) (hb : b.isNaN = false) :
    Double.gt a b = !Double.le a b := by
  unfold Double.gt Double.le
  by_cases h : a.key ≤ b.key
  · simp [ha, hb, h, not_lt.mpr h]
  · simp [ha, hb, h, not_le.mp h]

theorem vectorEq_comm : ∀ v w : List Double, vectorEq v w = vectorEq w v
  | [], [] => rfl
  | [], _ :: _ => rfl
  | _ :: _, [] => rfl
  | a :: as, b :: bs => by
      simp only [vectorEq]
      rw [double_eq_comm a b, vectorEq_comm as bs]

theorem vectorEq_self : ∀ v : List Double, vectorEq v v = v.all (fun d => !d.isNaN)
  | [] => rfl
  | a :: as => by
      simp only [vectorEq, List.all_cons]
      rw [double_eq_self, vectorEq_self as]

theorem copyLoop_getElem? (values : List Double) (k : Nat) (j : Nat) :
    ((List.range k).foldl
      (fun new_vec i => new_vec.set i (values.getD i Double.zero))
      (List.replicate values.length Double.zero))[j]? =
    if j < values.length then (if j < k then values[j]? else some Double.zero) else none := by
  induction k with
  | zero => simp [List.getElem?_replicate]
  | succ k ih =>
    rw [List.range_succ, List.foldl_append]
    simp only [List.foldl_cons, List.foldl_nil]
    rw [List.getElem?_set']
    by_cases hkj : k = j
    · subst hkj
      simp only [if_true, ih]
      by_cases hlt : k < values.length
      · simp [hlt, List.getD_eq_getElem?_getD, List.getElem?_eq_getElem hlt]
      · simp [hlt]
    · simp only [hkj, if_false, ih]
      by_cases hlt : j < values.length
      · simp only [hlt, if_true]
        by_cases h1 : j < k
        · have : j < k + 1 := by omega
          simp [h1, this]
        · have : ¬ j < k + 1 := by omega
          simp [h1, this]
      · simp [hlt]

theorem copyValues_eq (values : List Double) : copyValues values = values := by
  apply List.ext_getElem?
  intro j
  unfold copyValues size
  rw [copyLoop_getElem?]
  by_cases hlt : j < values.length
  · simp [hlt]
  · simp only [hlt, if_false]
    symm
    exact List.getElem?_eq_none (by omega)

/-! ## What the calls do -/

theorem continuous1D_construct_eq (raw : Continuous1DFunction) (values : List Double)
    (min max : Double) (periodic : Bool) (self : Continuous1DFunction)
    (h : Continuous1DFunction.construct raw values min max periodic = .ok self) :
    ({ raw with periodic := periodic } : Continuous1DFunction).setFunctionParameters
      values min max = (.ok (), self) := by
  unfold Continuous1DFunction.construct at h
  split at h
  · rename_i u s heq
    cases u
    rw [heq]
    cases h
    rfl
  · cases h

theorem continuous2D_construct_eq (raw : Continuous2DFunction) (xsize ysize : Int)
    (values : List Double) (xmin xmax ymin ymax : Double) (periodic : Bool)
    (self : Continuous2DFunction)
    (h : Continuous2DFunction.construct raw xsize ysize values xmin xmax ymin ymax periodic
      = .ok self) :
    ({ raw with periodic := periodic } : Continuous2DFunction).setFunctionParameters
      xsize ysize values xmin xmax ymin ymax = (.ok (), self) := by
  unfold Continuous2DFunction.construct at h
  split at h
  · rename_i u s heq
    cases u
    rw [heq]
    cases h
    rfl
  · cases h

theorem continuous3D_construct_eq (raw : Continuous3DFunction) (xsize ysize zsize : Int)
    (values : List Double) (xmin xmax ymin ymax zmin zmax : Double) (periodic : Bool)
    (self : Continuous3DFunction)
    (h : Continuous3DFunction.construct raw xsize ysize zsize values
      xmin xmax ymin ymax zmin zmax periodic = .ok self) :
    ({ raw with periodic := periodic } : Continuous3DFunction).setFunctionParameters
      xsize ysize zsize values xmin xmax ymin ymax zmin zmax = (.ok (), self) := by
  unfold Continuous3DFunction.construct at h
  split at h
  · rename_i u s heq
    cases u
    rw [heq]
    cases h
    rfl
  · cases h

theorem continuous1D_set_ok (self : Continuous1DFunction) (values : List Double)
    (min max : Double) (h : (self.setFunctionParameters values min max).1 = .ok ()) :
    (self.setFunctionParameters values min max).2 =
      { self with values := values, min := min, max := max,
                  updateCount := wrapInt (self.updateCount + 1) } := by
  revert h
  unfold Continuous1DFunction.setFunctionParameters
  simp only []
  split_ifs <;> simp

theorem continuous2D_set_ok (self : Continuous2DFunction) (xsize ysize : Int)
    (values : List Double) (xmin xmax ymin ymax : Double)
    (h : (self.setFunctionParameters xsize ysize values xmin xmax ymin ymax).1 = .ok ()) :
    (self.setFunctionParameters xsize ysize values xmin xmax ymin ymax).2 =
      { self with values := values, xsize := xsize, ysize := ysize,
                  xmin := xmin, xmax := xmax, ymin := ymin, ymax := ymax,
                  updateCount := wrapInt (self.updateCount + 1) } := by
  revert h
  unfold Continuous2DFunction.setFunctionParameters
  simp only []
  split_ifs <;> simp

theorem continuous3D_set_ok (self : Continuous3DFunction) (xsize ysize zsize : Int)
    (values : List Double) (xmin xmax ymin ymax zmin zmax : Double)
    (h : (self.setFunctionParameters xsize ysize zsize values
      xmin xmax ymin ymax zmin zmax).1 = .ok ()) :
    (self.setFunctionParameters xsize ysize zsize values xmin xmax ymin ymax zmin zmax).2 =
      { self with values := values, xsize := xsize, ysize := ysize, zsize := zsize,
                  xmin := xmin, xmax := xmax, ymin := ymin, ymax := ymax,
                  zmin := zmin, zmax := zmax,
                  updateCount := wrapInt (self.updateCount + 1) } := by
  revert h
  unfold Continuous3DFunction.setFunctionParameters
  simp only []
  split_ifs <;> simp

theorem discrete2D_set_ok (self : Discrete2DFunction) (xsize ysize : Int)
    (values : List Double)
    (h : (self.setFunctionParameters xsize ysize values).1 = .ok ()) :
    (self.setFunctionParameters xsize ysize values).2 =
      { self with xsize := xsize, ysize := ysize, values := values,
                  updateCount := wrapInt (self.updateCount + 1) } := by
  revert h
  unfold Discrete2DFunction.setFunctionParameters
  split_ifs <;> simp

theorem discrete3D_set_ok (self : Discrete3DFunction) (xsize ysize zsize : Int)
    (values : List Double)
    (h : (self.setFunctionParameters xsize ysize zsize values).1 = .ok ()) :
    (self.setFunctionParameters xsize ysize zsize values).2 =
      { self with xsize := xsize, ysize := ysize, zsize := zsize, values := values,
                  updateCount := wrapInt (self.updateCount + 1) } := by
  revert h
  unfold Discrete3DFunction.setFunctionParameters
  split_ifs <;> simp

theorem continuous1D_set_error (self : Continuous1DFunction) (values : List Double)
    (min max : Double) (e : OpenMMException)
    (h : (self.setFunctionParameters values min max).1 = .error e) :
    (self.setFunctionParameters values min max).2 = self := by
  revert h
  unfold Continuous1DFunction.setFunctionParameters
  simp only []
  split_ifs <;> simp

theorem continuous2D_set_error (self : Continuous2DFunction) (xsize ysize : Int)
    (values : List Double) (xmin xmax ymin ymax : Double) (e : OpenMMException)
    (h : (self.setFunctionParameters xsize ysize values xmin xmax ymin ymax).1 = .error e) :
    (self.setFunctionParameters xsize ysize values xmin xmax ymin ymax).2 = self := by
  revert h
  unfold Continuous2DFunction.setFunctionParameters
  simp only []
  split_ifs <;> simp

theorem continuous3D_set_error (self : Continuous3DFunction) (xsize ysize zsize : Int)
    (values : List Double) (xmin xmax ymin ymax zmin zmax : Double) (e : OpenMMException)
    (h : (self.setFunctionParameters xsize ysize zsize values
      xmin xmax ymin ymax zmin zmax).1 = .error e) :
    (self.setFunctionParameters xsize ysize zsize values xmin xmax ymin ymax zmin zmax).2
      = self := by
  revert h
  unfold Continuous3DFunction.setFunctionParameters
  simp only []
  split_ifs <;> simp

theorem discrete2D_set_error (self : Discrete2DFunction) (xsize ysize : Int)
    (values : List Double) (e : OpenMMException)
    (h : (self.setFunctionParameters xsize ysize values).1 = .error e) :
    (self.setFunctionParameters xsize ysize values).2 = self := by
  revert h
  unfold Discrete2DFunction.setFunctionParameters
  split_ifs <;> simp

theorem discrete3D_set_error (self : Discrete3DFunction) (xsize ysize zsize : Int)
    (values : List Double) (e : OpenMMException)
    (h : (self.setFunctionParameters xsize ysize zsize values).1 = .error e) :
    (self.setFunctionParameters xsize ysize zsize values).2 = self := by
  revert h
  unfold Discrete3DFunction.setFunctionParameters
  split_ifs <;> simp


/-! ## Construction and replacement of the parameters -/

/-- Claim C1: for each of the six classes, whenever the constructor succeeds,
`getFunctionParameters` on the constructed object returns exactly the sizes,
values and bounds that were passed to the constructor. -/
theorem C1_getFunctionParameters_after_construct :
    (∀ (raw : Continuous1DFunction) (values : List Double) (min max : Double)
        (periodic : Bool) (self : Continuous1DFunction),
      Continuous1DFunction.construct raw values min max periodic = .ok self →
      self.getFunctionParameters = (values, min, max)) ∧
    (∀ (raw : Continuous2DFunction) (xsize ysize : Int) (values : List Double)
        (xmin xmax ymin ymax : Double) (periodic : Bool) (self : Continuous2DFunction),
      Continuous2DFunction.construct raw xsize ysize values xmin xmax ymin ymax periodic
        = .ok self →
      self.getFunctionParameters = (xsize, ysize, values, xmin, xmax, ymin, ymax)) ∧
    (∀ (raw : Continuous3DFunction) (xsize ysize zsize : Int) (values : List Double)
        (xmin xmax ymin ymax zmin zmax : Double) (periodic : Bool)
        (self : Continuous3DFunction),
      Continuous3DFunction.construct raw xsize ysize zsize values
        xmin xmax ymin ymax zmin zmax periodic = .ok self →
      self.getFunctionParameters =
        (xsize, ysize, zsize, values, xmin, xmax, ymin, ymax, zmin, zmax)) ∧
    (∀ (raw : Discrete1DFunction) (values : List Double) (self : Discrete1DFunction),
      Discrete1DFunction.construct raw values = .ok self →
      self.getFunctionParameters = values) ∧
    (∀ (raw : Discrete2DFunction) (xsize ysize : Int) (values : List Double)
        (self : Discrete2DFunction),
      Discrete2DFunction.construct raw xsize ysize values = .ok self →
      self.getFunctionParameters = (xsize, ysize, values)) ∧
    (∀ (raw : Discrete3DFunction) (xsize ysize zsize : Int) (values : List Double)
        (self : Discrete3DFunction),
      Discrete3DFunction.construct raw xsize ysize zsize values = .ok self →
      self.getFunctionParameters = (xsize, ysize, zsize, values)) := by
  refine ⟨?_, ?_, ?_, ?_, ?_, ?_⟩
  · intro raw values min max periodic self h
    have h1 := continuous1D_construct_eq raw values min max periodic self h
    have h2 := continuous1D_set_ok _ values min max (by rw [h1])
    rw [h1] at h2
    simp only at h2
    rw [h2]
    rfl
  · intro raw xsize ysize values xmin xmax ymin ymax periodic self h
    have h1 := continuous2D_construct_eq raw xsize ysize values
      xmin xmax ymin ymax periodic self h
    have h2 := continuous2D_set_ok _ xsize ysize values xmin xmax ymin ymax
      (by rw [h1])
    rw [h1] at h2
    simp only at h2
    rw [h2]
    rfl
  · intro raw xsize ysize zsize values xmin xmax ymin ymax zmin zmax periodic self h
    have h1 := continuous3D_construct_eq raw xsize ysize zsize values
      xmin xmax ymin ymax zmin zmax periodic self h
    have h2 := continuous3D_set_ok _ xsize ysize zsize values
      xmin xmax ymin ymax zmin zmax (by rw [h1])
    rw [h1] at h2
    simp only at h2
    rw [h2]
    rfl
  · intro raw values self h
    unfold Discrete1DFunction.construct at h
    cases h
    rfl
  · intro raw xsize ysize values self h
    unfold Discrete2DFunction.construct at h
    split_ifs at h
    cases h
    rfl
  · intro raw xsize ysize zsize values self h
    unfold Discrete3DFunction.construct at h
    split_ifs at h
    cases h
    rfl

/-- The two constructions named in claim C1:
`Continuous1DFunction([1.0,2.0,3.0], 0.0, 1.0, false)` and
`Discrete2DFunction(2, 3, [0,1,2,3,4,5])` succeed and read back their
arguments. -/
theorem C1_getFunctionParameters_after_construct_witness :
    (Continuous1DFunction.construct raw1D [Double.one, Double.two, Double.three]
        Double.zero Double.one false
      = .ok { periodic := false, updateCount := 1,
              values := [Double.one, Double.two, Double.three],
              min := Double.zero, max := Double.one }) ∧
    Continuous1DFunction.getFunctionParameters
        { periodic := false, updateCount := 1,
          values := [Double.one, Double.two, Double.three],
          min := Double.zero, max := Double.one }
      = ([Double.one, Double.two, Double.three], Double.zero, Double.one) ∧
    (Discrete2DFunction.construct rawD2 2 3
        [Double.zero, Double.one, Double.two, Double.three, Double.four, Double.five]
      = .ok { periodic := false, updateCount := 0, xsize := 2, ysize := 3,
              values := [Double.zero, Double.one, Double.two, Double.three,
                         Double.four, Double.five] }) ∧
    Discrete2DFunction.getFunctionParameters
        { periodic := false, updateCount := 0, xsize := 2, ysize := 3,
          values := [Double.zero, Double.one, Double.two, Double.three,
                     Double.four, Double.five] }
      = (2, 3, [Double.zero, Double.one, Double.two, Double.three,
                Double.four, Double.five]) :=
  ⟨rfl, C1_getFunctionParameters_after_construct.1 raw1D _ _ _ false _ rfl,
   rfl, C1_getFunctionParameters_after_construct.2.2.2.2.1 rawD2 _ _ _ _ rfl⟩

/-- Claim C2: for each class, if `setFunctionParameters` throws then the
object is exactly as it was before the call: `getFunctionParameters` returns
the previous values, sizes and bounds and `getUpdateCount` is unchanged.
`Discrete1DFunction::setFunctionParameters` never throws. -/
theorem C2_failed_setFunctionParameters_changes_nothing :
    (∀ (self : Continuous1DFunction) (values : List Double) (min max : Double)
        (e : OpenMMException),
      (self.setFunctionParameters values min max).1 = .error e →
      (self.setFunctionParameters values min max).2 = self ∧
      (self.setFunctionParameters values min max).2.getFunctionParameters
        = self.getFunctionParameters ∧
      (self.setFunctionParameters values min max).2.getUpdateCount
        = self.getUpdateCount) ∧
    (∀ (self : Continuous2DFunction) (xsize ysize : Int) (values : List Double)
        (xmin xmax ymin ymax : Double) (e : OpenMMException),
      (self.setFunctionParameters xsize ysize values xmin xmax ymin ymax).1 = .error e →
      (self.setFunctionParameters xsize ysize values xmin xmax ymin ymax).2 = self ∧
      (self.setFunctionParameters xsize ysize values xmin xmax ymin ymax).2.getFunctionParameters
        = self.getFunctionParameters ∧
      (self.setFunctionParameters xsize ysize values xmin xmax ymin ymax).2.getUpdateCount
        = self.getUpdateCount) ∧
    (∀ (self : Continuous3DFunction) (xsize ysize zsize : Int) (values : List Double)
        (xmin xmax ymin ymax zmin zmax : Double) (e : OpenMMException),
      (self.setFunctionParameters xsize ysize zsize values
        xmin xmax ymin ymax zmin zmax).1 = .error e →
      (self.setFunctionParameters xsize ysize zsize values
        xmin xmax ymin ymax zmin zmax).2 = self ∧
      (self.setFunctionParameters xsize ysize zsize values
        xmin xmax ymin ymax zmin zmax).2.getFunctionParameters
        = self.getFunctionParameters ∧
      (self.setFunctionParameters xsize ysize zsize values
        xmin xmax ymin ymax zmin zmax).2.getUpdateCount
        = self.getUpdateCount) ∧
    (∀ (self : Discrete1DFunction) (values : List Double),
      (self.setFunctionParameters values).1 = .ok ()) ∧
    (∀ (self : Discrete2DFunction) (xsize ysize : Int) (values : List Double)
        (e : OpenMMException),
      (self.setFunctionParameters xsize ysize values).1 = .error e →
      (self.setFunctionParameters xsize ysize values).2 = self ∧
      (self.setFunctionParameters xsize ysize values).2.getFunctionParameters
        = self.getFunctionParameters ∧
      (self.setFunctionParameters xsize ysize values).2.getUpdateCount
        = self.getUpdateCount) ∧
    (∀ (self : Discrete3DFunction) (xsize ysize zsize : Int) (values : List Double)
        (e : OpenMMException),
      (self.setFunctionParameters xsize ysize zsize values).1 = .error e →
      (self.setFunctionParameters xsize ysize zsize values).2 = self ∧
      (self.setFunctionParameters xsize ysize zsize values).2.getFunctionParameters
        = self.getFunctionParameters ∧
      (self.setFunctionParameters xsize ysize zsize values).2.getUpdateCount
        = self.getUpdateCount) := by
  refine ⟨?_, ?_, ?_, ?_, ?_, ?_⟩
  · intro self values min max e h
    have h1 := continuous1D_set_error self values min max e h
    rw [h1]
    exact ⟨rfl, rfl, rfl⟩
  · intro self xsize ysize values xmin xmax ymin ymax e h
    have h1 := continuous2D_set_error self xsize ysize values xmin xmax ymin ymax e h
    rw [h1]
    exact ⟨rfl, rfl, rfl⟩
  · intro self xsize ysize zsize values xmin xmax ymin ymax zmin zmax e h
    have h1 := continuous3D_set_error self xsize ysize zsize values
      xmin xmax ymin ymax zmin zmax e h
    rw [h1]
    exact ⟨rfl, rfl, rfl⟩
  · intro self values
    rfl
  · intro self xsize ysize values e h
    have h1 := discrete2D_set_error self xsize ysize values e h
    rw [h1]
    exact ⟨rfl, rfl, rfl⟩
  · intro self xsize ysize zsize values e h
    have h1 := discrete3D_set_error self xsize ysize zsize values e h
    rw [h1]
    exact ⟨rfl, rfl, rfl⟩

/-- A failed replacement on a periodic `Continuous1DFunction` holding
`([1,2,3], 0, 1)`: the call with `([4,5], 0, 2)` throws and the object is
unchanged. -/
theorem C2_failed_setFunctionParameters_changes_nothing_witness :
    (Continuous1DFunction.setFunctionParameters
        { periodic := true, updateCount := 1,
          values := [Double.one, Double.two, Double.three],
          min := Double.zero, max := Double.one }
        [Double.four, Double.five] Double.zero Double.two).1
      = .error .c1dPeriodicThreePoints ∧
    ((Continuous1DFunction.setFunctionParameters
        { periodic := true, updateCount := 1,
          values := [Double.one, Double.two, Double.three],
          min := Double.zero, max := Double.one }
        [Double.four, Double.five] Double.zero Double.two).2
      = { periodic := true, updateCount := 1,
          values := [Double.one, Double.two, Double.three],
          min := Double.zero, max := Double.one } ∧
     (Continuous1DFunction.setFunctionParameters
        { periodic := true, updateCount := 1,
          values := [Double.one, Double.two, Double.three],
          min := Double.zero, max := Double.one }
        [Double.four, Double.five] Double.zero Double.two).2.getFunctionParameters
      = Continuous1DFunction.getFunctionParameters
        { periodic := true, updateCount := 1,
          values := [Double.one, Double.two, Double.three],
          min := Double.zero, max := Double.one } ∧
     (Continuous1DFunction.setFunctionParameters
        { periodic := true, updateCount := 1,
          values := [Double.one, Double.two, Double.three],
          min := Double.zero, max := Double.one }
        [Double.four, Double.five] Double.zero Double.two).2.getUpdateCount
      = TabulatedFunction.getUpdateCount
        { periodic := true, updateCount := 1 }) :=
  ⟨rfl, C2_failed_setFunctionParameters_changes_nothing.1 _ _ _ _ _ rfl⟩

theorem wrapInt_of_isInt (i : Int) (h : IsInt i) : wrapInt i = i := by
  unfold IsInt at h
  unfold wrapInt
  omega

/-- Claim C3, as amended. For each class, if `setFunctionParameters` returns
normally then `getUpdateCount` is its previous value incremented as an `int`:
the previous value plus 1 whenever that is representable as an `int`, which
is for every previous value below 2147483647; and `getFunctionParameters`
returns exactly the sizes, values and bounds passed to the call. -/
theorem C3_successful_setFunctionParameters :
    (∀ (self : Continuous1DFunction) (values : List Double) (min max : Double),
      (self.setFunctionParameters values min max).1 = .ok () →
      (self.setFunctionParameters values min max).2.getUpdateCount
        = wrapInt (self.getUpdateCount + 1) ∧
      (IsInt (self.getUpdateCount + 1) →
        (self.setFunctionParameters values min max).2.getUpdateCount
          = self.getUpdateCount + 1) ∧
      (self.setFunctionParameters values min max).2.getFunctionParameters
        = (values, min, max)) ∧
    (∀ (self : Continuous2DFunction) (xsize ysize : Int) (values : List Double) (xmin xmax ymin ymax : Double),
      (self.setFunctionParameters xsize ysize values xmin xmax ymin ymax).1 = .ok () →
      (self.setFunctionParameters xsize ysize values xmin xmax ymin ymax).2.getUpdateCount
        = wrapInt (self.getUpdateCount + 1) ∧
      (IsInt (self.getUpdateCount + 1) →
        (self.setFunctionParameters xsize ysize values xmin xmax ymin ymax).2.getUpdateCount
          = self.getUpdateCount + 1) ∧
      (self.setFunctionParameters xsize ysize values xmin xmax ymin ymax).2.getFunctionParameters
        = (xsize, ysize, values, xmin, xmax, ymin, ymax)) ∧
    (∀ (self : Continuous3DFunction) (xsize ysize zsize : Int) (values : List Double) (xmin xmax ymin ymax zmin zmax : Double),
      (self.setFunctionParameters xsize ysize zsize values xmin xmax ymin ymax zmin zmax).1 = .ok () →
      (self.setFunctionParameters xsize ysize zsize values xmin xmax ymin ymax zmin zmax).2.getUpdateCount
        = wrapInt (self.getUpdateCount + 1) ∧
      (IsInt (self.getUpdateCount + 1) →
        (self.setFunctionParameters xsize ysize zsize values xmin xmax ymin ymax zmin zmax).2.getUpdateCount
          = self.getUpdateCount + 1) ∧
      (self.setFunctionParameters xsize ysize zsize values xmin xmax ymin ymax zmin zmax).2.getFunctionParameters
        = (xsize, ysize, zsize, values, xmin, xmax, ymin, ymax, zmin, zmax)) ∧
    (∀ (self : Discrete1DFunction) (values : List Double),
      (self.setFunctionParameters values).1 = .ok () →
      (self.setFunctionParameters values).2.getUpdateCount
        = wrapInt (self.getUpdateCount + 1) ∧
      (IsInt (self.getUpdateCount + 1) →
        (self.setFunctionParameters values).2.getUpdateCount
          = self.getUpdateCount + 1) ∧
      (self.setFunctionParameters values).2.getFunctionParameters
        = values) ∧
    (∀ (self : Discrete2DFunction) (xsize ysize : Int) (values : List Double),
      (self.setFunctionParameters xsize ysize values).1 = .ok () →
      (self.setFunctionParameters xsize ysize values).2.getUpdateCount
        = wrapInt (self.getUpdateCount + 1) ∧
      (IsInt (self.getUpdateCount + 1) →
        (self.setFunctionParameters xsize ysize values).2.getUpdateCount
          = self.getUpdateCount + 1) ∧
      (self.setFunctionParameters xsize ysize values).2.getFunctionParameters
        = (xsize, ysize, values)) ∧
    (∀ (self : Discrete3DFunction) (xsize ysize zsize : Int) (values : List Double),
      (self.setFunctionParameters xsize ysize zsize values).1 = .ok () →
      (self.setFunctionParameters xsize ysize zsize values).2.getUpdateCount
        = wrapInt (self.getUpdateCount + 1) ∧
      (IsInt (self.getUpdateCount + 1) →
        (self.setFunctionParameters xsize ysize zsize values).2.getUpdateCount
          = self.getUpdateCount + 1) ∧
      (self.setFunctionParameters xsize ysize zsize values).2.getFunctionParameters
        = (xsize, ysize, zsize, values)) := by
  refine ⟨?_, ?_, ?_, ?_, ?_, ?_⟩
  · intro self values min max h
    rw [continuous1D_set_ok self values min max h]
    exact ⟨rfl, fun hi => wrapInt_of_isInt _ hi, rfl⟩
  · intro self xsize ysize values xmin xmax ymin ymax h
    rw [continuous2D_set_ok self xsize ysize values xmin xmax ymin ymax h]
    exact ⟨rfl, fun hi => wrapInt_of_isInt _ hi, rfl⟩
  · intro self xsize ysize zsize values xmin xmax ymin ymax zmin zmax h
    rw [continuous3D_set_ok self xsize ysize zsize values xmin xmax ymin ymax zmin zmax h]
    exact ⟨rfl, fun hi => wrapInt_of_isInt _ hi, rfl⟩
  · intro self values _
    exact ⟨rfl, fun hi => wrapInt_of_isInt _ hi, rfl⟩
  · intro self xsize ysize values h
    rw [discrete2D_set_ok self xsize ysize values h]
    exact ⟨rfl, fun hi => wrapInt_of_isInt _ hi, rfl⟩
  · intro self xsize ysize zsize values h
    rw [discrete3D_set_ok self xsize ysize zsize values h]
    exact ⟨rfl, fun hi => wrapInt_of_isInt _ hi, rfl⟩

/-- A successful replacement on a `Continuous1DFunction` holding
`([1,2,3], 0, 1)` with counter 1: the call with `([4,5,6], 0, 2)` returns, the
counter is 2 and the new parameters are read back. -/
theorem C3_successful_setFunctionParameters_witness :
    (clone123.setFunctionParameters [Double.four, Double.five, Double.six]
      Double.zero Double.two).1 = .ok () ∧
    IsInt (clone123.getUpdateCount + 1) ∧
    (clone123.setFunctionParameters [Double.four, Double.five, Double.six]
      Double.zero Double.two).2.getUpdateCount = clone123.getUpdateCount + 1 ∧
    (clone123.setFunctionParameters [Double.four, Double.five, Double.six]
      Double.zero Double.two).2.getFunctionParameters
      = ([Double.four, Double.five, Double.six], Double.zero, Double.two) :=
  ⟨rfl, by decide,
   (C3_successful_setFunctionParameters.1 clone123
      [Double.four, Double.five, Double.six] Double.zero Double.two rfl).2.1 (by decide),
   (C3_successful_setFunctionParameters.1 clone123
      [Double.four, Double.five, Double.six] Double.zero Double.two rfl).2.2⟩

theorem continuous1D_reachable_count (n : Nat) (h : n < 2147483647) :
    Continuous1DFunction.Reachable
      { periodic := false, updateCount := (n : Int) + 1,
        values := [Double.one, Double.two], min := Double.zero, max := Double.one } := by
  induction n with
  | zero =>
    exact Continuous1DFunction.Reachable.construct raw1D [Double.one, Double.two]
      Double.zero Double.one false _ rfl
  | succ k ih =>
    have hk := ih (by omega)
    have hs := Continuous1DFunction.Reachable.set _ [Double.one, Double.two]
      Double.zero Double.one hk
    have hok : (Continuous1DFunction.setFunctionParameters
        { periodic := false, updateCount := (k : Int) + 1,
          values := [Double.one, Double.two], min := Double.zero, max := Double.one }
        [Double.one, Double.two] Double.zero Double.one).1 = .ok () := rfl
    rw [continuous1D_set_ok _ _ _ _ hok] at hs
    have hw : wrapInt ((k : Int) + 1 + 1) = ((k + 1 : Nat) : Int) + 1 := by
      rw [wrapInt_of_isInt _ (by unfold IsInt; omega)]
      push_cast
      ring
    simp only at hs
    rw [hw] at hs
    exact hs

/-- Claim C3 as stated fails on the code when the counter is at the largest
`int`: the `Continuous1DFunction` holding `([1,2], 0, 1)` with
`getUpdateCount() == 2147483647` is reachable by replacements, the call
`setFunctionParameters([4,5,6], 0, 2)` succeeds on it, and `getUpdateCount()`
is then `-2147483648`, not the previous value plus 1. -/
theorem C3_successful_setFunctionParameters_counterexample :
    Continuous1DFunction.Reachable
      { periodic := false, updateCount := 2147483647,
        values := [Double.one, Double.two], min := Double.zero, max := Double.one } ∧
    (Continuous1DFunction.setFunctionParameters
      { periodic := false, updateCount := 2147483647,
        values := [Double.one, Double.two], min := Double.zero, max := Double.one }
      [Double.four, Double.five, Double.six] Double.zero Double.two).1 = .ok () ∧
    (Continuous1DFunction.setFunctionParameters
      { periodic := false, updateCount := 2147483647,
        values := [Double.one, Double.two], min := Double.zero, max := Double.one }
      [Double.four, Double.five, Double.six] Double.zero Double.two).2.getUpdateCount
      = -2147483648 ∧
    (-2147483648 : Int) ≠ 2147483647 + 1 :=
  ⟨continuous1D_reachable_count 2147483646 (by decide), rfl, rfl, by decide⟩

/-! ## Validation in Continuous1DFunction -/

theorem sizeToInt_of_lt (n : Nat) (h : n < 2147483648) : sizeToInt n = (n : Int) := by
  unfold sizeToInt wrapInt
  omega

theorem continuous1D_set_fst (self : Continuous1DFunction) (values : List Double)
    (min max : Double) :
    (self.setFunctionParameters values min max).1 =
      if Double.le max min then .error .c1dMaxLeMin
      else if self.periodic then
        (if sizeToInt (size values) < 3 then .error .c1dPeriodicThreePoints else .ok ())
      else (if sizeToInt (size values) < 2 then .error .c1dTwoPoints else .ok ()) := by
  unfold Continuous1DFunction.setFunctionParameters
  simp only []
  split_ifs <;> rfl

theorem continuous1D_construct_failure (raw : Continuous1DFunction) (values : List Double)
    (min max : Double) (periodic : Bool) :
    failure (Continuous1DFunction.construct raw values min max periodic) =
      failure (({ raw with periodic := periodic } :
        Continuous1DFunction).setFunctionParameters values min max).1 := by
  unfold Continuous1DFunction.construct
  split <;> rename_i heq <;> rw [heq] <;> rfl

theorem continuous1D_set_failure (self : Continuous1DFunction) (values : List Double)
    (min max : Double) :
    failure (self.setFunctionParameters values min max).1 =
      if Double.le max min then some .InvalidDomain
      else if (if self.periodic then sizeToInt (size values) < 3
               else sizeToInt (size values) < 2) then some .InsufficientSamples
      else none := by
  rw [continuous1D_set_fst]
  cases self.periodic <;> simp only [Bool.false_eq_true, if_false, if_true] <;>
    split_ifs <;> rfl

theorem continuous1D_validation_aux (periodic : Bool) (values : List Double) (min max : Double)
    (r : Option ErrorKind)
    (hr : r = if Double.le max min then some .InvalidDomain
      else if (if periodic then sizeToInt (size values) < 3
               else sizeToInt (size values) < 2) then some .InsufficientSamples
      else none) :
    (Double.le max min = true → r = some .InvalidDomain) ∧
    (Double.le max min = false →
      (if periodic then sizeToInt (size values) < 3 else sizeToInt (size values) < 2) →
      r = some .InsufficientSamples) ∧
    (r = none ↔ Double.le max min = false ∧
      (if periodic then 3 ≤ sizeToInt (size values) else 2 ≤ sizeToInt (size values))) ∧
    (min.isNaN = false → max.isNaN = false → values.length < 2147483648 →
      (Double.gt max min = true →
        (if periodic then values.length < 3 else values.length < 2) →
        r = some .InsufficientSamples) ∧
      (r = none ↔ Double.gt max min = true ∧
        (if periodic then 3 ≤ values.length else 2 ≤ values.length))) := by
  subst hr
  refine ⟨?_, ?_, ?_, ?_⟩
  · intro h
    simp [h]
  · intro h hn
    simp [h, hn]
  · cases periodic <;> by_cases h : Double.le max min = true <;>
      simp [h]
  · intro hmin hmax hlen
    have hgt := double_gt_iff_not_le max min hmax hmin
    have hn : sizeToInt (size values) = (values.length : Int) := sizeToInt_of_lt _ hlen
    rw [hgt, hn]
    cases periodic <;> by_cases h : Double.le max min = true <;>
      simp [h]

/-- Claim C4, as amended. For `Continuous1DFunction::setFunctionParameters`
and the constructor, with `n` the number of values converted to `int`:
the call fails with InvalidDomain whenever `max <= min`; when `max <= min`
does not hold it fails with InsufficientSamples whenever the object is
periodic and `n < 3`, or non-periodic and `n < 2`; and it succeeds if and only
if `max <= min` does not hold and `n >= 3` (periodic) or `n >= 2`
(non-periodic). When neither bound is NaN and there are fewer than `2^31`
values, this is: InsufficientSamples whenever `max > min` and the count is
below 3 (periodic) or 2 (non-periodic), and success if and only if
`max > min` and the count is at least 3 (periodic) or 2 (non-periodic). -/
theorem C4_continuous1D_validation :
    (∀ (self : Continuous1DFunction) (values : List Double) (min max : Double),
      (Double.le max min = true →
        failure (self.setFunctionParameters values min max).1 = some .InvalidDomain) ∧
      (Double.le max min = false →
        (if self.periodic then sizeToInt (size values) < 3
         else sizeToInt (size values) < 2) →
        failure (self.setFunctionParameters values min max).1
          = some .InsufficientSamples) ∧
      (failure (self.setFunctionParameters values min max).1 = none ↔
        Double.le max min = false ∧
        (if self.periodic then 3 ≤ sizeToInt (size values)
         else 2 ≤ sizeToInt (size values))) ∧
      (min.isNaN = false → max.isNaN = false → values.length < 2147483648 →
        (Double.gt max min = true →
          (if self.periodic then values.length < 3 else values.length < 2) →
          failure (self.setFunctionParameters values min max).1
            = some .InsufficientSamples) ∧
        (failure (self.setFunctionParameters values min max).1 = none ↔
          Double.gt max min = true ∧
          (if self.periodic then 3 ≤ values.length else 2 ≤ values.length)))) ∧
    (∀ (raw : Continuous1DFunction) (values : List Double) (min max : Double)
        (periodic : Bool),
      (Double.le max min = true →
        failure (Continuous1DFunction.construct raw values min max periodic)
          = some .InvalidDomain) ∧
      (Double.le max min = false →
        (if periodic then sizeToInt (size values) < 3
         else sizeToInt (size values) < 2) →
        failure (Continuous1DFunction.construct raw values min max periodic)
          = some .InsufficientSamples) ∧
      (failure (Continuous1DFunction.construct raw values min max periodic) = none ↔
        Double.le max min = false ∧
        (if periodic then 3 ≤ sizeToInt (size values)
         else 2 ≤ sizeToInt (size values))) ∧
      (min.isNaN = false → max.isNaN = false → values.length < 2147483648 →
        (Double.gt max min = true →
          (if periodic then values.length < 3 else values.length < 2) →
          failure (Continuous1DFunction.construct raw values min max periodic)
            = some .InsufficientSamples) ∧
        (failure (Continuous1DFunction.construct raw values min max periodic) = none ↔
          Double.gt max min = true ∧
          (if periodic then 3 ≤ values.length else 2 ≤ values.length)))) := by
  constructor
  · intro self values min max
    exact continuous1D_validation_aux self.periodic values min max _
      (continuous1D_set_failure self values min max)
  · intro raw values min max periodic
    refine continuous1D_validation_aux periodic values min max _ ?_
    rw [continuous1D_construct_failure, continuous1D_set_failure]

/-- Scenario 2 of the specification, from C4:
`Continuous1DFunction([1.0,2.0], 0.0, 1.0, periodic=true)` fails with
InsufficientSamples. -/
theorem C4_continuous1D_validation_witness :
    Double.zero.isNaN = false ∧ Double.one.isNaN = false ∧
    [Double.one, Double.two].length < 2147483648 ∧
    Double.gt Double.one Double.zero = true ∧
    [Double.one, Double.two].length < 3 ∧
    failure (Continuous1DFunction.construct raw1D [Double.one, Double.two]
      Double.zero Double.one true) = some .InsufficientSamples :=
  ⟨rfl, rfl, by decide, rfl, by decide,
   ((C4_continuous1D_validation.2 raw1D [Double.one, Double.two]
      Double.zero Double.one true).2.2.2 rfl rfl (by decide)).1 rfl (by decide)⟩

/-- Claim C4 as stated fails on the code at three inputs.
With `min` a NaN and `max = 0.0` the test `max <= min` is false, so
`Continuous1DFunction([1.0,2.0], NaN, 0.0, false)` succeeds although
`max > min` does not hold.
`Continuous1DFunction([1.0], 1.0, 0.0, periodic=true)` is periodic with fewer
than three values and fails with InvalidDomain, not InsufficientSamples: the
bounds are tested first.
With `2^31` values the count converted to `int` is negative, so the
non-periodic construction with bounds `0.0 < 1.0` fails with
InsufficientSamples although there are at least two values. -/
theorem C4_continuous1D_validation_counterexample :
    (failure (Continuous1DFunction.construct raw1D [Double.one, Double.two]
        Double.nan Double.zero false) = none ∧
      Double.gt Double.zero Double.nan = false) ∧
    failure (Continuous1DFunction.construct raw1D [Double.one]
        Double.one Double.zero true) = some .InvalidDomain ∧
    (failure (Continuous1DFunction.construct raw1D
        (List.replicate 2147483648 Double.zero) Double.zero Double.one false)
        = some .InsufficientSamples ∧
      Double.gt Double.one Double.zero = true ∧
      2 ≤ (List.replicate 2147483648 Double.zero).length) := by
  refine ⟨⟨rfl, rfl⟩, rfl, ?_, rfl, ?_⟩
  · rw [continuous1D_construct_failure, continuous1D_set_failure]
    have hle : Double.le Double.one Double.zero = false := rfl
    have hn : sizeToInt (size (List.replicate 2147483648 Double.zero)) = -2147483648 := by
      unfold size
      rw [List.length_replicate]
      unfold sizeToInt wrapInt
      norm_num
    rw [hle, hn]
    simp
  · rw [List.length_replicate]
    norm_num

/-! ## Validation in Continuous2DFunction and Continuous3DFunction -/

theorem size_ne_toSizeT_iff (values : List Double) (p : Int) (hp : IsInt p) (h0 : 0 ≤ p) :
    size values ≠ toSizeT (wrapInt p) ↔ ¬ ((values.length : Int) = p) := by
  rw [wrapInt_of_isInt p hp]
  unfold IsInt at hp
  unfold size toSizeT
  omega

theorem continuous2D_set_failure (self : Continuous2DFunction) (xsize ysize : Int)
    (values : List Double) (xmin xmax ymin ymax : Double) :
    failure (self.setFunctionParameters xsize ysize values xmin xmax ymin ymax).1 =
      if ¬ (if self.periodic then 3 ≤ xsize ∧ 3 ≤ ysize else 2 ≤ xsize ∧ 2 ≤ ysize) then
        some .InsufficientSamples
      else if size values ≠ toSizeT (mulInt xsize ysize) then some .SizeMismatch
      else if Double.le xmax xmin = true ∨ Double.le ymax ymin = true then
        some .InvalidDomain
      else none := by
  unfold Continuous2DFunction.setFunctionParameters
  simp only []
  cases self.periodic <;>
    simp only [Bool.false_eq_true, if_false, if_true, Bool.or_eq_true, decide_eq_true_eq] <;>
    split_ifs <;> first | rfl | omega | simp_all

theorem continuous3D_set_failure (self : Continuous3DFunction) (xsize ysize zsize : Int)
    (values : List Double) (xmin xmax ymin ymax zmin zmax : Double) :
    failure (self.setFunctionParameters xsize ysize zsize values
        xmin xmax ymin ymax zmin zmax).1 =
      if ¬ (if self.periodic then 3 ≤ xsize ∧ 3 ≤ ysize ∧ 3 ≤ zsize
            else 2 ≤ xsize ∧ 2 ≤ ysize ∧ 2 ≤ zsize) then
        some .InsufficientSamples
      else if size values ≠ toSizeT (mulInt (mulInt xsize ysize) zsize) then
        some .SizeMismatch
      else if Double.le xmax xmin = true ∨ Double.le ymax ymin = true ∨
          Double.le zmax zmin = true then
        some .InvalidDomain
      else none := by
  unfold Continuous3DFunction.setFunctionParameters
  simp only []
  cases self.periodic <;>
    simp only [Bool.false_eq_true, if_false, if_true, Bool.or_eq_true, decide_eq_true_eq] <;>
    split_ifs <;> first | rfl | omega | simp_all

theorem continuous2D_construct_failure (raw : Continuous2DFunction) (xsize ysize : Int)
    (values : List Double) (xmin xmax ymin ymax : Double) (periodic : Bool) :
    failure (Continuous2DFunction.construct raw xsize ysize values
        xmin xmax ymin ymax periodic) =
      failure (({ raw with periodic := periodic } :
        Continuous2DFunction).setFunctionParameters xsize ysize values
          xmin xmax ymin ymax).1 := by
  unfold Continuous2DFunction.construct
  split <;> rename_i heq <;> rw [heq] <;> rfl

theorem continuous3D_construct_failure (raw : Continuous3DFunction) (xsize ysize zsize : Int)
    (values : List Double) (xmin xmax ymin ymax zmin zmax : Double) (periodic : Bool) :
    failure (Continuous3DFunction.construct raw xsize ysize zsize values
        xmin xmax ymin ymax zmin zmax periodic) =
      failure (({ raw with periodic := periodic } :
        Continuous3DFunction).setFunctionParameters xsize ysize zsize values
          xmin xmax ymin ymax zmin zmax).1 := by
  unfold Continuous3DFunction.construct
  split <;> rename_i heq <;> rw [heq] <;> rfl

theorem validate2D_of_machine (periodic : Bool) (xsize ysize : Int) (values : List Double)
    (xmin xmax ymin ymax : Double)
    (hx0 : xmin.isNaN = false) (hx1 : xmax.isNaN = false)
    (hy0 : ymin.isNaN = false) (hy1 : ymax.isNaN = false)
    (hp : IsInt (xsize * ysize)) :
    (if ¬ (if periodic then 3 ≤ xsize ∧ 3 ≤ ysize else 2 ≤ xsize ∧ 2 ≤ ysize) then
        some ErrorKind.InsufficientSamples
      else if size values ≠ toSizeT (mulInt xsize ysize) then some .SizeMismatch
      else if Double.le xmax xmin = true ∨ Double.le ymax ymin = true then
        some .InvalidDomain
      else none) =
    Spec.validate2D periodic xsize ysize values xmin xmax ymin ymax := by
  unfold Spec.validate2D
  by_cases ha : (if periodic then 3 ≤ xsize ∧ 3 ≤ ysize else 2 ≤ xsize ∧ 2 ≤ ysize)
  · have h2 : 2 ≤ xsize ∧ 2 ≤ ysize := by
      cases periodic
      · simpa using ha
      · simp only [if_true] at ha
        omega
    have h0 : 0 ≤ xsize * ysize := Int.mul_nonneg (by omega) (by omega)
    have hb := size_ne_toSizeT_iff values (xsize * ysize) hp h0
    rw [double_gt_iff_not_le xmax xmin hx1 hx0, double_gt_iff_not_le ymax ymin hy1 hy0]
    unfold mulInt
    simp only [ha, not_true_eq_false, if_false]
    by_cases hs : (values.length : Int) = xsize * ysize
    · have hs2 : ¬ (size values ≠ toSizeT (wrapInt (xsize * ysize))) := by
        rw [hb]; simpa using hs
      simp only [hs2, hs, not_true_eq_false, if_false]
      cases Double.le xmax xmin <;> cases Double.le ymax ymin <;> simp
    · have hs2 : size values ≠ toSizeT (wrapInt (xsize * ysize)) := hb.mpr hs
      rw [if_pos hs2]
      simp only [hs, not_false_eq_true, if_true]
  · simp only [ha, not_false_eq_true, if_true]

theorem validate3D_of_machine (periodic : Bool) (xsize ysize zsize : Int)
    (values : List Double) (xmin xmax ymin ymax zmin zmax : Double)
    (hx0 : xmin.isNaN = false) (hx1 : xmax.isNaN = false)
    (hy0 : ymin.isNaN = false) (hy1 : ymax.isNaN = false)
    (hz0 : zmin.isNaN = false) (hz1 : zmax.isNaN = false)
    (hp : IsInt (xsize * ysize)) (hq : IsInt (xsize * ysize * zsize)) :
    (if ¬ (if periodic then 3 ≤ xsize ∧ 3 ≤ ysize ∧ 3 ≤ zsize
            else 2 ≤ xsize ∧ 2 ≤ ysize ∧ 2 ≤ zsize) then
        some ErrorKind.InsufficientSamples
      else if size values ≠ toSizeT (mulInt (mulInt xsize ysize) zsize) then
        some .SizeMismatch
      else if Double.le xmax xmin = true ∨ Double.le ymax ymin = true ∨
          Double.le zmax zmin = true then
        some .InvalidDomain
      else none) =
    Spec.validate3D periodic xsize ysize zsize values xmin xmax ymin ymax zmin zmax := by
  unfold Spec.validate3D
  by_cases ha : (if periodic then 3 ≤ xsize ∧ 3 ≤ ysize ∧ 3 ≤ zsize
            else 2 ≤ xsize ∧ 2 ≤ ysize ∧ 2 ≤ zsize)
  · have h2 : 2 ≤ xsize ∧ 2 ≤ ysize ∧ 2 ≤ zsize := by
      cases periodic
      · simpa using ha
      · simp only [if_true] at ha
        omega
    have h0 : 0 ≤ xsize * ysize * zsize :=
      Int.mul_nonneg (Int.mul_nonneg (by omega) (by omega)) (by omega)
    have hb := size_ne_toSizeT_iff values (xsize * ysize * zsize) hq h0
    rw [double_gt_iff_not_le xmax xmin hx1 hx0, double_gt_iff_not_le ymax ymin hy1 hy0,
      double_gt_iff_not_le zmax zmin hz1 hz0]
    unfold mulInt
    rw [wrapInt_of_isInt (xsize * ysize) hp]
    simp only [ha, not_true_eq_false, if_false]
    by_cases hs : (values.length : Int) = xsize * ysize * zsize
    · have hs2 : ¬ (size values ≠ toSizeT (wrapInt (xsize * ysize * zsize))) := by
        rw [hb]; simpa using hs
      simp only [hs2, hs, not_true_eq_false, if_false]
      cases Double.le xmax xmin <;> cases Double.le ymax ymin <;>
        cases Double.le zmax zmin <;> simp
    · have hs2 : size values ≠ toSizeT (wrapInt (xsize * ysize * zsize)) := hb.mpr hs
      rw [if_pos hs2]
      simp only [hs, not_false_eq_true, if_true]
  · simp only [ha, not_false_eq_true, if_true]

theorem validate2D_eq_none (periodic : Bool) (xsize ysize : Int) (values : List Double)
    (xmin xmax ymin ymax : Double) :
    Spec.validate2D periodic xsize ysize values xmin xmax ymin ymax = none ↔
      (if periodic then 3 ≤ xsize ∧ 3 ≤ ysize else 2 ≤ xsize ∧ 2 ≤ ysize) ∧
      (values.length : Int) = xsize * ysize ∧
      (Double.gt xmax xmin = true ∧ Double.gt ymax ymin = true) := by
  unfold Spec.validate2D
  split_ifs <;> simp_all

theorem validate3D_eq_none (periodic : Bool) (xsize ysize zsize : Int)
    (values : List Double) (xmin xmax ymin ymax zmin zmax : Double) :
    Spec.validate3D periodic xsize ysize zsize values xmin xmax ymin ymax zmin zmax = none ↔
      (if periodic then 3 ≤ xsize ∧ 3 ≤ ysize ∧ 3 ≤ zsize
        else 2 ≤ xsize ∧ 2 ≤ ysize ∧ 2 ≤ zsize) ∧
      (values.length : Int) = xsize * ysize * zsize ∧
      (Double.gt xmax xmin = true ∧ Double.gt ymax ymin = true ∧
        Double.gt zmax zmin = true) := by
  unfold Spec.validate3D
  split_ifs <;> simp_all

/-- Claim C5, as amended. `Continuous2DFunction` and `Continuous3DFunction`,
in `setFunctionParameters` and in the constructor, validate in the order
(a) every axis size at least 3 if periodic and at least 2 otherwise, else
InsufficientSamples; (b) the number of values equal to the `int` product of
the axis sizes, else SizeMismatch; (c) `max <= min` false on every axis, else
InvalidDomain: the call succeeds iff all three hold and otherwise reports the
first violated rule in this order. When no bound is NaN and the product of the
sizes is representable as an `int`, (b) is equality with the product of the
sizes and (c) is `max > min` on every axis, so the outcome is that of the
specification's validation and the call succeeds iff its three rules hold. -/
theorem C5_continuous2D3D_validation_order :
    (∀ (self : Continuous2DFunction) (xsize ysize : Int) (values : List Double)
        (xmin xmax ymin ymax : Double),
      failure (self.setFunctionParameters xsize ysize values xmin xmax ymin ymax).1 =
        (if ¬ (if self.periodic then 3 ≤ xsize ∧ 3 ≤ ysize
               else 2 ≤ xsize ∧ 2 ≤ ysize) then
          some .InsufficientSamples
        else if size values ≠ toSizeT (mulInt xsize ysize) then some .SizeMismatch
        else if Double.le xmax xmin = true ∨ Double.le ymax ymin = true then
          some .InvalidDomain
        else none) ∧
      (xmin.isNaN = false → xmax.isNaN = false → ymin.isNaN = false →
        ymax.isNaN = false → IsInt (xsize * ysize) →
        failure (self.setFunctionParameters xsize ysize values xmin xmax ymin ymax).1
          = Spec.validate2D self.periodic xsize ysize values xmin xmax ymin ymax ∧
        (failure (self.setFunctionParameters xsize ysize values xmin xmax ymin ymax).1
          = none ↔
          (if self.periodic then 3 ≤ xsize ∧ 3 ≤ ysize else 2 ≤ xsize ∧ 2 ≤ ysize) ∧
          (values.length : Int) = xsize * ysize ∧
          (Double.gt xmax xmin = true ∧ Double.gt ymax ymin = true)))) ∧
    (∀ (raw : Continuous2DFunction) (xsize ysize : Int) (values : List Double)
        (xmin xmax ymin ymax : Double) (periodic : Bool),
      failure (Continuous2DFunction.construct raw xsize ysize values
          xmin xmax ymin ymax periodic) =
        (if ¬ (if periodic then 3 ≤ xsize ∧ 3 ≤ ysize else 2 ≤ xsize ∧ 2 ≤ ysize) then
          some .InsufficientSamples
        else if size values ≠ toSizeT (mulInt xsize ysize) then some .SizeMismatch
        else if Double.le xmax xmin = true ∨ Double.le ymax ymin = true then
          some .InvalidDomain
        else none) ∧
      (xmin.isNaN = false → xmax.isNaN = false → ymin.isNaN = false →
        ymax.isNaN = false → IsInt (xsize * ysize) →
        failure (Continuous2DFunction.construct raw xsize ysize values
            xmin xmax ymin ymax periodic)
          = Spec.validate2D periodic xsize ysize values xmin xmax ymin ymax ∧
        (failure (Continuous2DFunction.construct raw xsize ysize values
            xmin xmax ymin ymax periodic) = none ↔
          (if periodic then 3 ≤ xsize ∧ 3 ≤ ysize else 2 ≤ xsize ∧ 2 ≤ ysize) ∧
          (values.length : Int) = xsize * ysize ∧
          (Double.gt xmax xmin = true ∧ Double.gt ymax ymin = true)))) ∧
    (∀ (self : Continuous3DFunction) (xsize ysize zsize : Int) (values : List Double)
        (xmin xmax ymin ymax zmin zmax : Double),
      failure (self.setFunctionParameters xsize ysize zsize values
          xmin xmax ymin ymax zmin zmax).1 =
        (if ¬ (if self.periodic then 3 ≤ xsize ∧ 3 ≤ ysize ∧ 3 ≤ zsize
               else 2 ≤ xsize ∧ 2 ≤ ysize ∧ 2 ≤ zsize) then
          some .InsufficientSamples
        else if size values ≠ toSizeT (mulInt (mulInt xsize ysize) zsize) then
          some .SizeMismatch
        else if Double.le xmax xmin = true ∨ Double.le ymax ymin = true ∨
            Double.le zmax zmin = true then
          some .InvalidDomain
        else none) ∧
      (xmin.isNaN = false → xmax.isNaN = false → ymin.isNaN = false →
        ymax.isNaN = false → zmin.isNaN = false → zmax.isNaN = false →
        IsInt (xsize * ysize) → IsInt (xsize * ysize * zsize) →
        failure (self.setFunctionParameters xsize ysize zsize values
            xmin xmax ymin ymax zmin zmax).1
          = Spec.validate3D self.periodic xsize ysize zsize values
              xmin xmax ymin ymax zmin zmax ∧
        (failure (self.setFunctionParameters xsize ysize zsize values
            xmin xmax ymin ymax zmin zmax).1 = none ↔
          (if self.periodic then 3 ≤ xsize ∧ 3 ≤ ysize ∧ 3 ≤ zsize
            else 2 ≤ xsize ∧ 2 ≤ ysize ∧ 2 ≤ zsize) ∧
          (values.length : Int) = xsize * ysize * zsize ∧
          (Double.gt xmax xmin = true ∧ Double.gt ymax ymin = true ∧
            Double.gt zmax zmin = true)))) ∧
    (∀ (raw : Continuous3DFunction) (xsize ysize zsize : Int) (values : List Double)
        (xmin xmax ymin ymax zmin zmax : Double) (periodic : Bool),
      failure (Continuous3DFunction.construct raw xsize ysize zsize values
          xmin xmax ymin ymax zmin zmax periodic) =
        (if ¬ (if periodic then 3 ≤ xsize ∧ 3 ≤ ysize ∧ 3 ≤ zsize
               else 2 ≤ xsize ∧ 2 ≤ ysize ∧ 2 ≤ zsize) then
          some .InsufficientSamples
        else if size values ≠ toSizeT (mulInt (mulInt xsize ysize) zsize) then
          some .SizeMismatch
        else if Double.le xmax xmin = true ∨ Double.le ymax ymin = true ∨
            Double.le zmax zmin = true then
          some .InvalidDomain
        else none) ∧
      (xmin.isNaN = false → xmax.isNaN = false → ymin.isNaN = false →
        ymax.isNaN = false → zmin.isNaN = false → zmax.isNaN = false →
        IsInt (xsize * ysize) → IsInt (xsize * ysize * zsize) →
        failure (Continuous3DFunction.construct raw xsize ysize zsize values
            xmin xmax ymin ymax zmin zmax periodic)
          = Spec.validate3D periodic xsize ysize zsize values
              xmin xmax ymin ymax zmin zmax ∧
        (failure (Continuous3DFunction.construct raw xsize ysize zsize values
            xmin xmax ymin ymax zmin zmax periodic) = none ↔
          (if periodic then 3 ≤ xsize ∧ 3 ≤ ysize ∧ 3 ≤ zsize
            else 2 ≤ xsize ∧ 2 ≤ ysize ∧ 2 ≤ zsize) ∧
          (values.length : Int) = xsize * ysize * zsize ∧
          (Double.gt xmax xmin = true ∧ Double.gt ymax ymin = true ∧
            Double.gt zmax zmin = true)))) := by
  refine ⟨?_, ?_, ?_, ?_⟩
  · intro self xsize ysize values xmin xmax ymin ymax
    have h := continuous2D_set_failure self xsize ysize values xmin xmax ymin ymax
    refine ⟨h, ?_⟩
    intro hx0 hx1 hy0 hy1 hp
    have h2 := h.trans (validate2D_of_machine self.periodic xsize ysize values
      xmin xmax ymin ymax hx0 hx1 hy0 hy1 hp)
    exact ⟨h2, by rw [h2]; exact validate2D_eq_none _ _ _ _ _ _ _ _⟩
  · intro raw xsize ysize values xmin xmax ymin ymax periodic
    have h := (continuous2D_construct_failure raw xsize ysize values
      xmin xmax ymin ymax periodic).trans
      (continuous2D_set_failure _ xsize ysize values xmin xmax ymin ymax)
    refine ⟨h, ?_⟩
    intro hx0 hx1 hy0 hy1 hp
    have h2 := h.trans (validate2D_of_machine periodic xsize ysize values
      xmin xmax ymin ymax hx0 hx1 hy0 hy1 hp)
    exact ⟨h2, by rw [h2]; exact validate2D_eq_none _ _ _ _ _ _ _ _⟩
  · intro self xsize ysize zsize values xmin xmax ymin ymax zmin zmax
    have h := continuous3D_set_failure self xsize ysize zsize values
      xmin xmax ymin ymax zmin zmax
    refine ⟨h, ?_⟩
    intro hx0 hx1 hy0 hy1 hz0 hz1 hp hq
    have h2 := h.trans (validate3D_of_machine self.periodic xsize ysize zsize values
      xmin xmax ymin ymax zmin zmax hx0 hx1 hy0 hy1 hz0 hz1 hp hq)
    exact ⟨h2, by rw [h2]; exact validate3D_eq_none _ _ _ _ _ _ _ _ _ _ _⟩
  · intro raw xsize ysize zsize values xmin xmax ymin ymax zmin zmax periodic
    have h := (continuous3D_construct_failure raw xsize ysize zsize values
      xmin xmax ymin ymax zmin zmax periodic).trans
      (continuous3D_set_failure _ xsize ysize zsize values xmin xmax ymin ymax zmin zmax)
    refine ⟨h, ?_⟩
    intro hx0 hx1 hy0 hy1 hz0 hz1 hp hq
    have h2 := h.trans (validate3D_of_machine periodic xsize ysize zsize values
      xmin xmax ymin ymax zmin zmax hx0 hx1 hy0 hy1 hz0 hz1 hp hq)
    exact ⟨h2, by rw [h2]; exact validate3D_eq_none _ _ _ _ _ _ _ _ _ _ _⟩

/-- Scenario 3 of the specification, from C5:
`Continuous2DFunction(2, 2, [1,2,3], 0, 1, 0, 1, periodic=false)` fails with
SizeMismatch. -/
theorem C5_continuous2D3D_validation_order_witness :
    Double.zero.isNaN = false ∧ Double.one.isNaN = false ∧ IsInt (2 * 2) ∧
    failure (Continuous2DFunction.construct raw2D 2 2
      [Double.one, Double.two, Double.three]
      Double.zero Double.one Double.zero Double.one false) = some .SizeMismatch :=
  ⟨rfl, rfl, by decide,
   ((C5_continuous2D3D_validation_order.2.1 raw2D 2 2
      [Double.one, Double.two, Double.three]
      Double.zero Double.one Double.zero Double.one false).2
      rfl rfl rfl rfl (by decide)).1.trans (by decide)⟩

/-- Claim C5 as stated fails on the code when a bound is NaN: with `xmin` a NaN
the test `xmax <= xmin` is false, so
`Continuous2DFunction(2, 2, [1,2,3,4], NaN, 0, 0, 1, false)` succeeds although
`xmax > xmin` does not hold and rule (c) of the specification is violated. -/
theorem C5_continuous2D3D_validation_order_counterexample :
    failure (Continuous2DFunction.construct raw2D 2 2
      [Double.one, Double.two, Double.three, Double.four]
      Double.nan Double.zero Double.zero Double.one false) = none ∧
    Double.gt Double.zero Double.nan = false ∧
    Spec.validate2D false 2 2 [Double.one, Double.two, Double.three, Double.four]
      Double.nan Double.zero Double.zero Double.one = some .InvalidDomain :=
  ⟨rfl, rfl, by decide⟩

/-! ## Validation in Discrete2DFunction and Discrete3DFunction -/

theorem size_ne_toSizeT_iff_of_lt (values : List Double) (p : Int) (hp : IsInt p)
    (hlen : values.length < 9223372036854775808) :
    size values ≠ toSizeT (wrapInt p) ↔ (values.length : Int) ≠ p := by
  rw [wrapInt_of_isInt p hp]
  unfold IsInt at hp
  unfold size toSizeT
  omega

theorem discrete2D_set_cases (self : Discrete2DFunction) (xsize ysize : Int)
    (values : List Double) :
    (size values ≠ toSizeT (mulInt xsize ysize) ∧
      self.setFunctionParameters xsize ysize values = (.error .d2dNumValues, self)) ∨
    (size values = toSizeT (mulInt xsize ysize) ∧
      self.setFunctionParameters xsize ysize values =
        (.ok (), { self with xsize := xsize, ysize := ysize, values := values,
                             updateCount := wrapInt (self.updateCount + 1) })) := by
  unfold Discrete2DFunction.setFunctionParameters
  by_cases h : size values = toSizeT (mulInt xsize ysize)
  · right
    exact ⟨h, by rw [if_neg (not_not.mpr h)]⟩
  · left
    exact ⟨h, by rw [if_pos h]⟩

theorem discrete3D_set_cases (self : Discrete3DFunction) (xsize ysize zsize : Int)
    (values : List Double) :
    (size values ≠ toSizeT (mulInt (mulInt xsize ysize) zsize) ∧
      self.setFunctionParameters xsize ysize zsize values = (.error .d3dNumValues, self)) ∨
    (size values = toSizeT (mulInt (mulInt xsize ysize) zsize) ∧
      self.setFunctionParameters xsize ysize zsize values =
        (.ok (), { self with xsize := xsize, ysize := ysize, zsize := zsize,
                             values := values,
                             updateCount := wrapInt (self.updateCount + 1) })) := by
  unfold Discrete3DFunction.setFunctionParameters
  by_cases h : size values = toSizeT (mulInt (mulInt xsize ysize) zsize)
  · right
    exact ⟨h, by rw [if_neg (not_not.mpr h)]⟩
  · left
    exact ⟨h, by rw [if_pos h]⟩

theorem discrete2D_construct_cases (raw : Discrete2DFunction) (xsize ysize : Int)
    (values : List Double) :
    (size values ≠ toSizeT (mulInt xsize ysize) ∧
      Discrete2DFunction.construct raw xsize ysize values = .error .d2dNumValues) ∨
    (size values = toSizeT (mulInt xsize ysize) ∧
      Discrete2DFunction.construct raw xsize ysize values =
        .ok { raw with xsize := xsize, ysize := ysize, values := values }) := by
  unfold Discrete2DFunction.construct
  by_cases h : size values = toSizeT (mulInt xsize ysize)
  · right
    exact ⟨h, by rw [if_neg (not_not.mpr h)]⟩
  · left
    exact ⟨h, by rw [if_pos h]⟩

theorem discrete3D_construct_cases (raw : Discrete3DFunction) (xsize ysize zsize : Int)
    (values : List Double) :
    (size values ≠ toSizeT (mulInt (mulInt xsize ysize) zsize) ∧
      Discrete3DFunction.construct raw xsize ysize zsize values = .error .d3dNumValues) ∨
    (size values = toSizeT (mulInt (mulInt xsize ysize) zsize) ∧
      Discrete3DFunction.construct raw xsize ysize zsize values =
        .ok { raw with xsize := xsize, ysize := ysize, zsize := zsize,
                       values := values }) := by
  unfold Discrete3DFunction.construct
  by_cases h : size values = toSizeT (mulInt (mulInt xsize ysize) zsize)
  · right
    exact ⟨h, by rw [if_neg (not_not.mpr h)]⟩
  · left
    exact ⟨h, by rw [if_pos h]⟩

/-- Claim C6, as amended. `Discrete2DFunction` and `Discrete3DFunction`, in
`setFunctionParameters` and in the constructor, fail with SizeMismatch if and
only if the number of values differs from the product `xsize*ysize`
(`xsize*ysize*zsize`) of the code, an `int` product compared as a `size_t`;
on every other input the call succeeds and `getFunctionParameters` returns
the sizes and values unchanged. Whenever the products are representable as
`int` (no signed overflow) and the vector has fewer than `2^63` elements, the
comparison of the code is the comparison of the number of values with the
product of the sizes as integers. -/
theorem C6_discrete2D3D_size_mismatch :
    (∀ (self : Discrete2DFunction) (xsize ysize : Int) (values : List Double),
      (failure (self.setFunctionParameters xsize ysize values).1 = some .SizeMismatch ↔
        size values ≠ toSizeT (mulInt xsize ysize)) ∧
      (size values = toSizeT (mulInt xsize ysize) →
        (self.setFunctionParameters xsize ysize values).1 = .ok () ∧
        (self.setFunctionParameters xsize ysize values).2.getFunctionParameters
          = (xsize, ysize, values)) ∧
      (IsInt (xsize * ysize) → values.length < 9223372036854775808 →
        (failure (self.setFunctionParameters xsize ysize values).1 = some .SizeMismatch ↔
          (values.length : Int) ≠ xsize * ysize) ∧
        ((values.length : Int) = xsize * ysize →
          (self.setFunctionParameters xsize ysize values).1 = .ok () ∧
          (self.setFunctionParameters xsize ysize values).2.getFunctionParameters
            = (xsize, ysize, values)))) ∧
    (∀ (raw : Discrete2DFunction) (xsize ysize : Int) (values : List Double),
      (failure (Discrete2DFunction.construct raw xsize ysize values)
          = some .SizeMismatch ↔
        size values ≠ toSizeT (mulInt xsize ysize)) ∧
      (size values = toSizeT (mulInt xsize ysize) →
        ∃ self, Discrete2DFunction.construct raw xsize ysize values = .ok self ∧
          self.getFunctionParameters = (xsize, ysize, values)) ∧
      (IsInt (xsize * ysize) → values.length < 9223372036854775808 →
        (failure (Discrete2DFunction.construct raw xsize ysize values)
            = some .SizeMismatch ↔
          (values.length : Int) ≠ xsize * ysize) ∧
        ((values.length : Int) = xsize * ysize →
          ∃ self, Discrete2DFunction.construct raw xsize ysize values = .ok self ∧
            self.getFunctionParameters = (xsize, ysize, values)))) ∧
    (∀ (self : Discrete3DFunction) (xsize ysize zsize : Int) (values : List Double),
      (failure (self.setFunctionParameters xsize ysize zsize values).1
          = some .SizeMismatch ↔
        size values ≠ toSizeT (mulInt (mulInt xsize ysize) zsize)) ∧
      (size values = toSizeT (mulInt (mulInt xsize ysize) zsize) →
        (self.setFunctionParameters xsize ysize zsize values).1 = .ok () ∧
        (self.setFunctionParameters xsize ysize zsize values).2.getFunctionParameters
          = (xsize, ysize, zsize, values)) ∧
      (IsInt (xsize * ysize) → IsInt (xsize * ysize * zsize) →
        values.length < 9223372036854775808 →
        (failure (self.setFunctionParameters xsize ysize zsize values).1
            = some .SizeMismatch ↔
          (values.length : Int) ≠ xsize * ysize * zsize) ∧
        ((values.length : Int) = xsize * ysize * zsize →
          (self.setFunctionParameters xsize ysize zsize values).1 = .ok () ∧
          (self.setFunctionParameters xsize ysize zsize values).2.getFunctionParameters
            = (xsize, ysize, zsize, values)))) ∧
    (∀ (raw : Discrete3DFunction) (xsize ysize zsize : Int) (values : List Double),
      (failure (Discrete3DFunction.construct raw xsize ysize zsize values)
          = some .SizeMismatch ↔
        size values ≠ toSizeT (mulInt (mulInt xsize ysize) zsize)) ∧
      (size values = toSizeT (mulInt (mulInt xsize ysize) zsize) →
        ∃ self, Discrete3DFunction.construct raw xsize ysize zsize values = .ok self ∧
          self.getFunctionParameters = (xsize, ysize, zsize, values)) ∧
      (IsInt (xsize * ysize) → IsInt (xsize * ysize * zsize) →
        values.length < 9223372036854775808 →
        (failure (Discrete3DFunction.construct raw xsize ysize zsize values)
            = some .SizeMismatch ↔
          (values.length : Int) ≠ xsize * ysize * zsize) ∧
        ((values.length : Int) = xsize * ysize * zsize →
          ∃ self, Discrete3DFunction.construct raw xsize ysize zsize values = .ok self ∧
            self.getFunctionParameters = (xsize, ysize, zsize, values)))) := by
  refine ⟨?_, ?_, ?_, ?_⟩
  · intro self xsize ysize values
    have key : (failure (self.setFunctionParameters xsize ysize values).1
          = some .SizeMismatch ↔
        size values ≠ toSizeT (mulInt xsize ysize)) ∧
      (size values = toSizeT (mulInt xsize ysize) →
        (self.setFunctionParameters xsize ysize values).1 = .ok () ∧
        (self.setFunctionParameters xsize ysize values).2.getFunctionParameters
          = (xsize, ysize, values)) := by
      rcases discrete2D_set_cases self xsize ysize values with ⟨h, e⟩ | ⟨h, e⟩
      · rw [e]
        exact ⟨⟨fun _ => h, fun _ => rfl⟩, fun h2 => absurd h2 h⟩
      · rw [e]
        refine ⟨⟨fun h2 => ?_, fun h2 => absurd h h2⟩, fun _ => ⟨rfl, rfl⟩⟩
        simp [failure] at h2
    refine ⟨key.1, key.2, ?_⟩
    intro hp hlen
    have hiff := size_ne_toSizeT_iff_of_lt values (xsize * ysize) hp hlen
    refine ⟨key.1.trans hiff, fun heq => key.2 ?_⟩
    by_contra hne
    exact (hiff.mp hne) heq
  · intro raw xsize ysize values
    have key : (failure (Discrete2DFunction.construct raw xsize ysize values)
          = some .SizeMismatch ↔
        size values ≠ toSizeT (mulInt xsize ysize)) ∧
      (size values = toSizeT (mulInt xsize ysize) →
        ∃ self, Discrete2DFunction.construct raw xsize ysize values = .ok self ∧
          self.getFunctionParameters = (xsize, ysize, values)) := by
      rcases discrete2D_construct_cases raw xsize ysize values with ⟨h, e⟩ | ⟨h, e⟩
      · rw [e]
        exact ⟨⟨fun _ => h, fun _ => rfl⟩, fun h2 => absurd h2 h⟩
      · rw [e]
        refine ⟨⟨fun h2 => ?_, fun h2 => absurd h h2⟩, fun _ => ⟨_, rfl, rfl⟩⟩
        simp [failure] at h2
    refine ⟨key.1, key.2, ?_⟩
    intro hp hlen
    have hiff := size_ne_toSizeT_iff_of_lt values (xsize * ysize) hp hlen
    refine ⟨key.1.trans hiff, fun heq => key.2 ?_⟩
    by_contra hne
    exact (hiff.mp hne) heq
  · intro self xsize ysize zsize values
    have key : (failure (self.setFunctionParameters xsize ysize zsize values).1
          = some .SizeMismatch ↔
        size values ≠ toSizeT (mulInt (mulInt xsize ysize) zsize)) ∧
      (size values = toSizeT (mulInt (mulInt xsize ysize) zsize) →
        (self.setFunctionParameters xsize ysize zsize values).1 = .ok () ∧
        (self.setFunctionParameters xsize ysize zsize values).2.getFunctionParameters
          = (xsize, ysize, zsize, values)) := by
      rcases discrete3D_set_cases self xsize ysize zsize values with ⟨h, e⟩ | ⟨h, e⟩
      · rw [e]
        exact ⟨⟨fun _ => h, fun _ => rfl⟩, fun h2 => absurd h2 h⟩
      · rw [e]
        refine ⟨⟨fun h2 => ?_, fun h2 => absurd h h2⟩, fun _ => ⟨rfl, rfl⟩⟩
        simp [failure] at h2
    refine ⟨key.1, key.2, ?_⟩
    intro hp hq hlen
    have hiff := size_ne_toSizeT_iff_of_lt values (xsize * ysize * zsize) hq hlen
    have hm : mulInt (mulInt xsize ysize) zsize = wrapInt (xsize * ysize * zsize) := by
      unfold mulInt
      rw [wrapInt_of_isInt (xsize * ysize) hp]
    rw [hm] at key
    refine ⟨key.1.trans hiff, fun heq => key.2 ?_⟩
    by_contra hne
    exact (hiff.mp hne) heq
  · intro raw xsize ysize zsize values
    have key : (failure (Discrete3DFunction.construct raw xsize ysize zsize values)
          = some .SizeMismatch ↔
        size values ≠ toSizeT (mulInt (mulInt xsize ysize) zsize)) ∧
      (size values = toSizeT (mulInt (mulInt xsize ysize) zsize) →
        ∃ self, Discrete3DFunction.construct raw xsize ysize zsize values = .ok self ∧
          self.getFunctionParameters = (xsize, ysize, zsize, values)) := by
      rcases discrete3D_construct_cases raw xsize ysize zsize values with ⟨h, e⟩ | ⟨h, e⟩
      · rw [e]
        exact ⟨⟨fun _ => h, fun _ => rfl⟩, fun h2 => absurd h2 h⟩
      · rw [e]
        refine ⟨⟨fun h2 => ?_, fun h2 => absurd h h2⟩, fun _ => ⟨_, rfl, rfl⟩⟩
        simp [failure] at h2
    refine ⟨key.1, key.2, ?_⟩
    intro hp hq hlen
    have hiff := size_ne_toSizeT_iff_of_lt values (xsize * ysize * zsize) hq hlen
    have hm : mulInt (mulInt xsize ysize) zsize = wrapInt (xsize * ysize * zsize) := by
      unfold mulInt
      rw [wrapInt_of_isInt (xsize * ysize) hp]
    rw [hm] at key
    refine ⟨key.1.trans hiff, fun heq => key.2 ?_⟩
    by_contra hne
    exact (hiff.mp hne) heq

/-- Two instances of C6: `Discrete2DFunction(2, 3, [0,1,2,3,4,5])` succeeds and
stores its arguments, and replacing the parameters of a `Discrete3DFunction`
by `(2, 2, 2, [1,2,3])` fails with SizeMismatch. -/
theorem C6_discrete2D3D_size_mismatch_witness :
    (IsInt (2 * 3) ∧
      [Double.zero, Double.one, Double.two, Double.three, Double.four,
        Double.five].length < 9223372036854775808 ∧
      (([Double.zero, Double.one, Double.two, Double.three, Double.four,
        Double.five].length : Int) = 2 * 3) ∧
      ∃ self, Discrete2DFunction.construct rawD2 2 3
          [Double.zero, Double.one, Double.two, Double.three, Double.four, Double.five]
          = .ok self ∧
        self.getFunctionParameters =
          (2, 3, [Double.zero, Double.one, Double.two, Double.three, Double.four,
            Double.five])) ∧
    (IsInt (2 * 2) ∧ IsInt (2 * 2 * 2) ∧
      [Double.one, Double.two, Double.three].length < 9223372036854775808 ∧
      (([Double.one, Double.two, Double.three].length : Int) ≠ 2 * 2 * 2) ∧
      failure (Discrete3DFunction.setFunctionParameters rawD3 2 2 2
        [Double.one, Double.two, Double.three]).1 = some .SizeMismatch) :=
  ⟨⟨by decide, by decide, by decide,
    ((C6_discrete2D3D_size_mismatch.2.1 rawD2 2 3
      [Double.zero, Double.one, Double.two, Double.three, Double.four, Double.five]).2.2
      (by decide) (by decide)).2 (by decide)⟩,
   ⟨by decide, by decide, by decide, by decide,
    ((C6_discrete2D3D_size_mismatch.2.2.1 rawD3 2 2 2
      [Double.one, Double.two, Double.three]).2.2
      (by decide) (by decide) (by decide)).1.mpr (by decide)⟩⟩

/-- Claim C6 as stated fails on the code when the product of the sizes is not
representable as an `int`: `Discrete2DFunction(65536, 65536, {})` is
constructed, and `setFunctionParameters(65536, 65536, {})` returns normally,
with no values although `65536 * 65536` is not 0; the `int` product of the
code is 0. -/
theorem C6_discrete2D3D_size_mismatch_counterexample :
    IsInt 65536 ∧
    (([] : List Double).length : Int) ≠ 65536 * 65536 ∧
    mulInt 65536 65536 = 0 ∧
    Discrete2DFunction.construct rawD2 65536 65536 []
      = .ok { periodic := false, updateCount := 0, xsize := 65536, ysize := 65536,
              values := [] } ∧
    (rawD2.setFunctionParameters 65536 65536 []).1 = .ok () ∧
    (rawD2.setFunctionParameters 65536 65536 []).2.getFunctionParameters
      = (65536, 65536, []) :=
  ⟨by decide, by decide, by decide, rfl, rfl, rfl⟩

/-! ## Equality -/

/-- Claim C7: two tabulated functions of different concrete classes are never
equal, in either order, whatever they store. -/
theorem C7_different_variants_unequal (x y : AnyFunction) (h : x.variant ≠ y.variant) :
    x.opEq y = false ∧ y.opEq x = false := by
  cases x <;> cases y <;> first
    | exact absurd rfl h
    | exact ⟨rfl, rfl⟩

/-- A `Continuous1DFunction` and a `Discrete1DFunction` holding the same
values `[1,2,3]` are unequal, and so are a `Discrete2DFunction` and a
`Discrete3DFunction` with no values. -/
theorem C7_different_variants_unequal_witness :
    (AnyFunction.variant (.continuous1D
        { periodic := false, updateCount := 1,
          values := [Double.one, Double.two, Double.three],
          min := Double.zero, max := Double.one })
      ≠ AnyFunction.variant (.discrete1D
        { periodic := false, updateCount := 0,
          values := [Double.one, Double.two, Double.three] })) ∧
    (AnyFunction.opEq
        (.continuous1D
          { periodic := false, updateCount := 1,
            values := [Double.one, Double.two, Double.three],
            min := Double.zero, max := Double.one })
        (.discrete1D
          { periodic := false, updateCount := 0,
            values := [Double.one, Double.two, Double.three] }) = false ∧
     AnyFunction.opEq
        (.discrete1D
          { periodic := false, updateCount := 0,
            values := [Double.one, Double.two, Double.three] })
        (.continuous1D
          { periodic := false, updateCount := 1,
            values := [Double.one, Double.two, Double.three],
            min := Double.zero, max := Double.one }) = false) :=
  ⟨by decide, C7_different_variants_unequal _ _ (by decide)⟩

theorem double_eq_iff (a b : Double) :
    Double.eq a b = true ↔ a.isNaN = false ∧ b.isNaN = false ∧ a.key = b.key := by
  unfold Double.eq
  cases a.isNaN <;> cases b.isNaN <;> simp

theorem double_ne_eq_false_iff (a b : Double) :
    Double.ne a b = false ↔ a.isNaN = false ∧ b.isNaN = false ∧ a.key = b.key := by
  unfold Double.ne
  rw [← double_eq_iff]
  cases Double.eq a b <;> simp

theorem vectorEq_iff : ∀ v w : List Double,
    vectorEq v w = true ↔
      v.any Double.isNaN = false ∧ w.any Double.isNaN = false ∧
      v.map Double.key = w.map Double.key
  | [], [] => by simp [vectorEq]
  | [], _ :: _ => by simp [vectorEq]
  | _ :: _, [] => by simp [vectorEq]
  | a :: as, b :: bs => by
      simp only [vectorEq, Bool.and_eq_true, double_eq_iff, vectorEq_iff as bs,
        List.any_cons, Bool.or_eq_false_iff, List.map_cons, List.cons.injEq]
      tauto

theorem opEq_iff (x y : AnyFunction) (h : x.variant = y.variant) :
    x.opEq y = true ↔
      x.hasNaN = false ∧ y.hasNaN = false ∧ x.sizes = y.sizes ∧
      x.bounds.map Double.key = y.bounds.map Double.key ∧
      x.values.map Double.key = y.values.map Double.key := by
  cases x <;> cases y <;> first
    | (simp [AnyFunction.variant] at h; done)
    | (simp only [AnyFunction.opEq, Continuous1DFunction.opEq, Continuous2DFunction.opEq,
        Continuous3DFunction.opEq, Discrete1DFunction.opEq, Discrete2DFunction.opEq,
        Discrete3DFunction.opEq, AnyFunction.asContinuous1D, AnyFunction.asContinuous2D,
        AnyFunction.asContinuous3D, AnyFunction.asDiscrete1D, AnyFunction.asDiscrete2D,
        AnyFunction.asDiscrete3D, AnyFunction.hasNaN, AnyFunction.sizes,
        AnyFunction.bounds, AnyFunction.values, Bool.if_false_left, Bool.and_eq_true,
        Bool.not_eq_true', Bool.or_eq_false_iff, double_ne_eq_false_iff, vectorEq_iff,
        bne_eq_false_iff_eq, List.any_append, List.any_cons, List.any_nil, Bool.or_false,
        List.map_cons, List.map_nil, List.cons.injEq, List.nil_append, and_true, true_and,
        Bool.false_or, decide_eq_false_iff_not, Bool.or_eq_true, not_or, Bool.not_eq_true]
       constructor
       · intro hh
         simp_all
       · intro hh
         simp_all)

theorem opEq_of_variant_ne (x y : AnyFunction) (h : x.variant ≠ y.variant) :
    x.opEq y = false := by
  cases x <;> cases y <;> first
    | exact absurd rfl h
    | rfl

theorem hasNaN_congr (x y : AnyFunction) (hb : x.bounds = y.bounds)
    (hv : x.values = y.values) : x.hasNaN = y.hasNaN := by
  unfold AnyFunction.hasNaN
  rw [hb, hv]

theorem continuous3D_construct_fields (raw : Continuous3DFunction) (xsize ysize zsize : Int)
    (values : List Double) (xmin xmax ymin ymax zmin zmax : Double) (periodic : Bool)
    (self : Continuous3DFunction)
    (h : Continuous3DFunction.construct raw xsize ysize zsize values
      xmin xmax ymin ymax zmin zmax periodic = .ok self) :
    (AnyFunction.continuous3D self).sizes = [xsize, ysize, zsize] ∧
    (AnyFunction.continuous3D self).bounds = [xmin, xmax, ymin, ymax, zmin, zmax] ∧
    (AnyFunction.continuous3D self).values = values := by
  have h1 := continuous3D_construct_eq raw xsize ysize zsize values
    xmin xmax ymin ymax zmin zmax periodic self h
  have h2 := continuous3D_set_ok _ xsize ysize zsize values
    xmin xmax ymin ymax zmin zmax (by rw [h1])
  rw [h1] at h2
  simp only at h2
  rw [h2]
  exact ⟨rfl, rfl, rfl⟩

/-- Claim C8, as amended. For two objects `x` and `y` of the same concrete
class, `x == y` holds if and only if no bound or sample value of either is NaN
and all their data fields (axis sizes, bounds, sample values element by
element) are equal as numbers, `0.0` and `-0.0` being the same number; in
particular it holds when `x` stores no NaN and the data fields of `y` are
exactly those of `x`. The result depends only on the data fields, not on
`updateCount` (nor on `periodic`). Two `Continuous3DFunction` objects
constructed from identical sizes, values and bounds, none of them NaN,
compare equal, and two constructed from the same sizes and values but with
some bound of the one `!=` the corresponding bound of the other compare
unequal. -/
theorem C8_same_variant_equality :
    (∀ x y : AnyFunction, x.variant = y.variant →
      (x.opEq y = true ↔
        x.hasNaN = false ∧ y.hasNaN = false ∧ x.sizes = y.sizes ∧
        x.bounds.map Double.key = y.bounds.map Double.key ∧
        x.values.map Double.key = y.values.map Double.key)) ∧
    (∀ x y : AnyFunction, x.variant = y.variant → x.sizes = y.sizes →
      x.bounds = y.bounds → x.values = y.values → x.hasNaN = false →
      x.opEq y = true) ∧
    (∀ x x' y y' : AnyFunction,
      x.variant = x'.variant → x.sizes = x'.sizes → x.bounds = x'.bounds →
      x.values = x'.values →
      y.variant = y'.variant → y.sizes = y'.sizes → y.bounds = y'.bounds →
      y.values = y'.values →
      x.opEq y = x'.opEq y') ∧
    (∀ (raw raw' : Continuous3DFunction) (periodic periodic' : Bool)
        (xsize ysize zsize : Int) (values : List Double)
        (xmin xmax ymin ymax zmin zmax : Double) (a b : Continuous3DFunction),
      Continuous3DFunction.construct raw xsize ysize zsize values
        xmin xmax ymin ymax zmin zmax periodic = .ok a →
      Continuous3DFunction.construct raw' xsize ysize zsize values
        xmin xmax ymin ymax zmin zmax periodic' = .ok b →
      ([xmin, xmax, ymin, ymax, zmin, zmax] ++ values).any Double.isNaN = false →
      (AnyFunction.continuous3D a).opEq (.continuous3D b) = true) ∧
    (∀ (raw raw' : Continuous3DFunction) (periodic periodic' : Bool)
        (xsize ysize zsize : Int) (values : List Double)
        (xmin xmax ymin ymax zmin zmax xmin' xmax' ymin' ymax' zmin' zmax' : Double)
        (a b : Continuous3DFunction),
      Continuous3DFunction.construct raw xsize ysize zsize values
        xmin xmax ymin ymax zmin zmax periodic = .ok a →
      Continuous3DFunction.construct raw' xsize ysize zsize values
        xmin' xmax' ymin' ymax' zmin' zmax' periodic' = .ok b →
      (Double.ne xmin xmin' = true ∨ Double.ne xmax xmax' = true ∨
        Double.ne ymin ymin' = true ∨ Double.ne ymax ymax' = true ∨
        Double.ne zmin zmin' = true ∨ Double.ne zmax zmax' = true) →
      (AnyFunction.continuous3D a).opEq (.continuous3D b) = false) := by
  refine ⟨opEq_iff, ?_, ?_, ?_, ?_⟩
  · intro x y hv hs hb hvals hn
    rw [opEq_iff x y hv]
    refine ⟨hn, ?_, hs, by rw [hb], by rw [hvals]⟩
    rw [← hasNaN_congr x y hb hvals]
    exact hn
  · intro x x' y y' hxv hxs hxb hxvals hyv hys hyb hyvals
    by_cases hv : x.variant = y.variant
    · have hv' : x'.variant = y'.variant := by rw [← hxv, ← hyv]; exact hv
      rw [Bool.eq_iff_iff, opEq_iff x y hv, opEq_iff x' y' hv',
        hasNaN_congr x x' hxb hxvals, hasNaN_congr y y' hyb hyvals,
        hxs, hxb, hxvals, hys, hyb, hyvals]
    · have hv' : x'.variant ≠ y'.variant := by rw [← hxv, ← hyv]; exact hv
      rw [opEq_of_variant_ne x y hv, opEq_of_variant_ne x' y' hv']
  · intro raw raw' periodic periodic' xsize ysize zsize values
      xmin xmax ymin ymax zmin zmax a b ha hb hn
    obtain ⟨as, ab, av⟩ := continuous3D_construct_fields _ _ _ _ _ _ _ _ _ _ _ _ _ ha
    obtain ⟨bs, bb, bv⟩ := continuous3D_construct_fields _ _ _ _ _ _ _ _ _ _ _ _ _ hb
    rw [opEq_iff (.continuous3D a) (.continuous3D b) rfl]
    unfold AnyFunction.hasNaN
    rw [as, ab, av, bs, bb, bv]
    exact ⟨hn, hn, rfl, rfl, rfl⟩
  · intro raw raw' periodic periodic' xsize ysize zsize values
      xmin xmax ymin ymax zmin zmax xmin' xmax' ymin' ymax' zmin' zmax' a b ha hb hne
    obtain ⟨as, ab, av⟩ := continuous3D_construct_fields _ _ _ _ _ _ _ _ _ _ _ _ _ ha
    obtain ⟨bs, bb, bv⟩ := continuous3D_construct_fields _ _ _ _ _ _ _ _ _ _ _ _ _ hb
    rw [← Bool.not_eq_true, opEq_iff (.continuous3D a) (.continuous3D b) rfl]
    unfold AnyFunction.hasNaN
    rw [as, ab, av, bs, bb, bv]
    intro hh
    obtain ⟨h1, h2, -, h4, -⟩ := hh
    simp only [List.any_append, List.any_cons, List.any_nil, Bool.or_false,
      Bool.or_eq_false_iff] at h1 h2
    simp only [List.map_cons, List.map_nil, List.cons.injEq, and_true] at h4
    have e1 := (double_ne_eq_false_iff xmin xmin').mpr ⟨h1.1.1, h2.1.1, h4.1⟩
    have e2 := (double_ne_eq_false_iff xmax xmax').mpr ⟨h1.1.2.1, h2.1.2.1, h4.2.1⟩
    have e3 := (double_ne_eq_false_iff ymin ymin').mpr ⟨h1.1.2.2.1, h2.1.2.2.1, h4.2.2.1⟩
    have e4 := (double_ne_eq_false_iff ymax ymax').mpr
      ⟨h1.1.2.2.2.1, h2.1.2.2.2.1, h4.2.2.2.1⟩
    have e5 := (double_ne_eq_false_iff zmin zmin').mpr
      ⟨h1.1.2.2.2.2.1, h2.1.2.2.2.2.1, h4.2.2.2.2.1⟩
    have e6 := (double_ne_eq_false_iff zmax zmax').mpr
      ⟨h1.1.2.2.2.2.2, h2.1.2.2.2.2.2, h4.2.2.2.2.2⟩
    rw [e1, e2, e3, e4, e5, e6] at hne
    simp at hne

/-- Scenario 6 of the specification, from C8: two `Continuous3DFunction`
objects constructed from `(2, 2, 2, [1,2,3,4,5,6,1,2], 0, 1, 0, 1, 0, 1)`, one
periodic and one not, compare equal; with `zmax` changed to `2.0` in the
second they compare unequal. -/
theorem C8_same_variant_equality_witness :
    (Continuous3DFunction.construct raw3D 2 2 2
        [Double.one, Double.two, Double.three, Double.four, Double.five, Double.six,
          Double.one, Double.two]
        Double.zero Double.one Double.zero Double.one Double.zero Double.one false
      = .ok { periodic := false, updateCount := 1,
              values := [Double.one, Double.two, Double.three, Double.four, Double.five,
                Double.six, Double.one, Double.two],
              xsize := 2, ysize := 2, zsize := 2,
              xmin := Double.zero, xmax := Double.one, ymin := Double.zero,
              ymax := Double.one, zmin := Double.zero, zmax := Double.one }) ∧
    (Continuous3DFunction.construct raw3D 2 2 2
        [Double.one, Double.two, Double.three, Double.four, Double.five, Double.six,
          Double.one, Double.two]
        Double.zero Double.one Double.zero Double.one Double.zero Double.two false
      = .ok { periodic := false, updateCount := 1,
              values := [Double.one, Double.two, Double.three, Double.four, Double.five,
                Double.six, Double.one, Double.two],
              xsize := 2, ysize := 2, zsize := 2,
              xmin := Double.zero, xmax := Double.one, ymin := Double.zero,
              ymax := Double.one, zmin := Double.zero, zmax := Double.two }) ∧
    Double.ne Double.one Double.two = true ∧
    AnyFunction.opEq
      (.continuous3D
        { periodic := false, updateCount := 1,
          values := [Double.one, Double.two, Double.three, Double.four, Double.five,
            Double.six, Double.one, Double.two],
          xsize := 2, ysize := 2, zsize := 2,
          xmin := Double.zero, xmax := Double.one, ymin := Double.zero,
          ymax := Double.one, zmin := Double.zero, zmax := Double.one })
      (.continuous3D
        { periodic := false, updateCount := 1,
          values := [Double.one, Double.two, Double.three, Double.four, Double.five,
            Double.six, Double.one, Double.two],
          xsize := 2, ysize := 2, zsize := 2,
          xmin := Double.zero, xmax := Double.one, ymin := Double.zero,
          ymax := Double.one, zmin := Double.zero, zmax := Double.two }) = false :=
  ⟨rfl, rfl, rfl,
   C8_same_variant_equality.2.2.2.2 raw3D raw3D false false 2 2 2
     [Double.one, Double.two, Double.three, Double.four, Double.five, Double.six,
       Double.one, Double.two]
     Double.zero Double.one Double.zero Double.one Double.zero Double.one
     Double.zero Double.one Double.zero Double.one Double.zero Double.two
     _ _ rfl rfl (Or.inr (Or.inr (Or.inr (Or.inr (Or.inr rfl)))))⟩

/-- Claim C8 as stated fails on the code at two inputs.
A `Continuous3DFunction` constructed from
`(2, 2, 2, [NaN,2,3,4,5,6,1,2], 0, 1, 0, 1, 0, 1)` is not equal to an object
with exactly the same data fields (itself): NaN is unequal to NaN.
Two `Continuous3DFunction` objects constructed from
`(2, 2, 2, [1,2,3,4,5,6,1,2], xmin, 1, 0, 1, 0, 1)` with `xmin = 0.0` for the
one and `xmin = -0.0` for the other compare equal although the bound `xmin`
was changed and the data fields are not exactly equal. -/
theorem C8_same_variant_equality_counterexample :
    (Continuous3DFunction.construct raw3D 2 2 2
        [Double.nan, Double.two, Double.three, Double.four, Double.five, Double.six,
          Double.one, Double.two]
        Double.zero Double.one Double.zero Double.one Double.zero Double.one false
      = .ok { periodic := false, updateCount := 1,
              values := [Double.nan, Double.two, Double.three, Double.four, Double.five,
                Double.six, Double.one, Double.two],
              xsize := 2, ysize := 2, zsize := 2,
              xmin := Double.zero, xmax := Double.one, ymin := Double.zero,
              ymax := Double.one, zmin := Double.zero, zmax := Double.one } ∧
      AnyFunction.opEq
        (.continuous3D
          { periodic := false, updateCount := 1,
            values := [Double.nan, Double.two, Double.three, Double.four, Double.five,
              Double.six, Double.one, Double.two],
            xsize := 2, ysize := 2, zsize := 2,
            xmin := Double.zero, xmax := Double.one, ymin := Double.zero,
            ymax := Double.one, zmin := Double.zero, zmax := Double.one })
        (.continuous3D
          { periodic := false, updateCount := 1,
            values := [Double.nan, Double.two, Double.three, Double.four, Double.five,
              Double.six, Double.one, Double.two],
            xsize := 2, ysize := 2, zsize := 2,
            xmin := Double.zero, xmax := Double.one, ymin := Double.zero,
            ymax := Double.one, zmin := Double.zero, zmax := Double.one }) = false) ∧
    (Continuous3DFunction.construct raw3D 2 2 2
        [Double.one, Double.two, Double.three, Double.four, Double.five, Double.six,
          Double.one, Double.two]
        Double.zero Double.one Double.zero Double.one Double.zero Double.one false
      = .ok { periodic := false, updateCount := 1,
              values := [Double.one, Double.two, Double.three, Double.four, Double.five,
                Double.six, Double.one, Double.two],
              xsize := 2, ysize := 2, zsize := 2,
              xmin := Double.zero, xmax := Double.one, ymin := Double.zero,
              ymax := Double.one, zmin := Double.zero, zmax := Double.one } ∧
      Continuous3DFunction.construct raw3D 2 2 2
        [Double.one, Double.two, Double.three, Double.four, Double.five, Double.six,
          Double.one, Double.two]
        Double.negZero Double.one Double.zero Double.one Double.zero Double.one false
      = .ok { periodic := false, updateCount := 1,
              values := [Double.one, Double.two, Double.three, Double.four, Double.five,
                Double.six, Double.one, Double.two],
              xsize := 2, ysize := 2, zsize := 2,
              xmin := Double.negZero, xmax := Double.one, ymin := Double.zero,
              ymax := Double.one, zmin := Double.zero, zmax := Double.one } ∧
      Double.zero ≠ Double.negZero ∧
      AnyFunction.opEq
        (.continuous3D
          { periodic := false, updateCount := 1,
            values := [Double.one, Double.two, Double.three, Double.four, Double.five,
              Double.six, Double.one, Double.two],
            xsize := 2, ysize := 2, zsize := 2,
            xmin := Double.zero, xmax := Double.one, ymin := Double.zero,
            ymax := Double.one, zmin := Double.zero, zmax := Double.one })
        (.continuous3D
          { periodic := false, updateCount := 1,
            values := [Double.one, Double.two, Double.three, Double.four, Double.five,
              Double.six, Double.one, Double.two],
            xsize := 2, ysize := 2, zsize := 2,
            xmin := Double.negZero, xmax := Double.one, ymin := Double.zero,
            ymax := Double.one, zmin := Double.zero, zmax := Double.one }) = true) :=
  ⟨⟨rfl, rfl⟩, rfl, rfl, by decide, rfl⟩

theorem opEq_eq_not_hasNaN (x y : AnyFunction) (hv : x.variant = y.variant)
    (hs : x.sizes = y.sizes) (hb : x.bounds = y.bounds) (hvals : x.values = y.values) :
    x.opEq y = !x.hasNaN := by
  have h := opEq_iff x y hv
  rw [← hasNaN_congr x y hb hvals, hs, hb, hvals] at h
  cases hn : x.hasNaN
  · rw [hn] at h
    simpa using h
  · rw [hn] at h
    simpa using h

/-- Claim C9, as amended: for every object `x` of every class, reachable or
not, `x == x` is true if and only if no bound and no sample value stored in
`x` is NaN. Equality is reflexive on the objects that store no NaN. -/
theorem C9_equality_reflexive_iff_no_NaN (x : AnyFunction) :
    x.opEq x = true ↔ x.hasNaN = false := by
  rw [opEq_eq_not_hasNaN x x rfl rfl rfl rfl]
  cases x.hasNaN <;> simp

/-- Claim C9 as stated fails on the code: `Continuous1DFunction([NaN, 1.0],
0.0, 1.0, false)` is constructed successfully, so the object is reachable,
and it is not equal to itself. -/
theorem C9_equality_reflexive_counterexample :
    Continuous1DFunction.construct raw1D [Double.nan, Double.one]
        Double.zero Double.one false
      = .ok { periodic := false, updateCount := 1, values := [Double.nan, Double.one],
              min := Double.zero, max := Double.one } ∧
    AnyFunction.Reachable (.continuous1D
      { periodic := false, updateCount := 1, values := [Double.nan, Double.one],
        min := Double.zero, max := Double.one }) ∧
    AnyFunction.opEq
      (.continuous1D
        { periodic := false, updateCount := 1, values := [Double.nan, Double.one],
          min := Double.zero, max := Double.one })
      (.continuous1D
        { periodic := false, updateCount := 1, values := [Double.nan, Double.one],
          min := Double.zero, max := Double.one }) = false :=
  ⟨rfl,
   Continuous1DFunction.Reachable.construct raw1D [Double.nan, Double.one]
     Double.zero Double.one false _ rfl,
   rfl⟩

/-! ## Reachable objects pass the validation -/

theorem except_unit_cases (r : Except OpenMMException Unit) :
    r = .ok () ∨ ∃ e, r = .error e := by
  cases r with
  | ok u => left; cases u; rfl
  | error e => right; exact ⟨e, rfl⟩

theorem failure_eq_none_iff (r : Except OpenMMException Unit) :
    failure r = none ↔ r = .ok () := by
  cases r with
  | ok u => cases u; simp [failure]
  | error e => simp [failure]

/-- The validation `Continuous1DFunction::setFunctionParameters` performs,
on the stored members. -/
theorem continuous1D_set_valid (self : Continuous1DFunction) (values : List Double)
    (min max : Double) (h : (self.setFunctionParameters values min max).1 = .ok ()) :
    Double.le max min = false ∧
    (if self.periodic then 3 ≤ sizeToInt (size values)
     else 2 ≤ sizeToInt (size values)) := by
  have h1 := continuous1D_set_failure self values min max
  rw [(failure_eq_none_iff _).mpr h] at h1
  by_cases hle : Double.le max min = true
  · simp [hle] at h1
  · simp only [hle, if_false] at h1
    refine ⟨by simpa using hle, ?_⟩
    cases hp : self.periodic
    · rw [hp] at h1
      simp only [Bool.false_eq_true, if_false] at h1 ⊢
      by_cases hn : sizeToInt (size values) < 2
      · simp [hn] at h1
      · omega
    · rw [hp] at h1
      simp only [if_true] at h1 ⊢
      by_cases hn : sizeToInt (size values) < 3
      · simp [hn] at h1
      · omega

theorem continuous1D_reachable_valid (x : Continuous1DFunction) (h : x.Reachable) :
    Double.le x.max x.min = false ∧
    (if x.periodic then 3 ≤ sizeToInt (size x.values)
     else 2 ≤ sizeToInt (size x.values)) := by
  induction h with
  | construct raw values min max periodic self h =>
    have h1 := continuous1D_construct_eq raw values min max periodic self h
    have hok : (({ raw with periodic := periodic } :
        Continuous1DFunction).setFunctionParameters values min max).1 = .ok () := by
      rw [h1]
    have h2 := continuous1D_set_ok _ values min max hok
    have h3 := continuous1D_set_valid _ values min max hok
    rw [h1] at h2
    simp only at h2
    rw [h2]
    exact h3
  | set self values min max _ ih =>
    rcases except_unit_cases (self.setFunctionParameters values min max).1 with hok | ⟨e, he⟩
    · have h2 := continuous1D_set_ok self values min max hok
      have h3 := continuous1D_set_valid self values min max hok
      rw [h2]
      exact h3
    · rw [continuous1D_set_error self values min max e he]
      exact ih

theorem continuous2D_set_valid (self : Continuous2DFunction) (xsize ysize : Int)
    (values : List Double) (xmin xmax ymin ymax : Double)
    (h : (self.setFunctionParameters xsize ysize values xmin xmax ymin ymax).1 = .ok ()) :
    (if self.periodic then 3 ≤ xsize ∧ 3 ≤ ysize else 2 ≤ xsize ∧ 2 ≤ ysize) ∧
    size values = toSizeT (mulInt xsize ysize) ∧
    Double.le xmax xmin = false ∧ Double.le ymax ymin = false := by
  have h1 := continuous2D_set_failure self xsize ysize values xmin xmax ymin ymax
  rw [(failure_eq_none_iff _).mpr h] at h1
  by_cases ha : (if self.periodic then 3 ≤ xsize ∧ 3 ≤ ysize else 2 ≤ xsize ∧ 2 ≤ ysize)
  · rw [if_neg (not_not.mpr ha)] at h1
    by_cases hb : size values = toSizeT (mulInt xsize ysize)
    · rw [if_neg (not_not.mpr hb)] at h1
      by_cases hc : Double.le xmax xmin = true ∨ Double.le ymax ymin = true
      · rw [if_pos hc] at h1
        cases h1
      · rw [not_or] at hc
        exact ⟨ha, hb, by simpa using hc.1, by simpa using hc.2⟩
    · rw [if_pos hb] at h1
      cases h1
  · rw [if_pos ha] at h1
    cases h1

theorem continuous3D_set_valid (self : Continuous3DFunction) (xsize ysize zsize : Int)
    (values : List Double) (xmin xmax ymin ymax zmin zmax : Double)
    (h : (self.setFunctionParameters xsize ysize zsize values
      xmin xmax ymin ymax zmin zmax).1 = .ok ()) :
    (if self.periodic then 3 ≤ xsize ∧ 3 ≤ ysize ∧ 3 ≤ zsize
      else 2 ≤ xsize ∧ 2 ≤ ysize ∧ 2 ≤ zsize) ∧
    size values = toSizeT (mulInt (mulInt xsize ysize) zsize) ∧
    Double.le xmax xmin = false ∧ Double.le ymax ymin = false ∧
    Double.le zmax zmin = false := by
  have h1 := continuous3D_set_failure self xsize ysize zsize values
    xmin xmax ymin ymax zmin zmax
  rw [(failure_eq_none_iff _).mpr h] at h1
  by_cases ha : (if self.periodic then 3 ≤ xsize ∧ 3 ≤ ysize ∧ 3 ≤ zsize
      else 2 ≤ xsize ∧ 2 ≤ ysize ∧ 2 ≤ zsize)
  · rw [if_neg (not_not.mpr ha)] at h1
    by_cases hb : size values = toSizeT (mulInt (mulInt xsize ysize) zsize)
    · rw [if_neg (not_not.mpr hb)] at h1
      by_cases hc : Double.le xmax xmin = true ∨ Double.le ymax ymin = true ∨
          Double.le zmax zmin = true
      · rw [if_pos hc] at h1
        cases h1
      · rw [not_or, not_or] at hc
        exact ⟨ha, hb, by simpa using hc.1, by simpa using hc.2.1, by simpa using hc.2.2⟩
    · rw [if_pos hb] at h1
      cases h1
  · rw [if_pos ha] at h1
    cases h1

theorem continuous2D_reachable_valid (x : Continuous2DFunction) (h : x.Reachable) :
    (if x.periodic then 3 ≤ x.xsize ∧ 3 ≤ x.ysize else 2 ≤ x.xsize ∧ 2 ≤ x.ysize) ∧
    size x.values = toSizeT (mulInt x.xsize x.ysize) ∧
    Double.le x.xmax x.xmin = false ∧ Double.le x.ymax x.ymin = false := by
  induction h with
  | construct raw xsize ysize values xmin xmax ymin ymax periodic self h =>
    have h1 := continuous2D_construct_eq raw xsize ysize values
      xmin xmax ymin ymax periodic self h
    have hok : (({ raw with periodic := periodic } :
        Continuous2DFunction).setFunctionParameters xsize ysize values
          xmin xmax ymin ymax).1 = .ok () := by
      rw [h1]
    have h2 := continuous2D_set_ok _ xsize ysize values xmin xmax ymin ymax hok
    have h3 := continuous2D_set_valid _ xsize ysize values xmin xmax ymin ymax hok
    rw [h1] at h2
    simp only at h2
    rw [h2]
    exact h3
  | set self xsize ysize values xmin xmax ymin ymax _ ih =>
    rcases except_unit_cases
      (self.setFunctionParameters xsize ysize values xmin xmax ymin ymax).1
      with hok | ⟨e, he⟩
    · have h2 := continuous2D_set_ok self xsize ysize values xmin xmax ymin ymax hok
      have h3 := continuous2D_set_valid self xsize ysize values xmin xmax ymin ymax hok
      rw [h2]
      exact h3
    · rw [continuous2D_set_error self xsize ysize values xmin xmax ymin ymax e he]
      exact ih

theorem continuous3D_reachable_valid (x : Continuous3DFunction) (h : x.Reachable) :
    (if x.periodic then 3 ≤ x.xsize ∧ 3 ≤ x.ysize ∧ 3 ≤ x.zsize
      else 2 ≤ x.xsize ∧ 2 ≤ x.ysize ∧ 2 ≤ x.zsize) ∧
    size x.values = toSizeT (mulInt (mulInt x.xsize x.ysize) x.zsize) ∧
    Double.le x.xmax x.xmin = false ∧ Double.le x.ymax x.ymin = false ∧
    Double.le x.zmax x.zmin = false := by
  induction h with
  | construct raw xsize ysize zsize values xmin xmax ymin ymax zmin zmax periodic self h =>
    have h1 := continuous3D_construct_eq raw xsize ysize zsize values
      xmin xmax ymin ymax zmin zmax periodic self h
    have hok : (({ raw with periodic := periodic } :
        Continuous3DFunction).setFunctionParameters xsize ysize zsize values
          xmin xmax ymin ymax zmin zmax).1 = .ok () := by
      rw [h1]
    have h2 := continuous3D_set_ok _ xsize ysize zsize values
      xmin xmax ymin ymax zmin zmax hok
    have h3 := continuous3D_set_valid _ xsize ysize zsize values
      xmin xmax ymin ymax zmin zmax hok
    rw [h1] at h2
    simp only at h2
    rw [h2]
    exact h3
  | set self xsize ysize zsize values xmin xmax ymin ymax zmin zmax _ ih =>
    rcases except_unit_cases
      (self.setFunctionParameters xsize ysize zsize values
        xmin xmax ymin ymax zmin zmax).1
      with hok | ⟨e, he⟩
    · have h2 := continuous3D_set_ok self xsize ysize zsize values
        xmin xmax ymin ymax zmin zmax hok
      have h3 := continuous3D_set_valid self xsize ysize zsize values
        xmin xmax ymin ymax zmin zmax hok
      rw [h2]
      exact h3
    · rw [continuous3D_set_error self xsize ysize zsize values
        xmin xmax ymin ymax zmin zmax e he]
      exact ih

theorem discrete2D_reachable_valid (x : Discrete2DFunction) (h : x.Reachable) :
    size x.values = toSizeT (mulInt x.xsize x.ysize) := by
  induction h with
  | construct raw xsize ysize values self h =>
    rcases discrete2D_construct_cases raw xsize ysize values with ⟨_, e⟩ | ⟨hs, e⟩
    · rw [e] at h
      cases h
    · rw [e] at h
      cases h
      exact hs
  | set self xsize ysize values _ ih =>
    rcases discrete2D_set_cases self xsize ysize values with ⟨_, e⟩ | ⟨hs, e⟩
    · rw [e]
      exact ih
    · rw [e]
      exact hs

theorem discrete3D_reachable_valid (x : Discrete3DFunction) (h : x.Reachable) :
    size x.values = toSizeT (mulInt (mulInt x.xsize x.ysize) x.zsize) := by
  induction h with
  | construct raw xsize ysize zsize values self h =>
    rcases discrete3D_construct_cases raw xsize ysize zsize values with ⟨_, e⟩ | ⟨hs, e⟩
    · rw [e] at h
      cases h
    · rw [e] at h
      cases h
      exact hs
  | set self xsize ysize zsize values _ ih =>
    rcases discrete3D_set_cases self xsize ysize zsize values with ⟨_, e⟩ | ⟨hs, e⟩
    · rw [e]
      exact ih
    · rw [e]
      exact hs

/-! ## Copy -/

theorem continuous1D_construct_ok (raw : Continuous1DFunction) (values : List Double)
    (min max : Double) (periodic : Bool)
    (hle : Double.le max min = false)
    (hn : if periodic then 3 ≤ sizeToInt (size values) else 2 ≤ sizeToInt (size values)) :
    Continuous1DFunction.construct raw values min max periodic =
      .ok { periodic := periodic, updateCount := wrapInt (raw.updateCount + 1),
            values := values, min := min, max := max } := by
  unfold Continuous1DFunction.construct Continuous1DFunction.setFunctionParameters
  cases periodic
  · simp only [Bool.false_eq_true, if_false] at hn
    simp [hle, not_lt.mpr hn]
  · simp only [if_true] at hn
    simp [hle, not_lt.mpr hn]

theorem continuous2D_construct_ok (raw : Continuous2DFunction) (xsize ysize : Int)
    (values : List Double) (xmin xmax ymin ymax : Double) (periodic : Bool)
    (ha : if periodic then 3 ≤ xsize ∧ 3 ≤ ysize else 2 ≤ xsize ∧ 2 ≤ ysize)
    (hb : size values = toSizeT (mulInt xsize ysize))
    (hx : Double.le xmax xmin = false) (hy : Double.le ymax ymin = false) :
    Continuous2DFunction.construct raw xsize ysize values xmin xmax ymin ymax periodic =
      .ok { periodic := periodic, updateCount := wrapInt (raw.updateCount + 1),
            values := values, xsize := xsize, ysize := ysize,
            xmin := xmin, xmax := xmax, ymin := ymin, ymax := ymax } := by
  unfold Continuous2DFunction.construct Continuous2DFunction.setFunctionParameters
  cases periodic
  · simp only [Bool.false_eq_true, if_false] at ha
    simp [hb, hx, hy, not_lt.mpr ha.1, not_lt.mpr ha.2]
  · simp only [if_true] at ha
    simp [hb, hx, hy, not_lt.mpr ha.1, not_lt.mpr ha.2]

theorem continuous3D_construct_ok (raw : Continuous3DFunction) (xsize ysize zsize : Int)
    (values : List Double) (xmin xmax ymin ymax zmin zmax : Double) (periodic : Bool)
    (ha : if periodic then 3 ≤ xsize ∧ 3 ≤ ysize ∧ 3 ≤ zsize
      else 2 ≤ xsize ∧ 2 ≤ ysize ∧ 2 ≤ zsize)
    (hb : size values = toSizeT (mulInt (mulInt xsize ysize) zsize))
    (hx : Double.le xmax xmin = false) (hy : Double.le ymax ymin = false)
    (hz : Double.le zmax zmin = false) :
    Continuous3DFunction.construct raw xsize ysize zsize values
        xmin xmax ymin ymax zmin zmax periodic =
      .ok { periodic := periodic, updateCount := wrapInt (raw.updateCount + 1),
            values := values, xsize := xsize, ysize := ysize, zsize := zsize,
            xmin := xmin, xmax := xmax, ymin := ymin, ymax := ymax,
            zmin := zmin, zmax := zmax } := by
  unfold Continuous3DFunction.construct Continuous3DFunction.setFunctionParameters
  cases periodic
  · simp only [Bool.false_eq_true, if_false] at ha
    simp [hb, hx, hy, hz, not_lt.mpr ha.1, not_lt.mpr ha.2.1, not_lt.mpr ha.2.2]
  · simp only [if_true] at ha
    simp [hb, hx, hy, hz, not_lt.mpr ha.1, not_lt.mpr ha.2.1, not_lt.mpr ha.2.2]

theorem continuous1D_copy_eq (x raw : Continuous1DFunction) (d : Bool) (h : x.Reachable)
    (hd : d = true → x.periodic = true) :
    x.Copy raw d = .ok { periodic := d, updateCount := wrapInt (raw.updateCount + 1),
                         values := x.values, min := x.min, max := x.max } := by
  obtain ⟨hle, hn⟩ := continuous1D_reachable_valid x h
  unfold Continuous1DFunction.Copy
  simp only [copyValues_eq]
  apply continuous1D_construct_ok raw x.values x.min x.max d hle
  cases d
  · simp only [Bool.false_eq_true, if_false]
    cases hp : x.periodic <;> rw [hp] at hn <;> simp at hn <;> omega
  · rw [hd rfl] at hn
    simpa using hn

theorem continuous2D_copy_eq (x raw : Continuous2DFunction) (d : Bool) (h : x.Reachable)
    (hd : d = true → x.periodic = true) :
    x.Copy raw d = .ok { periodic := d, updateCount := wrapInt (raw.updateCount + 1),
                         values := x.values, xsize := x.xsize, ysize := x.ysize,
                         xmin := x.xmin, xmax := x.xmax,
                         ymin := x.ymin, ymax := x.ymax } := by
  obtain ⟨ha, hb, hx, hy⟩ := continuous2D_reachable_valid x h
  unfold Continuous2DFunction.Copy
  simp only [copyValues_eq]
  apply continuous2D_construct_ok raw x.xsize x.ysize x.values
    x.xmin x.xmax x.ymin x.ymax d ?_ hb hx hy
  cases d
  · simp only [Bool.false_eq_true, if_false]
    cases hp : x.periodic <;> rw [hp] at ha <;> simp at ha <;> omega
  · rw [hd rfl] at ha
    simpa using ha

theorem continuous3D_copy_eq (x raw : Continuous3DFunction) (d : Bool) (h : x.Reachable)
    (hd : d = true → x.periodic = true) :
    x.Copy raw d = .ok { periodic := d, updateCount := wrapInt (raw.updateCount + 1),
                         values := x.values,
                         xsize := x.xsize, ysize := x.ysize, zsize := x.zsize,
                         xmin := x.xmin, xmax := x.xmax, ymin := x.ymin, ymax := x.ymax,
                         zmin := x.zmin, zmax := x.zmax } := by
  obtain ⟨ha, hb, hx, hy, hz⟩ := continuous3D_reachable_valid x h
  unfold Continuous3DFunction.Copy
  simp only [copyValues_eq]
  apply continuous3D_construct_ok raw x.xsize x.ysize x.zsize x.values
    x.xmin x.xmax x.ymin x.ymax x.zmin x.zmax d ?_ hb hx hy hz
  cases d
  · simp only [Bool.false_eq_true, if_false]
    cases hp : x.periodic <;> rw [hp] at ha <;> simp at ha <;> omega
  · rw [hd rfl] at ha
    simpa using ha

theorem discrete1D_copy_eq (x raw : Discrete1DFunction) :
    x.Copy raw = .ok { raw with values := x.values } := by
  unfold Discrete1DFunction.Copy Discrete1DFunction.construct
  simp only [copyValues_eq]

theorem discrete2D_copy_eq (x raw : Discrete2DFunction) (h : x.Reachable) :
    x.Copy raw = .ok { raw with xsize := x.xsize, ysize := x.ysize, values := x.values } := by
  have hs := discrete2D_reachable_valid x h
  unfold Discrete2DFunction.Copy
  simp only [copyValues_eq]
  rcases discrete2D_construct_cases raw x.xsize x.ysize x.values with ⟨hne, _⟩ | ⟨_, e⟩
  · exact absurd hs hne
  · exact e

theorem discrete3D_copy_eq (x raw : Discrete3DFunction) (h : x.Reachable) :
    x.Copy raw = .ok { raw with xsize := x.xsize, ysize := x.ysize, zsize := x.zsize,
                                values := x.values } := by
  have hs := discrete3D_reachable_valid x h
  unfold Discrete3DFunction.Copy
  simp only [copyValues_eq]
  rcases discrete3D_construct_cases raw x.xsize x.ysize x.zsize x.values
    with ⟨hne, _⟩ | ⟨_, e⟩
  · exact absurd hs hne
  · exact e

theorem opEq_copy (c x : AnyFunction) (hv : c.variant = x.variant)
    (hs : c.sizes = x.sizes) (hb : c.bounds = x.bounds) (hvals : c.values = x.values) :
    c.opEq x = !x.hasNaN ∧ x.opEq c = !x.hasNaN := by
  constructor
  · rw [opEq_eq_not_hasNaN c x hv hs hb hvals, hasNaN_congr c x hb hvals]
  · exact opEq_eq_not_hasNaN x c hv.symm hs.symm hb.symm hvals.symm

/-- Claim C10, as amended. For every reachable object `x` of every class,
`Copy()` returns an object of the same class whose `getFunctionParameters`
output equals that of `x`, and `clone == x` and `x == clone` both hold if and
only if `x` stores no NaN. For the continuous classes `Copy()` calls the
constructor without its `periodic` argument; `d` is the value of that default
argument, and the statement holds when `d` is false or `x` is periodic. -/
theorem C10_copy_equals_original_unless_NaN :
    (∀ (x raw : Continuous1DFunction) (d : Bool), x.Reachable →
      (d = true → x.periodic = true) →
      ∃ c, x.Copy raw d = .ok c ∧
        c.getFunctionParameters = x.getFunctionParameters ∧
        AnyFunction.opEq (.continuous1D c) (.continuous1D x)
          = !(AnyFunction.continuous1D x).hasNaN ∧
        AnyFunction.opEq (.continuous1D x) (.continuous1D c)
          = !(AnyFunction.continuous1D x).hasNaN) ∧
    (∀ (x raw : Continuous2DFunction) (d : Bool), x.Reachable →
      (d = true → x.periodic = true) →
      ∃ c, x.Copy raw d = .ok c ∧
        c.getFunctionParameters = x.getFunctionParameters ∧
        AnyFunction.opEq (.continuous2D c) (.continuous2D x)
          = !(AnyFunction.continuous2D x).hasNaN ∧
        AnyFunction.opEq (.continuous2D x) (.continuous2D c)
          = !(AnyFunction.continuous2D x).hasNaN) ∧
    (∀ (x raw : Continuous3DFunction) (d : Bool), x.Reachable →
      (d = true → x.periodic = true) →
      ∃ c, x.Copy raw d = .ok c ∧
        c.getFunctionParameters = x.getFunctionParameters ∧
        AnyFunction.opEq (.continuous3D c) (.continuous3D x)
          = !(AnyFunction.continuous3D x).hasNaN ∧
        AnyFunction.opEq (.continuous3D x) (.continuous3D c)
          = !(AnyFunction.continuous3D x).hasNaN) ∧
    (∀ (x raw : Discrete1DFunction),
      ∃ c, x.Copy raw = .ok c ∧
        c.getFunctionParameters = x.getFunctionParameters ∧
        AnyFunction.opEq (.discrete1D c) (.discrete1D x)
          = !(AnyFunction.discrete1D x).hasNaN ∧
        AnyFunction.opEq (.discrete1D x) (.discrete1D c)
          = !(AnyFunction.discrete1D x).hasNaN) ∧
    (∀ (x raw : Discrete2DFunction), x.Reachable →
      ∃ c, x.Copy raw = .ok c ∧
        c.getFunctionParameters = x.getFunctionParameters ∧
        AnyFunction.opEq (.discrete2D c) (.discrete2D x)
          = !(AnyFunction.discrete2D x).hasNaN ∧
        AnyFunction.opEq (.discrete2D x) (.discrete2D c)
          = !(AnyFunction.discrete2D x).hasNaN) ∧
    (∀ (x raw : Discrete3DFunction), x.Reachable →
      ∃ c, x.Copy raw = .ok c ∧
        c.getFunctionParameters = x.getFunctionParameters ∧
        AnyFunction.opEq (.discrete3D c) (.discrete3D x)
          = !(AnyFunction.discrete3D x).hasNaN ∧
        AnyFunction.opEq (.discrete3D x) (.discrete3D c)
          = !(AnyFunction.discrete3D x).hasNaN) := by
  refine ⟨?_, ?_, ?_, ?_, ?_, ?_⟩
  · intro x raw d h hd
    refine ⟨_, continuous1D_copy_eq x raw d h hd, rfl, ?_, ?_⟩
    · exact (opEq_copy _ (.continuous1D x) rfl rfl rfl rfl).1
    · exact (opEq_copy _ (.continuous1D x) rfl rfl rfl rfl).2
  · intro x raw d h hd
    refine ⟨_, continuous2D_copy_eq x raw d h hd, rfl, ?_, ?_⟩
    · exact (opEq_copy _ (.continuous2D x) rfl rfl rfl rfl).1
    · exact (opEq_copy _ (.continuous2D x) rfl rfl rfl rfl).2
  · intro x raw d h hd
    refine ⟨_, continuous3D_copy_eq x raw d h hd, rfl, ?_, ?_⟩
    · exact (opEq_copy _ (.continuous3D x) rfl rfl rfl rfl).1
    · exact (opEq_copy _ (.continuous3D x) rfl rfl rfl rfl).2
  · intro x raw
    refine ⟨_, discrete1D_copy_eq x raw, rfl, ?_, ?_⟩
    · exact (opEq_copy _ (.discrete1D x) rfl rfl rfl rfl).1
    · exact (opEq_copy _ (.discrete1D x) rfl rfl rfl rfl).2
  · intro x raw h
    refine ⟨_, discrete2D_copy_eq x raw h, rfl, ?_, ?_⟩
    · exact (opEq_copy _ (.discrete2D x) rfl rfl rfl rfl).1
    · exact (opEq_copy _ (.discrete2D x) rfl rfl rfl rfl).2
  · intro x raw h
    refine ⟨_, discrete3D_copy_eq x raw h, rfl, ?_, ?_⟩
    · exact (opEq_copy _ (.discrete3D x) rfl rfl rfl rfl).1
    · exact (opEq_copy _ (.discrete3D x) rfl rfl rfl rfl).2

/-- The copy of the periodic `Continuous1DFunction([1,2,3], 0, 1)`, made with
the default argument `periodic = false`, and the copy of
`Discrete2DFunction(2, 3, [0,1,2,3,4,5])`. -/
theorem C10_copy_equals_original_unless_NaN_witness :
    (Continuous1DFunction.Reachable
        { periodic := true, updateCount := 1,
          values := [Double.one, Double.two, Double.three],
          min := Double.zero, max := Double.one } ∧
      (false = true → true = true) ∧
      ∃ c, Continuous1DFunction.Copy
          { periodic := true, updateCount := 1,
            values := [Double.one, Double.two, Double.three],
            min := Double.zero, max := Double.one } raw1D false = .ok c ∧
        c.getFunctionParameters = Continuous1DFunction.getFunctionParameters
          { periodic := true, updateCount := 1,
            values := [Double.one, Double.two, Double.three],
            min := Double.zero, max := Double.one } ∧
        AnyFunction.opEq (.continuous1D c) (.continuous1D
          { periodic := true, updateCount := 1,
            values := [Double.one, Double.two, Double.three],
            min := Double.zero, max := Double.one })
          = !(AnyFunction.continuous1D
            { periodic := true, updateCount := 1,
              values := [Double.one, Double.two, Double.three],
              min := Double.zero, max := Double.one }).hasNaN ∧
        AnyFunction.opEq (.continuous1D
          { periodic := true, updateCount := 1,
            values := [Double.one, Double.two, Double.three],
            min := Double.zero, max := Double.one }) (.continuous1D c)
          = !(AnyFunction.continuous1D
            { periodic := true, updateCount := 1,
              values := [Double.one, Double.two, Double.three],
              min := Double.zero, max := Double.one }).hasNaN) ∧
    (AnyFunction.continuous1D
        { periodic := true, updateCount := 1,
          values := [Double.one, Double.two, Double.three],
          min := Double.zero, max := Double.one }).hasNaN = false :=
  ⟨⟨Continuous1DFunction.Reachable.construct raw1D
      [Double.one, Double.two, Double.three] Double.zero Double.one true _ rfl,
    fun _ => rfl,
    C10_copy_equals_original_unless_NaN.1
      { periodic := true, updateCount := 1,
        values := [Double.one, Double.two, Double.three],
        min := Double.zero, max := Double.one } raw1D false
      (Continuous1DFunction.Reachable.construct raw1D
        [Double.one, Double.two, Double.three] Double.zero Double.one true _ rfl)
      (fun _ => rfl)⟩,
   rfl⟩

/-- Claim C10 as stated fails on the code: the reachable object
`Continuous1DFunction([NaN, 1.0], 0.0, 1.0, false)` is copied successfully,
the copy has the same parameters, and neither `clone == x` nor `x == clone`
holds. -/
theorem C10_copy_equals_original_counterexample :
    Continuous1DFunction.Reachable
      { periodic := false, updateCount := 1, values := [Double.nan, Double.one],
        min := Double.zero, max := Double.one } ∧
    Continuous1DFunction.Copy
        { periodic := false, updateCount := 1, values := [Double.nan, Double.one],
          min := Double.zero, max := Double.one } raw1D false
      = .ok { periodic := false, updateCount := 1, values := [Double.nan, Double.one],
              min := Double.zero, max := Double.one } ∧
    AnyFunction.opEq
      (.continuous1D
        { periodic := false, updateCount := 1, values := [Double.nan, Double.one],
          min := Double.zero, max := Double.one })
      (.continuous1D
        { periodic := false, updateCount := 1, values := [Double.nan, Double.one],
          min := Double.zero, max := Double.one }) = false :=
  ⟨Continuous1DFunction.Reachable.construct raw1D [Double.nan, Double.one]
     Double.zero Double.one false _ rfl,
   rfl, rfl⟩

/-! ## Copy and the periodic flag -/

/-- Claim C11 fails on the code. `Copy()` of a continuous class calls the
constructor without its `periodic` argument, so the periodic flag of the clone
is the default `d` of that argument and not the flag of the source: whatever
`d` is, each continuous class has a reachable object whose clone has a
different `getPeriodic()`. With `d = false` it is the periodic
`Continuous1DFunction([1,2,3], 0, 1, true)`, whose clone is not periodic. -/
theorem C11_copy_does_not_preserve_periodic (d : Bool) :
    (∃ x : Continuous1DFunction, x.Reachable ∧
      ∃ c, x.Copy raw1D d = .ok c ∧ c.getPeriodic = d ∧ x.getPeriodic = !d) ∧
    (∃ x : Continuous2DFunction, x.Reachable ∧
      ∃ c, x.Copy raw2D d = .ok c ∧ c.getPeriodic = d ∧ x.getPeriodic = !d) ∧
    (∃ x : Continuous3DFunction, x.Reachable ∧
      ∃ c, x.Copy raw3D d = .ok c ∧ c.getPeriodic = d ∧ x.getPeriodic = !d) := by
  cases d
  · exact
      ⟨⟨{ periodic := true, updateCount := 1,
          values := [Double.one, Double.two, Double.three],
          min := Double.zero, max := Double.one },
        Continuous1DFunction.Reachable.construct raw1D
          [Double.one, Double.two, Double.three] Double.zero Double.one true _ rfl,
        { periodic := false, updateCount := 1,
          values := [Double.one, Double.two, Double.three],
          min := Double.zero, max := Double.one }, rfl, rfl, rfl⟩,
       ⟨{ periodic := true, updateCount := 1,
          values := List.replicate 9 Double.one, xsize := 3, ysize := 3,
          xmin := Double.zero, xmax := Double.one,
          ymin := Double.zero, ymax := Double.one },
        Continuous2DFunction.Reachable.construct raw2D 3 3
          (List.replicate 9 Double.one)
          Double.zero Double.one Double.zero Double.one true _ rfl,
        { periodic := false, updateCount := 1,
          values := List.replicate 9 Double.one, xsize := 3, ysize := 3,
          xmin := Double.zero, xmax := Double.one,
          ymin := Double.zero, ymax := Double.one }, rfl, rfl, rfl⟩,
       ⟨{ periodic := true, updateCount := 1,
          values := List.replicate 27 Double.one, xsize := 3, ysize := 3, zsize := 3,
          xmin := Double.zero, xmax := Double.one,
          ymin := Double.zero, ymax := Double.one,
          zmin := Double.zero, zmax := Double.one },
        Continuous3DFunction.Reachable.construct raw3D 3 3 3
          (List.replicate 27 Double.one)
          Double.zero Double.one Double.zero Double.one Double.zero Double.one true _ rfl,
        { periodic := false, updateCount := 1,
          values := List.replicate 27 Double.one, xsize := 3, ysize := 3, zsize := 3,
          xmin := Double.zero, xmax := Double.one,
          ymin := Double.zero, ymax := Double.one,
          zmin := Double.zero, zmax := Double.one }, rfl, rfl, rfl⟩⟩
  · exact
      ⟨⟨{ periodic := false, updateCount := 1,
          values := [Double.one, Double.two, Double.three],
          min := Double.zero, max := Double.one },
        Continuous1DFunction.Reachable.construct raw1D
          [Double.one, Double.two, Double.three] Double.zero Double.one false _ rfl,
        { periodic := true, updateCount := 1,
          values := [Double.one, Double.two, Double.three],
          min := Double.zero, max := Double.one }, rfl, rfl, rfl⟩,
       ⟨{ periodic := false, updateCount := 1,
          values := List.replicate 9 Double.one, xsize := 3, ysize := 3,
          xmin := Double.zero, xmax := Double.one,
          ymin := Double.zero, ymax := Double.one },
        Continuous2DFunction.Reachable.construct raw2D 3 3
          (List.replicate 9 Double.one)
          Double.zero Double.one Double.zero Double.one false _ rfl,
        { periodic := true, updateCount := 1,
          values := List.replicate 9 Double.one, xsize := 3, ysize := 3,
          xmin := Double.zero, xmax := Double.one,
          ymin := Double.zero, ymax := Double.one }, rfl, rfl, rfl⟩,
       ⟨{ periodic := false, updateCount := 1,
          values := List.replicate 27 Double.one, xsize := 3, ysize := 3, zsize := 3,
          xmin := Double.zero, xmax := Double.one,
          ymin := Double.zero, ymax := Double.one,
          zmin := Double.zero, zmax := Double.one },
        Continuous3DFunction.Reachable.construct raw3D 3 3 3
          (List.replicate 27 Double.one)
          Double.zero Double.one Double.zero Double.one Double.zero Double.one false _ rfl,
        { periodic := true, updateCount := 1,
          values := List.replicate 27 Double.one, xsize := 3, ysize := 3, zsize := 3,
          xmin := Double.zero, xmax := Double.one,
          ymin := Double.zero, ymax := Double.one,
          zmin := Double.zero, zmax := Double.one }, rfl, rfl, rfl⟩⟩

/-! ## The update counter -/

theorem continuous1D_construct_fields (raw : Continuous1DFunction) (values : List Double)
    (min max : Double) (periodic : Bool) (self : Continuous1DFunction)
    (h : Continuous1DFunction.construct raw values min max periodic = .ok self) :
    self = { periodic := periodic, updateCount := wrapInt (raw.updateCount + 1),
             values := values, min := min, max := max } := by
  have h1 := continuous1D_construct_eq raw values min max periodic self h
  have h2 := continuous1D_set_ok _ values min max (by rw [h1])
  rw [h1] at h2
  exact h2

/-- Claim C13, as amended. The constructor of `Continuous1DFunction` calls
`setFunctionParameters`, which increments the counter: right after every
successful construction `getUpdateCount()` is the value the counter has in the
new object before the constructor body runs, incremented once as an `int`, so
one more than that value when this is representable; a successful
`setFunctionParameters` call on the constructed object then increments it
again, to two more than the initial value when representable, and stores the
new parameters; and a failed call leaves the parameters and the counter as
they were. With the counter starting at 0:
`Continuous1DFunction([1,2,3], 0, 1, periodic=true)` has `getUpdateCount() == 1`,
`setFunctionParameters([4,5,6], 0, 2)` succeeds and makes it 2, and the failing
call `setFunctionParameters([4,5], 0, 2)` leaves the parameters at
`([4,5,6], 0, 2)` and the counter at 2. -/
theorem C13_update_counter_after_construction :
    (∀ (raw : Continuous1DFunction) (values : List Double) (min max : Double)
        (periodic : Bool) (self : Continuous1DFunction),
      Continuous1DFunction.construct raw values min max periodic = .ok self →
      self.getUpdateCount = wrapInt (raw.getUpdateCount + 1) ∧
      (IsInt (raw.getUpdateCount + 1) → self.getUpdateCount = raw.getUpdateCount + 1) ∧
      (∀ (values' : List Double) (min' max' : Double),
        (self.setFunctionParameters values' min' max').1 = .ok () →
        (self.setFunctionParameters values' min' max').2.getUpdateCount
          = wrapInt (wrapInt (raw.getUpdateCount + 1) + 1) ∧
        (IsInt (raw.getUpdateCount + 1) → IsInt (raw.getUpdateCount + 2) →
          (self.setFunctionParameters values' min' max').2.getUpdateCount
            = raw.getUpdateCount + 2) ∧
        (self.setFunctionParameters values' min' max').2.getFunctionParameters
          = (values', min', max')) ∧
      (∀ (values' : List Double) (min' max' : Double) (e : OpenMMException),
        (self.setFunctionParameters values' min' max').1 = .error e →
        (self.setFunctionParameters values' min' max').2.getUpdateCount
          = self.getUpdateCount ∧
        (self.setFunctionParameters values' min' max').2.getFunctionParameters
          = self.getFunctionParameters)) ∧
    (Continuous1DFunction.construct raw1D [Double.one, Double.two, Double.three]
        Double.zero Double.one true = .ok periodic123 ∧
      periodic123.getUpdateCount = 1 ∧
      (periodic123.setFunctionParameters [Double.four, Double.five, Double.six]
        Double.zero Double.two).1 = .ok () ∧
      (periodic123.setFunctionParameters [Double.four, Double.five, Double.six]
        Double.zero Double.two).2.getUpdateCount = 2 ∧
      ((periodic123.setFunctionParameters [Double.four, Double.five, Double.six]
        Double.zero Double.two).2.setFunctionParameters [Double.four, Double.five]
          Double.zero Double.two).1 = .error .c1dPeriodicThreePoints ∧
      ((periodic123.setFunctionParameters [Double.four, Double.five, Double.six]
        Double.zero Double.two).2.setFunctionParameters [Double.four, Double.five]
          Double.zero Double.two).2.getFunctionParameters
        = ([Double.four, Double.five, Double.six], Double.zero, Double.two) ∧
      ((periodic123.setFunctionParameters [Double.four, Double.five, Double.six]
        Double.zero Double.two).2.setFunctionParameters [Double.four, Double.five]
          Double.zero Double.two).2.getUpdateCount = 2) := by
  refine ⟨?_, rfl, rfl, rfl, rfl, rfl, rfl, rfl⟩
  intro raw values min max periodic self h
  have hs := continuous1D_construct_fields raw values min max periodic self h
  have hc : self.getUpdateCount = wrapInt (raw.getUpdateCount + 1) := by rw [hs]; rfl
  refine ⟨hc, fun hi => hc.trans (wrapInt_of_isInt _ hi), ?_, ?_⟩
  · intro values' min' max' hok
    rw [continuous1D_set_ok self values' min' max' hok]
    have hc2 : TabulatedFunction.getUpdateCount
        { periodic := self.periodic, updateCount := wrapInt (self.updateCount + 1) }
        = wrapInt (wrapInt (raw.getUpdateCount + 1) + 1) := by
      show wrapInt (self.getUpdateCount + 1) = _
      rw [hc]
    refine ⟨hc2, ?_, rfl⟩
    intro h1 h2
    refine hc2.trans ?_
    rw [wrapInt_of_isInt _ h1]
    have : raw.getUpdateCount + 1 + 1 = raw.getUpdateCount + 2 := by omega
    rw [this, wrapInt_of_isInt _ h2]
  · intro values' min' max' e he
    rw [continuous1D_set_error self values' min' max' e he]
    exact ⟨rfl, rfl⟩

/-- The construction `Continuous1DFunction([1,2,3], 0, 1, false)` from a new
object whose counter is 5: the counter is 6 afterwards. -/
theorem C13_update_counter_after_construction_witness :
    Continuous1DFunction.construct
        { periodic := false, updateCount := 5, values := [],
          min := Double.zero, max := Double.zero }
        [Double.one, Double.two, Double.three] Double.zero Double.one false
      = .ok { periodic := false, updateCount := 6,
              values := [Double.one, Double.two, Double.three],
              min := Double.zero, max := Double.one } ∧
    IsInt (TabulatedFunction.getUpdateCount { periodic := false, updateCount := 5 } + 1) ∧
    TabulatedFunction.getUpdateCount { periodic := false, updateCount := 6 }
      = TabulatedFunction.getUpdateCount { periodic := false, updateCount := 5 } + 1 :=
  ⟨rfl, by decide,
   (C13_update_counter_after_construction.1
      { periodic := false, updateCount := 5, values := [],
        min := Double.zero, max := Double.zero }
      [Double.one, Double.two, Double.three] Double.zero Double.one false
      { periodic := false, updateCount := 6,
        values := [Double.one, Double.two, Double.three],
        min := Double.zero, max := Double.one } rfl).2.1 (by decide)⟩

/-- Claim C13 as stated fails on the code: whatever non-negative `int` the
counter is in a new object, `getUpdateCount()` is not 0 right after the
construction `Continuous1DFunction([1,2,3], 0, 1)`; with the counter starting
at 0 it is 1 after the construction and 2, not 1, after the first successful
replacement. -/
theorem C13_update_counter_counterexample :
    (¬ ∃ (raw self : Continuous1DFunction) (periodic : Bool),
      0 ≤ raw.updateCount ∧ IsInt raw.updateCount ∧
      Continuous1DFunction.construct raw [Double.one, Double.two, Double.three]
        Double.zero Double.one periodic = .ok self ∧
      self.getUpdateCount = 0) ∧
    Continuous1DFunction.construct raw1D [Double.one, Double.two, Double.three]
        Double.zero Double.one false = .ok clone123 ∧
    raw1D.getUpdateCount = 0 ∧
    clone123.getUpdateCount = 1 ∧
    (clone123.setFunctionParameters [Double.four, Double.five, Double.six]
      Double.zero Double.two).1 = .ok () ∧
    (clone123.setFunctionParameters [Double.four, Double.five, Double.six]
      Double.zero Double.two).2.getUpdateCount = 2 := by
  refine ⟨?_, rfl, rfl, rfl, rfl, rfl⟩
  rintro ⟨raw, self, periodic, h0, hi, hc, hz⟩
  have hs := continuous1D_construct_fields raw _ _ _ periodic self hc
  rw [hs] at hz
  have hz2 : wrapInt (raw.updateCount + 1) = 0 := hz
  unfold IsInt at hi
  unfold wrapInt at hz2
  omega

/-! ## The invariant of the continuous classes -/

theorem le_sizeToInt (k n : Nat) (hk : k ≤ 3) (h : (k : Int) ≤ sizeToInt n) : k ≤ n := by
  unfold sizeToInt wrapInt at h
  omega

/-- Claim C14, as amended. In every reachable state of a continuous class:
`max <= min` is false on every axis, which is `max > min` when neither bound
of the axis is NaN; every axis has at least 3 samples if the object is
periodic and at least 2 otherwise; and for the 2D and 3D classes the number of
stored values equals the `int` product of the stored sizes, which is their
product whenever that is representable as an `int`. -/
theorem C14_continuous_invariant :
    (∀ x : Continuous1DFunction, x.Reachable →
      Double.le x.max x.min = false ∧
      (x.min.isNaN = false → x.max.isNaN = false → Double.gt x.max x.min = true) ∧
      (if x.periodic then 3 ≤ x.values.length else 2 ≤ x.values.length)) ∧
    (∀ x : Continuous2DFunction, x.Reachable →
      (Double.le x.xmax x.xmin = false ∧ Double.le x.ymax x.ymin = false) ∧
      (x.xmin.isNaN = false → x.xmax.isNaN = false → Double.gt x.xmax x.xmin = true) ∧
      (x.ymin.isNaN = false → x.ymax.isNaN = false → Double.gt x.ymax x.ymin = true) ∧
      (if x.periodic then 3 ≤ x.xsize ∧ 3 ≤ x.ysize else 2 ≤ x.xsize ∧ 2 ≤ x.ysize) ∧
      size x.values = toSizeT (mulInt x.xsize x.ysize) ∧
      (IsInt (x.xsize * x.ysize) → (x.values.length : Int) = x.xsize * x.ysize)) ∧
    (∀ x : Continuous3DFunction, x.Reachable →
      (Double.le x.xmax x.xmin = false ∧ Double.le x.ymax x.ymin = false ∧
        Double.le x.zmax x.zmin = false) ∧
      (x.xmin.isNaN = false → x.xmax.isNaN = false → Double.gt x.xmax x.xmin = true) ∧
      (x.ymin.isNaN = false → x.ymax.isNaN = false → Double.gt x.ymax x.ymin = true) ∧
      (x.zmin.isNaN = false → x.zmax.isNaN = false → Double.gt x.zmax x.zmin = true) ∧
      (if x.periodic then 3 ≤ x.xsize ∧ 3 ≤ x.ysize ∧ 3 ≤ x.zsize
        else 2 ≤ x.xsize ∧ 2 ≤ x.ysize ∧ 2 ≤ x.zsize) ∧
      size x.values = toSizeT (mulInt (mulInt x.xsize x.ysize) x.zsize) ∧
      (IsInt (x.xsize * x.ysize) → IsInt (x.xsize * x.ysize * x.zsize) →
        (x.values.length : Int) = x.xsize * x.ysize * x.zsize)) := by
  have gt_of (a b : Double) (hle : Double.le a b = false) (hb : b.isNaN = false)
      (ha : a.isNaN = false) : Double.gt a b = true := by
    rw [double_gt_iff_not_le a b ha hb, hle]
    rfl
  refine ⟨?_, ?_, ?_⟩
  · intro x h
    obtain ⟨hle, hn⟩ := continuous1D_reachable_valid x h
    refine ⟨hle, gt_of _ _ hle, ?_⟩
    cases hp : x.periodic
    · rw [hp] at hn
      simp only [Bool.false_eq_true, if_false] at hn ⊢
      exact le_sizeToInt 2 _ (by omega) (by exact_mod_cast hn)
    · rw [hp] at hn
      simp only [if_true] at hn ⊢
      exact le_sizeToInt 3 _ (by omega) (by exact_mod_cast hn)
  · intro x h
    obtain ⟨ha, hb, hx, hy⟩ := continuous2D_reachable_valid x h
    refine ⟨⟨hx, hy⟩, gt_of _ _ hx, gt_of _ _ hy, ha, hb, ?_⟩
    intro hp
    have h2 : 2 ≤ x.xsize ∧ 2 ≤ x.ysize := by
      cases hper : x.periodic <;> rw [hper] at ha <;> simp at ha <;> omega
    have h0 : 0 ≤ x.xsize * x.ysize := Int.mul_nonneg (by omega) (by omega)
    by_contra hne
    exact ((size_ne_toSizeT_iff x.values _ hp h0).mpr hne) hb
  · intro x h
    obtain ⟨ha, hb, hx, hy, hz⟩ := continuous3D_reachable_valid x h
    refine ⟨⟨hx, hy, hz⟩, gt_of _ _ hx, gt_of _ _ hy, gt_of _ _ hz, ha, hb, ?_⟩
    intro hp hq
    have h2 : 2 ≤ x.xsize ∧ 2 ≤ x.ysize ∧ 2 ≤ x.zsize := by
      cases hper : x.periodic <;> rw [hper] at ha <;> simp at ha <;> omega
    have h0 : 0 ≤ x.xsize * x.ysize * x.zsize :=
      Int.mul_nonneg (Int.mul_nonneg (by omega) (by omega)) (by omega)
    have hm : mulInt (mulInt x.xsize x.ysize) x.zsize
        = wrapInt (x.xsize * x.ysize * x.zsize) := by
      unfold mulInt
      rw [wrapInt_of_isInt _ hp]
    rw [hm] at hb
    by_contra hne
    exact ((size_ne_toSizeT_iff x.values _ hq h0).mpr hne) hb

/-- The invariant on the reachable periodic `Continuous1DFunction([1,2,3], 0, 1)`. -/
theorem C14_continuous_invariant_witness :
    periodic123.Reachable ∧
    periodic123.min.isNaN = false ∧ periodic123.max.isNaN = false ∧
    Double.le periodic123.max periodic123.min = false ∧
    Double.gt periodic123.max periodic123.min = true ∧
    (if periodic123.periodic then 3 ≤ periodic123.values.length
     else 2 ≤ periodic123.values.length) :=
  ⟨Continuous1DFunction.Reachable.construct raw1D
     [Double.one, Double.two, Double.three] Double.zero Double.one true _ rfl,
   rfl, rfl,
   (C14_continuous_invariant.1 periodic123
     (Continuous1DFunction.Reachable.construct raw1D
       [Double.one, Double.two, Double.three] Double.zero Double.one true _ rfl)).1,
   (C14_continuous_invariant.1 periodic123
     (Continuous1DFunction.Reachable.construct raw1D
       [Double.one, Double.two, Double.three] Double.zero Double.one true _ rfl)).2.1
     rfl rfl,
   (C14_continuous_invariant.1 periodic123
     (Continuous1DFunction.Reachable.construct raw1D
       [Double.one, Double.two, Double.three] Double.zero Double.one true _ rfl)).2.2⟩

/-- Claim C14 as stated fails on the code: `Continuous1DFunction([1.0,2.0],
min=NaN, max=0.0, false)` is constructed successfully, so the state is
reachable, and `max > min` does not hold in it. -/
theorem C14_continuous_invariant_counterexample :
    Continuous1DFunction.construct raw1D [Double.one, Double.two]
        Double.nan Double.zero false
      = .ok { periodic := false, updateCount := 1, values := [Double.one, Double.two],
              min := Double.nan, max := Double.zero } ∧
    Continuous1DFunction.Reachable
      { periodic := false, updateCount := 1, values := [Double.one, Double.two],
        min := Double.nan, max := Double.zero } ∧
    Double.gt Double.zero Double.nan = false :=
  ⟨rfl,
   Continuous1DFunction.Reachable.construct raw1D [Double.one, Double.two]
     Double.nan Double.zero false _ rfl,
   rfl⟩

/-! ## Discrete1DFunction -/

/-- Claim C15, as amended. `Discrete1DFunction` has no validation. The
constructor succeeds on every value sequence and stores it;
`setFunctionParameters` returns normally on every value sequence, stores it
and increments `getUpdateCount` as an `int`, which increases it by exactly 1
whenever the previous value plus 1 is representable as an `int`, that is for
every previous value below 2147483647; this includes the empty sequence. -/
theorem C15_discrete1D_never_fails :
    (∀ (raw : Discrete1DFunction) (values : List Double),
      ∃ self, Discrete1DFunction.construct raw values = .ok self ∧
        self.getFunctionParameters = values) ∧
    (∀ (self : Discrete1DFunction) (values : List Double),
      (self.setFunctionParameters values).1 = .ok () ∧
      (self.setFunctionParameters values).2.getFunctionParameters = values ∧
      (self.setFunctionParameters values).2.getUpdateCount
        = wrapInt (self.getUpdateCount + 1) ∧
      (IsInt (self.getUpdateCount + 1) →
        (self.setFunctionParameters values).2.getUpdateCount
          = self.getUpdateCount + 1)) ∧
    (∃ self, Discrete1DFunction.construct rawD1 [] = .ok self ∧
      self.getFunctionParameters = [] ∧
      (self.setFunctionParameters []).1 = .ok () ∧
      (self.setFunctionParameters []).2.getFunctionParameters = [] ∧
      (self.setFunctionParameters []).2.getUpdateCount = self.getUpdateCount + 1) :=
  ⟨fun _ _ => ⟨_, rfl, rfl⟩,
   fun _ _ => ⟨rfl, rfl, rfl, fun hi => wrapInt_of_isInt _ hi⟩,
   ⟨_, rfl, rfl, rfl, rfl, rfl⟩⟩

/-- A replacement on the new `Discrete1DFunction` with counter 0: the counter
is 1 afterwards. -/
theorem C15_discrete1D_never_fails_witness :
    IsInt (rawD1.getUpdateCount + 1) ∧
    (rawD1.setFunctionParameters [Double.one]).2.getUpdateCount
      = rawD1.getUpdateCount + 1 :=
  ⟨by decide, (C15_discrete1D_never_fails.2.1 rawD1 [Double.one]).2.2.2 (by decide)⟩

theorem discrete1D_reachable_count (n : Nat) (h : n < 2147483648) :
    Discrete1DFunction.Reachable
      { periodic := false, updateCount := (n : Int), values := [] } := by
  induction n with
  | zero => exact Discrete1DFunction.Reachable.construct rawD1 [] _ rfl
  | succ k ih =>
    have hs := Discrete1DFunction.Reachable.set _ [] (ih (by omega))
    have hw : wrapInt ((k : Int) + 1) = ((k + 1 : Nat) : Int) := by
      rw [wrapInt_of_isInt _ (by unfold IsInt; omega)]
      push_cast
      rfl
    have he : (Discrete1DFunction.setFunctionParameters
        { periodic := false, updateCount := (k : Int), values := [] } []).2
        = { periodic := false, updateCount := wrapInt ((k : Int) + 1), values := [] } := rfl
    rw [he, hw] at hs
    exact hs

/-- Claim C15 as stated fails on the code when the counter is at the largest
`int`: the `Discrete1DFunction` with no values and
`getUpdateCount() == 2147483647` is reachable by replacements alone, the call
`setFunctionParameters([])` returns normally on it, and `getUpdateCount()` is
then `-2147483648`, which is not an increase by 1. -/
theorem C15_discrete1D_counterexample :
    Discrete1DFunction.Reachable
      { periodic := false, updateCount := 2147483647, values := [] } ∧
    (Discrete1DFunction.setFunctionParameters
      { periodic := false, updateCount := 2147483647, values := [] } []).1 = .ok () ∧
    (Discrete1DFunction.setFunctionParameters
      { periodic := false, updateCount := 2147483647, values := [] }
      []).2.getUpdateCount = -2147483648 ∧
    (-2147483648 : Int) ≠ 2147483647 + 1 :=
  ⟨discrete1D_reachable_count 2147483647 (by decide), rfl, rfl, by decide⟩

/-! ## The periodic flag -/

theorem continuous1D_set_periodic (self : Continuous1DFunction) (values : List Double) (min max : Double) :
    (self.setFunctionParameters values min max).2.periodic = self.periodic := by
  rcases except_unit_cases (self.setFunctionParameters values min max).1 with hok | ⟨e, he⟩
  · rw [continuous1D_set_ok self values min max hok]
  · rw [continuous1D_set_error self values min max e he]

theorem continuous1D_setAll_periodic (calls : List (List Double × Double × Double)) :
    ∀ self : Continuous1DFunction, (self.setAll calls).periodic = self.periodic := by
  induction calls with
  | nil => intro self; rfl
  | cons a rest ih =>
    intro self
    show (Continuous1DFunction.setAll (self.setFunctionParameters a.1 a.2.1 a.2.2).2 rest).periodic
      = self.periodic
    rw [ih, continuous1D_set_periodic]

theorem continuous2D_set_periodic (self : Continuous2DFunction) (xsize ysize : Int) (values : List Double) (xmin xmax ymin ymax : Double) :
    (self.setFunctionParameters xsize ysize values xmin xmax ymin ymax).2.periodic = self.periodic := by
  rcases except_unit_cases (self.setFunctionParameters xsize ysize values xmin xmax ymin ymax).1 with hok | ⟨e, he⟩
  · rw [continuous2D_set_ok self xsize ysize values xmin xmax ymin ymax hok]
  · rw [continuous2D_set_error self xsize ysize values xmin xmax ymin ymax e he]

theorem continuous2D_setAll_periodic (calls : List (Int × Int × List Double × Double × Double × Double × Double)) :
    ∀ self : Continuous2DFunction, (self.setAll calls).periodic = self.periodic := by
  induction calls with
  | nil => intro self; rfl
  | cons a rest ih =>
    intro self
    show (Continuous2DFunction.setAll (self.setFunctionParameters a.1 a.2.1 a.2.2.1 a.2.2.2.1 a.2.2.2.2.1 a.2.2.2.2.2.1 a.2.2.2.2.2.2).2 rest).periodic
      = self.periodic
    rw [ih, continuous2D_set_periodic]

theorem continuous3D_set_periodic (self : Continuous3DFunction) (xsize ysize zsize : Int) (values : List Double) (xmin xmax ymin ymax zmin zmax : Double) :
    (self.setFunctionParameters xsize ysize zsize values xmin xmax ymin ymax zmin zmax).2.periodic = self.periodic := by
  rcases except_unit_cases (self.setFunctionParameters xsize ysize zsize values xmin xmax ymin ymax zmin zmax).1 with hok | ⟨e, he⟩
  · rw [continuous3D_set_ok self xsize ysize zsize values xmin xmax ymin ymax zmin zmax hok]
  · rw [continuous3D_set_error self xsize ysize zsize values xmin xmax ymin ymax zmin zmax e he]

theorem continuous3D_setAll_periodic (calls : List (Int × Int × Int × List Double × Double × Double × Double × Double × Double × Double)) :
    ∀ self : Continuous3DFunction, (self.setAll calls).periodic = self.periodic := by
  induction calls with
  | nil => intro self; rfl
  | cons a rest ih =>
    intro self
    show (Continuous3DFunction.setAll (self.setFunctionParameters a.1 a.2.1 a.2.2.1 a.2.2.2.1 a.2.2.2.2.1 a.2.2.2.2.2.1 a.2.2.2.2.2.2.1 a.2.2.2.2.2.2.2.1 a.2.2.2.2.2.2.2.2.1 a.2.2.2.2.2.2.2.2.2).2 rest).periodic
      = self.periodic
    rw [ih, continuous3D_set_periodic]

theorem discrete1D_set_periodic (self : Discrete1DFunction) (values : List Double) :
    (self.setFunctionParameters values).2.periodic = self.periodic := by
  rfl

theorem discrete1D_setAll_periodic (calls : List (List Double)) :
    ∀ self : Discrete1DFunction, (self.setAll calls).periodic = self.periodic := by
  induction calls with
  | nil => intro self; rfl
  | cons a rest ih =>
    intro self
    show (Discrete1DFunction.setAll (self.setFunctionParameters a).2 rest).periodic
      = self.periodic
    rw [ih, discrete1D_set_periodic]

theorem discrete2D_set_periodic (self : Discrete2DFunction) (xsize ysize : Int) (values : List Double) :
    (self.setFunctionParameters xsize ysize values).2.periodic = self.periodic := by
  rcases except_unit_cases (self.setFunctionParameters xsize ysize values).1 with hok | ⟨e, he⟩
  · rw [discrete2D_set_ok self xsize ysize values hok]
  · rw [discrete2D_set_error self xsize ysize values e he]

theorem discrete2D_setAll_periodic (calls : List (Int × Int × List Double)) :
    ∀ self : Discrete2DFunction, (self.setAll calls).periodic = self.periodic := by
  induction calls with
  | nil => intro self; rfl
  | cons a rest ih =>
    intro self
    show (Discrete2DFunction.setAll (self.setFunctionParameters a.1 a.2.1 a.2.2).2 rest).periodic
      = self.periodic
    rw [ih, discrete2D_set_periodic]

theorem discrete3D_set_periodic (self : Discrete3DFunction) (xsize ysize zsize : Int) (values : List Double) :
    (self.setFunctionParameters xsize ysize zsize values).2.periodic = self.periodic := by
  rcases except_unit_cases (self.setFunctionParameters xsize ysize zsize values).1 with hok | ⟨e, he⟩
  · rw [discrete3D_set_ok self xsize ysize zsize values hok]
  · rw [discrete3D_set_error self xsize ysize zsize values e he]

theorem discrete3D_setAll_periodic (calls : List (Int × Int × Int × List Double)) :
    ∀ self : Discrete3DFunction, (self.setAll calls).periodic = self.periodic := by
  induction calls with
  | nil => intro self; rfl
  | cons a rest ih =>
    intro self
    show (Discrete3DFunction.setAll (self.setFunctionParameters a.1 a.2.1 a.2.2.1 a.2.2.2).2 rest).periodic
      = self.periodic
    rw [ih, discrete3D_set_periodic]

/-- Claim C16: `getPeriodic` is immutable after construction. For a continuous
class, right after a successful construction `getPeriodic()` is the `periodic`
argument of the constructor, and it is still that value after any sequence of
`setFunctionParameters` calls, returning or throwing. For a discrete class
`getPeriodic()` after any sequence of `setFunctionParameters` calls is what it
was before. -/
theorem C16_getPeriodic_immutable :
    (∀ (raw : Continuous1DFunction) (values : List Double) (min max : Double)
        (periodic : Bool) (self : Continuous1DFunction)
        (calls : List (List Double × Double × Double)),
      Continuous1DFunction.construct raw values min max periodic = .ok self →
      self.getPeriodic = periodic ∧ (self.setAll calls).getPeriodic = periodic) ∧
    (∀ (raw : Continuous2DFunction) (xsize ysize : Int) (values : List Double) (xmin xmax ymin ymax : Double)
        (periodic : Bool) (self : Continuous2DFunction)
        (calls : List (Int × Int × List Double × Double × Double × Double × Double)),
      Continuous2DFunction.construct raw xsize ysize values xmin xmax ymin ymax periodic = .ok self →
      self.getPeriodic = periodic ∧ (self.setAll calls).getPeriodic = periodic) ∧
    (∀ (raw : Continuous3DFunction) (xsize ysize zsize : Int) (values : List Double) (xmin xmax ymin ymax zmin zmax : Double)
        (periodic : Bool) (self : Continuous3DFunction)
        (calls : List (Int × Int × Int × List Double × Double × Double × Double × Double × Double × Double)),
      Continuous3DFunction.construct raw xsize ysize zsize values xmin xmax ymin ymax zmin zmax periodic = .ok self →
      self.getPeriodic = periodic ∧ (self.setAll calls).getPeriodic = periodic) ∧
    (∀ (self : Discrete1DFunction)
        (calls : List (List Double)),
      (self.setAll calls).getPeriodic = self.getPeriodic) ∧
    (∀ (self : Discrete2DFunction)
        (calls : List (Int × Int × List Double)),
      (self.setAll calls).getPeriodic = self.getPeriodic) ∧
    (∀ (self : Discrete3DFunction)
        (calls : List (Int × Int × Int × List Double)),
      (self.setAll calls).getPeriodic = self.getPeriodic) := by
  refine ⟨?_, ?_, ?_, ?_, ?_, ?_⟩
  · intro raw values min max periodic self calls h
    have h1 := continuous1D_construct_eq raw values min max periodic self h
    have h2 := continuous1D_set_periodic ({ raw with periodic := periodic }) values min max
    rw [h1] at h2
    exact ⟨h2, ((continuous1D_setAll_periodic calls self).trans h2)⟩
  · intro raw xsize ysize values xmin xmax ymin ymax periodic self calls h
    have h1 := continuous2D_construct_eq raw xsize ysize values xmin xmax ymin ymax periodic self h
    have h2 := continuous2D_set_periodic ({ raw with periodic := periodic }) xsize ysize values xmin xmax ymin ymax
    rw [h1] at h2
    exact ⟨h2, ((continuous2D_setAll_periodic calls self).trans h2)⟩
  · intro raw xsize ysize zsize values xmin xmax ymin ymax zmin zmax periodic self calls h
    have h1 := continuous3D_construct_eq raw xsize ysize zsize values xmin xmax ymin ymax zmin zmax periodic self h
    have h2 := continuous3D_set_periodic ({ raw with periodic := periodic }) xsize ysize zsize values xmin xmax ymin ymax zmin zmax
    rw [h1] at h2
    exact ⟨h2, ((continuous3D_setAll_periodic calls self).trans h2)⟩
  · intro self calls
    exact discrete1D_setAll_periodic calls self
  · intro self calls
    exact discrete2D_setAll_periodic calls self
  · intro self calls
    exact discrete3D_setAll_periodic calls self

/-- The periodic `Continuous1DFunction([1,2,3], 0, 1, true)` stays periodic
through a successful and a failing replacement. -/
theorem C16_getPeriodic_immutable_witness :
    Continuous1DFunction.construct raw1D [Double.one, Double.two, Double.three]
        Double.zero Double.one true = .ok periodic123 ∧
    periodic123.getPeriodic = true ∧
    (periodic123.setAll
      [([Double.four, Double.five, Double.six], Double.zero, Double.two),
       ([Double.four, Double.five], Double.zero, Double.two)]).getPeriodic = true :=
  ⟨rfl,
   C16_getPeriodic_immutable.1 raw1D [Double.one, Double.two, Double.three]
     Double.zero Double.one true periodic123
     [([Double.four, Double.five, Double.six], Double.zero, Double.two),
      ([Double.four, Double.five], Double.zero, Double.two)] rfl⟩

/-! ## Copy re-validates the stored state -/

/-- With a default `periodic = true` for the constructor argument that `Copy()`
omits, the clone of a reachable non-periodic function with two samples would
fail to construct. -/
theorem copy_throws_if_default_periodic :
    Continuous1DFunction.Reachable
      { periodic := false, updateCount := 1, values := [Double.one, Double.two],
        min := Double.zero, max := Double.one } ∧
    Continuous1DFunction.Copy
      { periodic := false, updateCount := 1, values := [Double.one, Double.two],
        min := Double.zero, max := Double.one } raw1D true
      = .error .c1dPeriodicThreePoints :=
  ⟨Continuous1DFunction.Reachable.construct raw1D [Double.one, Double.two]
     Double.zero Double.one false _ rfl, rfl⟩

/-- Claim C17: `Copy()` never fails on a reachable object. For the discrete
classes the constructor called by `Copy()` accepts the stored sizes and
values. For the continuous classes `Copy()` calls the constructor without its
`periodic` argument; with `d` the default of that argument, the constructor
accepts the stored state whenever `d` is false, and also when `d` is true and
the object is periodic. -/
theorem C17_copy_never_fails :
    (∀ (x raw : Continuous1DFunction) (d : Bool), x.Reachable →
      (d = true → x.periodic = true) → ∃ c, x.Copy raw d = .ok c) ∧
    (∀ (x raw : Continuous2DFunction) (d : Bool), x.Reachable →
      (d = true → x.periodic = true) → ∃ c, x.Copy raw d = .ok c) ∧
    (∀ (x raw : Continuous3DFunction) (d : Bool), x.Reachable →
      (d = true → x.periodic = true) → ∃ c, x.Copy raw d = .ok c) ∧
    (∀ (x raw : Discrete1DFunction), x.Reachable → ∃ c, x.Copy raw = .ok c) ∧
    (∀ (x raw : Discrete2DFunction), x.Reachable → ∃ c, x.Copy raw = .ok c) ∧
    (∀ (x raw : Discrete3DFunction), x.Reachable → ∃ c, x.Copy raw = .ok c) :=
  ⟨fun x raw d h hd => ⟨_, continuous1D_copy_eq x raw d h hd⟩,
   fun x raw d h hd => ⟨_, continuous2D_copy_eq x raw d h hd⟩,
   fun x raw d h hd => ⟨_, continuous3D_copy_eq x raw d h hd⟩,
   fun x raw _ => ⟨_, discrete1D_copy_eq x raw⟩,
   fun x raw h => ⟨_, discrete2D_copy_eq x raw h⟩,
   fun x raw h => ⟨_, discrete3D_copy_eq x raw h⟩⟩

/-- The copy of the reachable non-periodic `Continuous1DFunction([1,2,3], 0, 1)`
with the default `periodic = false`, and the copy of the reachable
`Discrete2DFunction(2, 3, [0,1,2,3,4,5])`. -/
theorem C17_copy_never_fails_witness :
    (clone123.Reachable ∧ (false = true → clone123.periodic = true) ∧
      ∃ c, clone123.Copy raw1D false = .ok c) ∧
    (Discrete2DFunction.Reachable
        { periodic := false, updateCount := 0, xsize := 2, ysize := 3,
          values := [Double.zero, Double.one, Double.two, Double.three, Double.four,
            Double.five] } ∧
      ∃ c, Discrete2DFunction.Copy
        { periodic := false, updateCount := 0, xsize := 2, ysize := 3,
          values := [Double.zero, Double.one, Double.two, Double.three, Double.four,
            Double.five] } rawD2 = .ok c) :=
  ⟨⟨Continuous1DFunction.Reachable.construct raw1D
      [Double.one, Double.two, Double.three] Double.zero Double.one false _ rfl,
    fun h => absurd h (by decide),
    C17_copy_never_fails.1 clone123 raw1D false
      (Continuous1DFunction.Reachable.construct raw1D
        [Double.one, Double.two, Double.three] Double.zero Double.one false _ rfl)
      (fun h => absurd h (by decide))⟩,
   ⟨Discrete2DFunction.Reachable.construct rawD2 2 3
      [Double.zero, Double.one, Double.two, Double.three, Double.four, Double.five] _ rfl,
    C17_copy_never_fails.2.2.2.2.1 _ rawD2
      (Discrete2DFunction.Reachable.construct rawD2 2 3
        [Double.zero, Double.one, Double.two, Double.three, Double.four, Double.five]
        _ rfl)⟩⟩

/-! ## Equality and the periodic flag -/

theorem continuous2D_construct_struct (raw : Continuous2DFunction) (xsize ysize : Int)
    (values : List Double) (xmin xmax ymin ymax : Double) (periodic : Bool)
    (self : Continuous2DFunction)
    (h : Continuous2DFunction.construct raw xsize ysize values xmin xmax ymin ymax periodic
      = .ok self) :
    self = { periodic := periodic, updateCount := wrapInt (raw.updateCount + 1),
             values := values, xsize := xsize, ysize := ysize,
             xmin := xmin, xmax := xmax, ymin := ymin, ymax := ymax } := by
  have h1 := continuous2D_construct_eq raw xsize ysize values xmin xmax ymin ymax
    periodic self h
  have h2 := continuous2D_set_ok _ xsize ysize values xmin xmax ymin ymax (by rw [h1])
  rw [h1] at h2
  exact h2

theorem continuous3D_construct_struct (raw : Continuous3DFunction) (xsize ysize zsize : Int)
    (values : List Double) (xmin xmax ymin ymax zmin zmax : Double) (periodic : Bool)
    (self : Continuous3DFunction)
    (h : Continuous3DFunction.construct raw xsize ysize zsize values
      xmin xmax ymin ymax zmin zmax periodic = .ok self) :
    self = { periodic := periodic, updateCount := wrapInt (raw.updateCount + 1),
             values := values, xsize := xsize, ysize := ysize, zsize := zsize,
             xmin := xmin, xmax := xmax, ymin := ymin, ymax := ymax,
             zmin := zmin, zmax := zmax } := by
  have h1 := continuous3D_construct_eq raw xsize ysize zsize values
    xmin xmax ymin ymax zmin zmax periodic self h
  have h2 := continuous3D_set_ok _ xsize ysize zsize values
    xmin xmax ymin ymax zmin zmax (by rw [h1])
  rw [h1] at h2
  exact h2

/-- Claim C18, as amended. `operator==` ignores the periodic flag: a periodic
and a non-periodic object of the same continuous class constructed from
identical sizes, values and bounds have different `getPeriodic()`, and they
compare equal, in both orders, if and only if none of the values and bounds is
NaN. For every `values`, `min`, `max` with `max > min` and at least 3 and
fewer than `2^31` values, `Continuous1DFunction(values, min, max, true)` and
`Continuous1DFunction(values, min, max, false)` are both constructed, and they
compare equal when no value is NaN. -/
theorem C18_equality_ignores_periodic :
    (∀ (raw raw' : Continuous1DFunction) (values : List Double) (min max : Double)
        (a b : Continuous1DFunction),
      Continuous1DFunction.construct raw values min max true = .ok a →
      Continuous1DFunction.construct raw' values min max false = .ok b →
      a.getPeriodic = true ∧ b.getPeriodic = false ∧
      AnyFunction.opEq (.continuous1D a) (.continuous1D b)
        = !(([min, max] ++ values).any Double.isNaN) ∧
      AnyFunction.opEq (.continuous1D b) (.continuous1D a)
        = !(([min, max] ++ values).any Double.isNaN)) ∧
    (∀ (raw raw' : Continuous2DFunction) (xsize ysize : Int) (values : List Double)
        (xmin xmax ymin ymax : Double) (a b : Continuous2DFunction),
      Continuous2DFunction.construct raw xsize ysize values xmin xmax ymin ymax true
        = .ok a →
      Continuous2DFunction.construct raw' xsize ysize values xmin xmax ymin ymax false
        = .ok b →
      a.getPeriodic = true ∧ b.getPeriodic = false ∧
      AnyFunction.opEq (.continuous2D a) (.continuous2D b)
        = !(([xmin, xmax, ymin, ymax] ++ values).any Double.isNaN) ∧
      AnyFunction.opEq (.continuous2D b) (.continuous2D a)
        = !(([xmin, xmax, ymin, ymax] ++ values).any Double.isNaN)) ∧
    (∀ (raw raw' : Continuous3DFunction) (xsize ysize zsize : Int) (values : List Double)
        (xmin xmax ymin ymax zmin zmax : Double) (a b : Continuous3DFunction),
      Continuous3DFunction.construct raw xsize ysize zsize values
        xmin xmax ymin ymax zmin zmax true = .ok a →
      Continuous3DFunction.construct raw' xsize ysize zsize values
        xmin xmax ymin ymax zmin zmax false = .ok b →
      a.getPeriodic = true ∧ b.getPeriodic = false ∧
      AnyFunction.opEq (.continuous3D a) (.continuous3D b)
        = !(([xmin, xmax, ymin, ymax, zmin, zmax] ++ values).any Double.isNaN) ∧
      AnyFunction.opEq (.continuous3D b) (.continuous3D a)
        = !(([xmin, xmax, ymin, ymax, zmin, zmax] ++ values).any Double.isNaN)) ∧
    (∀ (raw raw' : Continuous1DFunction) (values : List Double) (min max : Double),
      Double.gt max min = true → 3 ≤ values.length → values.length < 2147483648 →
      ∃ a b, Continuous1DFunction.construct raw values min max true = .ok a ∧
        Continuous1DFunction.construct raw' values min max false = .ok b ∧
        a.getPeriodic ≠ b.getPeriodic ∧
        (values.any Double.isNaN = false →
          AnyFunction.opEq (.continuous1D a) (.continuous1D b) = true ∧
          AnyFunction.opEq (.continuous1D b) (.continuous1D a) = true)) := by
  refine ⟨?_, ?_, ?_, ?_⟩
  · intro raw raw' values min max a b ha hb
    rw [continuous1D_construct_fields _ _ _ _ _ _ ha,
      continuous1D_construct_fields _ _ _ _ _ _ hb]
    refine ⟨rfl, rfl, ?_, ?_⟩
    · exact (opEq_copy (.continuous1D _) (.continuous1D _) rfl rfl rfl rfl).2
    · exact (opEq_copy (.continuous1D _) (.continuous1D _) rfl rfl rfl rfl).1
  · intro raw raw' xsize ysize values xmin xmax ymin ymax a b ha hb
    rw [continuous2D_construct_struct _ _ _ _ _ _ _ _ _ _ ha,
      continuous2D_construct_struct _ _ _ _ _ _ _ _ _ _ hb]
    refine ⟨rfl, rfl, ?_, ?_⟩
    · exact (opEq_copy (.continuous2D _) (.continuous2D _) rfl rfl rfl rfl).2
    · exact (opEq_copy (.continuous2D _) (.continuous2D _) rfl rfl rfl rfl).1
  · intro raw raw' xsize ysize zsize values xmin xmax ymin ymax zmin zmax a b ha hb
    rw [continuous3D_construct_struct _ _ _ _ _ _ _ _ _ _ _ _ _ ha,
      continuous3D_construct_struct _ _ _ _ _ _ _ _ _ _ _ _ _ hb]
    refine ⟨rfl, rfl, ?_, ?_⟩
    · exact (opEq_copy (.continuous3D _) (.continuous3D _) rfl rfl rfl rfl).2
    · exact (opEq_copy (.continuous3D _) (.continuous3D _) rfl rfl rfl rfl).1
  · intro raw raw' values min max hgt hlen hlt
    have hnan : max.isNaN = false ∧ min.isNaN = false := by
      unfold Double.gt at hgt
      cases hmax : max.isNaN <;> cases hmin : min.isNaN <;> simp [hmax, hmin] at hgt
      exact ⟨rfl, rfl⟩
    have hle : Double.le max min = false := by
      have h := double_gt_iff_not_le max min hnan.1 hnan.2
      rw [hgt] at h
      cases hl : Double.le max min
      · rfl
      · rw [hl] at h
        cases h
    have hn : sizeToInt (size values) = (values.length : Int) := sizeToInt_of_lt _ hlt
    have ha := continuous1D_construct_ok raw values min max true hle
      (by rw [hn]; simp only [if_true]; exact_mod_cast hlen)
    have hb := continuous1D_construct_ok raw' values min max false hle
      (by rw [hn]; simp only [Bool.false_eq_true, if_false]; exact_mod_cast (by omega : 2 ≤ values.length))
    refine ⟨_, _, ha, hb, (fun h => Bool.noConfusion h), ?_⟩
    intro hv
    have hx : (AnyFunction.continuous1D
        { periodic := false, updateCount := wrapInt (raw'.updateCount + 1),
          values := values, min := min, max := max }).hasNaN = false := by
      simp [AnyFunction.hasNaN, AnyFunction.bounds, AnyFunction.values, hnan.1, hnan.2]
      simpa using hv
    have hc := opEq_copy
      (.continuous1D { periodic := true, updateCount := wrapInt (raw.updateCount + 1),
                       values := values, min := min, max := max })
      (.continuous1D { periodic := false, updateCount := wrapInt (raw'.updateCount + 1),
                       values := values, min := min, max := max }) rfl rfl rfl rfl
    rw [hx] at hc
    exact hc

/-- The periodic and the non-periodic `Continuous1DFunction([1,2,3], 0, 1)` are
both constructed, differ in `getPeriodic()` and compare equal. -/
theorem C18_equality_ignores_periodic_witness :
    Double.gt Double.one Double.zero = true ∧
    3 ≤ [Double.one, Double.two, Double.three].length ∧
    [Double.one, Double.two, Double.three].length < 2147483648 ∧
    ∃ a b, Continuous1DFunction.construct raw1D [Double.one, Double.two, Double.three]
        Double.zero Double.one true = .ok a ∧
      Continuous1DFunction.construct raw1D [Double.one, Double.two, Double.three]
        Double.zero Double.one false = .ok b ∧
      a.getPeriodic ≠ b.getPeriodic ∧
      ([Double.one, Double.two, Double.three].any Double.isNaN = false →
        AnyFunction.opEq (.continuous1D a) (.continuous1D b) = true ∧
        AnyFunction.opEq (.continuous1D b) (.continuous1D a) = true) :=
  ⟨rfl, by decide, by decide,
   C18_equality_ignores_periodic.2.2.2 raw1D raw1D
     [Double.one, Double.two, Double.three] Double.zero Double.one
     rfl (by decide) (by decide)⟩

/-- Claim C18 as stated fails on the code when a value is NaN: with
`values = [NaN, 1.0, 2.0]`, `min = 0.0`, `max = 1.0` (so `max > min` and three
values) the periodic and the non-periodic `Continuous1DFunction` are both
constructed and compare unequal, in both orders. -/
theorem C18_equality_ignores_periodic_counterexample :
    Double.gt Double.one Double.zero = true ∧
    3 ≤ [Double.nan, Double.one, Double.two].length ∧
    Continuous1DFunction.construct raw1D [Double.nan, Double.one, Double.two]
        Double.zero Double.one true
      = .ok { periodic := true, updateCount := 1,
              values := [Double.nan, Double.one, Double.two],
              min := Double.zero, max := Double.one } ∧
    Continuous1DFunction.construct raw1D [Double.nan, Double.one, Double.two]
        Double.zero Double.one false
      = .ok { periodic := false, updateCount := 1,
              values := [Double.nan, Double.one, Double.two],
              min := Double.zero, max := Double.one } ∧
    AnyFunction.opEq
      (.continuous1D { periodic := true, updateCount := 1,
                       values := [Double.nan, Double.one, Double.two],
                       min := Double.zero, max := Double.one })
      (.continuous1D { periodic := false, updateCount := 1,
                       values := [Double.nan, Double.one, Double.two],
                       min := Double.zero, max := Double.one }) = false ∧
    AnyFunction.opEq
      (.continuous1D { periodic := false, updateCount := 1,
                       values := [Double.nan, Double.one, Double.two],
                       min := Double.zero, max := Double.one })
      (.continuous1D { periodic := true, updateCount := 1,
                       values := [Double.nan, Double.one, Double.two],
                       min := Double.zero, max := Double.one }) = false :=
  ⟨rfl, by decide, rfl, rfl, rfl, rfl⟩

/-! ## Negative sizes -/

/-- Claim C19: the discrete multi-axis classes accept negative sizes whose
product is the number of values. `Discrete2DFunction(-2, -3, values)` with six
values is constructed and `getFunctionParameters` returns the sizes `-2` and
`-3`; the same arguments are accepted by `setFunctionParameters`, and
`Discrete3DFunction` accepts `(-1, -2, 3)` with six values. By contrast every
size stored in a reachable `Continuous2DFunction` or `Continuous3DFunction` is
at least 2. -/
theorem C19_discrete_negative_sizes :
    (∃ self, Discrete2DFunction.construct rawD2 (-2) (-3)
        [Double.zero, Double.one, Double.two, Double.three, Double.four, Double.five]
        = .ok self ∧
      self.getFunctionParameters = (-2, -3,
        [Double.zero, Double.one, Double.two, Double.three, Double.four, Double.five])) ∧
    ((rawD2.setFunctionParameters (-2) (-3)
        [Double.zero, Double.one, Double.two, Double.three, Double.four, Double.five]).1
        = .ok () ∧
      (rawD2.setFunctionParameters (-2) (-3)
        [Double.zero, Double.one, Double.two, Double.three, Double.four,
          Double.five]).2.getFunctionParameters = (-2, -3,
        [Double.zero, Double.one, Double.two, Double.three, Double.four, Double.five])) ∧
    (∃ self, Discrete3DFunction.construct rawD3 (-1) (-2) 3
        [Double.zero, Double.one, Double.two, Double.three, Double.four, Double.five]
        = .ok self ∧
      self.getFunctionParameters = (-1, -2, 3,
        [Double.zero, Double.one, Double.two, Double.three, Double.four, Double.five])) ∧
    ((rawD3.setFunctionParameters (-1) (-2) 3
        [Double.zero, Double.one, Double.two, Double.three, Double.four, Double.five]).1
        = .ok () ∧
      (rawD3.setFunctionParameters (-1) (-2) 3
        [Double.zero, Double.one, Double.two, Double.three, Double.four,
          Double.five]).2.getFunctionParameters = (-1, -2, 3,
        [Double.zero, Double.one, Double.two, Double.three, Double.four, Double.five])) ∧
    (∀ x : Continuous2DFunction, x.Reachable → 2 ≤ x.xsize ∧ 2 ≤ x.ysize) ∧
    (∀ x : Continuous3DFunction, x.Reachable →
      2 ≤ x.xsize ∧ 2 ≤ x.ysize ∧ 2 ≤ x.zsize) := by
  refine ⟨⟨_, rfl, rfl⟩, ⟨rfl, rfl⟩, ⟨_, rfl, rfl⟩, ⟨rfl, rfl⟩, ?_, ?_⟩
  · intro x h
    obtain ⟨ha, -⟩ := continuous2D_reachable_valid x h
    cases hper : x.periodic <;> rw [hper] at ha <;> simp at ha <;> omega
  · intro x h
    obtain ⟨ha, -⟩ := continuous3D_reachable_valid x h
    cases hper : x.periodic <;> rw [hper] at ha <;> simp at ha <;> omega

/-- The sizes of the reachable `Continuous2DFunction(2, 2, [1,2,3,4], 0, 1, 0, 1)`
are at least 2. -/
theorem C19_discrete_negative_sizes_witness :
    Continuous2DFunction.Reachable
      { periodic := false, updateCount := 1,
        values := [Double.one, Double.two, Double.three, Double.four],
        xsize := 2, ysize := 2, xmin := Double.zero, xmax := Double.one,
        ymin := Double.zero, ymax := Double.one } ∧
    (2 : Int) ≤ 2 ∧ (2 : Int) ≤ 2 :=
  ⟨Continuous2DFunction.Reachable.construct raw2D 2 2
     [Double.one, Double.two, Double.three, Double.four]
     Double.zero Double.one Double.zero Double.one false _ rfl,
   C19_discrete_negative_sizes.2.2.2.2.1
     { periodic := false, updateCount := 1,
       values := [Double.one, Double.two, Double.three, Double.four],
       xsize := 2, ysize := 2, xmin := Double.zero, xmax := Double.one,
       ymin := Double.zero, ymax := Double.one }
     (Continuous2DFunction.Reachable.construct raw2D 2 2
       [Double.one, Double.two, Double.three, Double.four]
       Double.zero Double.one Double.zero Double.one false _ rfl)⟩

/-! ## Symmetry of equality -/

/-- Claim C20: equality is symmetric across the family. For any two tabulated
functions `x` and `y`, of the same or of different concrete classes, `x == y`
and `y == x` return the same boolean. -/
theorem C20_equality_symmetric (x y : AnyFunction) : x.opEq y = y.opEq x := by
  by_cases hv : x.variant = y.variant
  · rw [Bool.eq_iff_iff, opEq_iff x y hv, opEq_iff y x hv.symm]
    constructor
    · rintro ⟨h1, h2, h3, h4, h5⟩
      exact ⟨h2, h1, h3.symm, h4.symm, h5.symm⟩
    · rintro ⟨h1, h2, h3, h4, h5⟩
      exact ⟨h2, h1, h3.symm, h4.symm, h5.symm⟩
  · rw [opEq_of_variant_ne x y hv, opEq_of_variant_ne y x (fun h => hv h.symm)]

end OpenMM
